import Mathlib

/-!
A shallow embedding of `src/server.js` (a two-player game relay with rooms,
device-bound slot leases, spectator promotion and delayed room cleanup).

Connections (`ws` objects) are modelled as sessions keyed by `Nat`; the global
mutable `rooms` object is an association list keyed by the room id string.
Node timers (`setTimeout` handles) are modelled by the absolute time at which
the scheduled callback fires: a field holding `some t` is an armed timer that
fires at time `t`; `clearTimeout` cancels it by overwriting the field.  A
fired timer is spent and cannot fire again.  Message delivery (`ws.send`) is
modelled by appending to the receiving session's `inbox`.
-/

namespace Dm

/-- JSON-like payload values, used for the opaque game-state snapshots.
`jnull` stands for JavaScript `null`. -/
inductive JVal where
  | jnull
  | jbool (b : Bool)
  | jnum (n : Int)
  | jstr (s : String)
  | jarr (elems : List JVal)
  | jobj (fields : List (String × JVal))

/-- JavaScript truthiness of a `JVal` (used by `if (room.state)` and by the
`msg.state && ...` guard). -/
def truthy : JVal → Bool
  | .jnull => false
  | .jbool b => b
  | .jnum n => decide (n ≠ 0)
  | .jstr s => decide (s ≠ "")
  | .jarr _ => true
  | .jobj _ => true

/-- `typeof v === "object"` for a `JVal`: true for objects, arrays and `null`. -/
def isObjectType : JVal → Bool
  | .jnull => true
  | .jarr _ => true
  | .jobj _ => true
  | .jbool _ => false
  | .jnum _ => false
  | .jstr _ => false

/-- Messages the server sends to a client (only the kinds the claims touch:
`role` acknowledgments and `syncState` snapshots). -/
inductive SMsg where
  | role (index : Nat)
  | syncState (st : JVal)

/-- One connection's server-side view: the `ws` object's custom fields
(`roomId`, `roleIdx`, `deviceId`, all initialized to `null` on connection),
its readiness (`readyState === OPEN`) and the messages delivered to it. -/
structure Sess where
  roomId : Option String
  roleIdx : Option Nat
  deviceId : Option String
  isOpen : Bool
  inbox : List SMsg

/-- A fresh `ws` as initialized in `wss.on("connection")`. -/
def Sess.init : Sess := ⟨none, none, none, true, []⟩

/-- One room, mirroring the object built by `getOrCreateRoom`.  The two-element
JS arrays are pairs indexed by `Fin 2`. -/
structure Room where
  slots : Option Nat × Option Nat
  spectators : List Nat
  specQueue : List String
  playerToken : Option String × Option String
  playerLeaseExpiry : Nat × Nat
  playerLeaseTimer : Option Nat × Option Nat
  state : Option JVal
  lastUpdated : Nat
  cleanupTimer : Option Nat

/-- Read component `r` of a two-element array. -/
def pget {α : Type} (p : α × α) (r : Fin 2) : α :=
  if r.val = 0 then p.1 else p.2

/-- Write component `r` of a two-element array. -/
def pset {α : Type} (p : α × α) (r : Fin 2) (v : α) : α × α :=
  if r.val = 0 then (v, p.2) else (p.1, v)

def Room.slot (room : Room) (r : Fin 2) : Option Nat := pget room.slots r

def Room.token (room : Room) (r : Fin 2) : Option String := pget room.playerToken r

def Room.expiry (room : Room) (r : Fin 2) : Nat := pget room.playerLeaseExpiry r

def Room.timer (room : Room) (r : Fin 2) : Option Nat := pget room.playerLeaseTimer r

def Room.setSlot (room : Room) (r : Fin 2) (v : Option Nat) : Room :=
  { room with slots := pset room.slots r v }

def Room.setToken (room : Room) (r : Fin 2) (v : Option String) : Room :=
  { room with playerToken := pset room.playerToken r v }

def Room.setExpiry (room : Room) (r : Fin 2) (v : Nat) : Room :=
  { room with playerLeaseExpiry := pset room.playerLeaseExpiry r v }

def Room.setTimer (room : Room) (r : Fin 2) (v : Option Nat) : Room :=
  { room with playerLeaseTimer := pset room.playerLeaseTimer r v }

/-- The fresh room object created by `getOrCreateRoom` (`lastUpdated: now()`). -/
def Room.mk0 (t : Nat) : Room :=
  { slots := (none, none), spectators := [], specQueue := [],
    playerToken := (none, none), playerLeaseExpiry := (0, 0),
    playerLeaseTimer := (none, none), state := none, lastUpdated := t,
    cleanupTimer := none }

/-- First value bound to key `k` in an association list (JS object lookup). -/
def assocFind {α β : Type} [DecidableEq α] (l : List (α × β)) (k : α) : Option β :=
  match l with
  | [] => none
  | (k', v) :: rest => if k' = k then some v else assocFind rest k

/-- In-place mutation of the value bound to key `k` (JS objects are aliased:
every entry with that key is updated, but keys are unique in all worlds we
build). -/
def assocUpdate {α β : Type} [DecidableEq α] (l : List (α × β)) (k : α) (f : β → β) :
    List (α × β) :=
  match l with
  | [] => []
  | (k', v) :: rest =>
    if k' = k then (k', f v) :: assocUpdate rest k f else (k', v) :: assocUpdate rest k f

/-- `ROLE_LEASE_MS` with its default value (`process.env` unset). -/
def ROLE_LEASE_MS : Nat := 90000

/-- The room-cleanup TTL: `15 * 60 * 1000` ms. -/
def CLEANUP_TTL : Nat := 15 * 60 * 1000

/-- The whole server state: the `rooms` table, all sessions, and the clock
(`Date.now()` at the event being processed). -/
structure World where
  rooms : List (String × Room)
  sessions : List (Nat × Sess)
  clock : Nat

def lookupRoom (w : World) (rid : String) : Option Room := assocFind w.rooms rid

def lookupSess (w : World) (sid : Nat) : Option Sess := assocFind w.sessions sid

def updateRoom (w : World) (rid : String) (f : Room → Room) : World :=
  { w with rooms := assocUpdate w.rooms rid f }

def updateSess (w : World) (sid : Nat) (f : Sess → Sess) : World :=
  { w with sessions := assocUpdate w.sessions sid f }

/-- `getOrCreateRoom(roomId)`. -/
def getOrCreateRoom (w : World) (rid : String) : World :=
  match lookupRoom w rid with
  | some _ => w
  | none => { w with rooms := w.rooms ++ [(rid, Room.mk0 w.clock)] }

/-- `send(ws, obj)`: delivered only when `ws.readyState === ws.OPEN`. -/
def sendPayload (w : World) (sid : Nat) (m : SMsg) : World :=
  match lookupSess w sid with
  | some s => if s.isOpen then updateSess w sid (fun s => { s with inbox := s.inbox ++ [m] }) else w
  | none => w

/-- `if (room.state) send(ws, { type: "syncState", state: room.state })` —
the snapshot is sent exactly when `room.state` is truthy. -/
def sendSnapshotIfAny (w : World) (sid : Nat) (stOpt : Option JVal) : World :=
  match stOpt with
  | some st => if truthy st then sendPayload w sid (.syncState st) else w
  | none => w

/-- `broadcast(roomId, obj)`: the target list is
`[room.slots[0], room.slots[1], ...room.spectators].filter(Boolean)`;
each open target receives the (once-serialized) payload. -/
def broadcast (w : World) (rid : String) (m : SMsg) : World :=
  match lookupRoom w rid with
  | none => w
  | some room =>
    (room.slots.1.toList ++ room.slots.2.toList ++ room.spectators).foldl
      (fun w sid => sendPayload w sid m) w

/-- `assignRole(room, roleIdx, ws)`: seats `ws`, records
`playerToken[roleIdx] = ws.deviceId || null`, resets the lease expiry to 0 and
cancels any pending lease timer. -/
def assignRole (w : World) (rid : String) (r : Fin 2) (sid : Nat) : World :=
  let tok : Option String :=
    match lookupSess w sid with
    | some s =>
      match s.deviceId with
      | some d => if d = "" then none else some d
      | none => none
    | none => none
  let w1 := updateRoom w rid
    (fun room => (((room.setSlot r (some sid)).setToken r tok).setExpiry r 0).setTimer r none)
  updateSess w1 sid (fun s => { s with roleIdx := some r.val })

/-- `enqueueSpectator(room, ws)`: add to the spectator set; append the
deviceId to `specQueue` when it is truthy and not already queued. -/
def enqueueSpectator (room : Room) (sid : Nat) (dev : String) : Room :=
  let specs := if sid ∈ room.spectators then room.spectators else room.spectators ++ [sid]
  let q := if dev ≠ "" ∧ dev ∉ room.specQueue then room.specQueue ++ [dev] else room.specQueue
  { room with spectators := specs, specQueue := q }

/-- The inner scan of `dequeueNextLiveSpectator`: the first spectator (in
insertion order) that is open and whose `deviceId` strictly equals `dev`. -/
def findLiveSpec (w : World) (specs : List Nat) (dev : String) : Option Nat :=
  specs.find? (fun sid =>
    match lookupSess w sid with
    | some s => s.isOpen && decide (s.deviceId = some dev)
    | none => false)

/-- `dequeueNextLiveSpectator(room)`: shift queued deviceIds until one has a
live spectator; returns the promoted session (if any) together with the
remaining queue and spectator set. -/
def dequeueNextLiveSpectator (w : World) :
    List String → List Nat → Option Nat × List String × List Nat
  | [], specs => (none, [], specs)
  | dev :: rest, specs =>
    match findLiveSpec w specs dev with
    | some sid => (some sid, rest, specs.filter (fun x => decide (x ≠ sid)))
    | none => dequeueNextLiveSpectator w rest specs

/-- `onLeaseExpire(roomId, roleIdx)`: if the slot is still empty, promote the
next live spectator, else discard the slot's reclaim rights. -/
def onLeaseExpire (w : World) (rid : String) (r : Fin 2) : World :=
  match lookupRoom w rid with
  | none => w
  | some room =>
    if room.slot r = none then
      match dequeueNextLiveSpectator w room.specQueue room.spectators with
      | (some sid, q2, specs2) =>
        let w1 := updateRoom w rid (fun rm => { rm with specQueue := q2, spectators := specs2 })
        let w2 := assignRole w1 rid r sid
        let w3 := sendPayload w2 sid (.role r.val)
        sendSnapshotIfAny w3 sid room.state
      | (none, q2, _) =>
        updateRoom w rid
          (fun rm => (({ rm with specQueue := q2 }.setToken r none).setExpiry r 0).setTimer r none)
    else w

/-- `startLeaseTimer(roomId, roleIdx)`: cancel any previous timer (overwrite),
set the expiry to `now() + ROLE_LEASE_MS` and schedule `onLeaseExpire` at that
instant. -/
def startLeaseTimer (w : World) (rid : String) (r : Fin 2) : World :=
  match lookupRoom w rid with
  | none => w
  | some _ =>
    updateRoom w rid
      (fun rm => (rm.setExpiry r (w.clock + ROLE_LEASE_MS)).setTimer r (some (w.clock + ROLE_LEASE_MS)))

/-- `room.playerToken[r] && room.playerToken[r] === deviceId`: the stored
token must be truthy (not `null`, not `""`) and strictly equal to the joining
deviceId. -/
def tokenMatches (tok : Option String) (dev : String) : Bool :=
  match tok with
  | none => false
  | some d => if d = "" then false else decide (d = dev)

/-- Condition of the join handler's first loop (token reclaim) at slot `r`. -/
def reclaimCond (room : Room) (dev : String) (r : Fin 2) (t : Nat) : Bool :=
  (room.slot r).isNone && tokenMatches (room.token r) dev &&
    (decide (room.expiry r = 0) || decide (t < room.expiry r))

/-- Condition of the join handler's second loop (fresh seat) at slot `r`. -/
def freshCond (room : Room) (r : Fin 2) (t : Nat) : Bool :=
  (room.slot r).isNone && (decide (room.expiry r = 0) || decide (room.expiry r ≤ t))

/-- Seating a player on join or promotion-free reclaim: `assignRole`, the
`role` acknowledgment, and the snapshot if the room has one. -/
def seatPlayer (w : World) (rid : String) (r : Fin 2) (sid : Nat) : World :=
  let w1 := assignRole w rid r sid
  let w2 := sendPayload w1 sid (.role r.val)
  match lookupRoom w2 rid with
  | some room => sendSnapshotIfAny w2 sid room.state
  | none => w2

/-- The `join` message handler.  `rid` and `dev` are the values of
`String(msg.room || "room1")` and `String(msg.deviceId || "")`. -/
def handleJoin (w : World) (sid : Nat) (rid dev : String) : World :=
  let w1 := getOrCreateRoom w rid
  let w2 := updateSess w1 sid (fun s => { s with roomId := some rid, deviceId := some dev })
  match lookupRoom w2 rid with
  | none => w2
  | some room =>
    if reclaimCond room dev 0 w2.clock then seatPlayer w2 rid 0 sid
    else if reclaimCond room dev 1 w2.clock then seatPlayer w2 rid 1 sid
    else if freshCond room 0 w2.clock then seatPlayer w2 rid 0 sid
    else if freshCond room 1 w2.clock then seatPlayer w2 rid 1 sid
    else
      let w3 := updateRoom w2 rid (fun rm => enqueueSpectator rm sid dev)
      match lookupRoom w3 rid with
      | none => w3
      | some room3 =>
        let ord := 2 + room3.spectators.length - 1
        let w4 := updateSess w3 sid (fun s => { s with roleIdx := some ord })
        let w5 := sendPayload w4 sid (.role ord)
        sendSnapshotIfAny w5 sid room3.state

/-- The `request_state` message handler. -/
def handleRequestState (w : World) (sid : Nat) : World :=
  match lookupSess w sid with
  | none => w
  | some s =>
    match s.roomId with
    | none => w
    | some rid =>
      match lookupRoom w rid with
      | none => w
      | some room => sendSnapshotIfAny w sid room.state

/-- The `syncState` message handler: accepted only from `roleIdx` 0 or 1 and
only when `msg.state && typeof msg.state === "object"`. -/
def handleSyncState (w : World) (sid : Nat) (stOpt : Option JVal) : World :=
  match lookupSess w sid with
  | none => w
  | some s =>
    match s.roomId with
    | none => w
    | some rid =>
      match lookupRoom w rid with
      | none => w
      | some _ =>
        if s.roleIdx = some 0 ∨ s.roleIdx = some 1 then
          match stOpt with
          | some st =>
            if truthy st && isObjectType st then
              let w1 := updateRoom w rid (fun rm => { rm with state := some st, lastUpdated := w.clock })
              broadcast w1 rid (.syncState st)
            else w
          | none => w
        else w

/-- The `ws.on("close")` handler.  The socket is closed first (it can no
longer receive), then, for a player still seated in its recorded slot, the
seat is vacated and the lease starts; for anyone else the session leaves the
spectator set.  A room left with zero peers arms the 15-minute cleanup timer,
replacing any previous one. -/
def handleClose (w : World) (sid : Nat) : World :=
  let w1 := updateSess w sid (fun s => { s with isOpen := false })
  match lookupSess w1 sid with
  | none => w1
  | some s =>
    match s.roomId with
    | none => w1
    | some rid =>
      match lookupRoom w1 rid with
      | none => w1
      | some room =>
        let w2 :=
          if s.roleIdx = some 0 ∨ s.roleIdx = some 1 then
            let r : Fin 2 := if s.roleIdx = some 0 then 0 else 1
            if room.slot r = some sid then
              startLeaseTimer (updateRoom w1 rid (fun rm => rm.setSlot r none)) rid r
            else w1
          else
            updateRoom w1 rid
              (fun rm => { rm with spectators := rm.spectators.filter (fun x => decide (x ≠ sid)) })
        match lookupRoom w2 rid with
        | none => w2
        | some room2 =>
          let peers := (if room2.slots.1.isSome then 1 else 0) +
            (if room2.slots.2.isSome then 1 else 0) + room2.spectators.length
          if peers = 0 then
            updateRoom w2 rid (fun rm => { rm with cleanupTimer := some (w2.clock + CLEANUP_TTL) })
          else w2

/-- The events that drive the server: connection establishment, the three
message kinds the claims concern, disconnection, and the two timer callbacks
(`onLeaseExpire` and the room-cleanup `setTimeout`). -/
inductive Event where
  | connect (sid : Nat)
  | join (sid : Nat) (rid dev : String)
  | requestState (sid : Nat)
  | syncState (sid : Nat) (payload : Option JVal)
  | close (sid : Nat)
  | leaseFire (rid : String) (r : Fin 2)
  | cleanupFire (rid : String)

/-- Is `sid` a currently open session? Inbound messages and the close event
only occur on open sockets. -/
def sessOpen (w : World) (sid : Nat) : Bool :=
  match lookupSess w sid with
  | some s => s.isOpen
  | none => false

/-- One event at time `t`.  Guards make `step` total: a message or close for a
non-open session, a connect for an existing one, or a timer callback whose
timer is not armed to fire at `t`, are no-ops.  A firing timer is consumed
(its field cleared) before its callback runs, matching Node timeouts. -/
def step (w : World) (e : Event) (t : Nat) : World :=
  let w := { w with clock := t }
  match e with
  | .connect sid =>
    if (lookupSess w sid).isSome then w
    else { w with sessions := w.sessions ++ [(sid, Sess.init)] }
  | .join sid rid dev => if sessOpen w sid then handleJoin w sid rid dev else w
  | .requestState sid => if sessOpen w sid then handleRequestState w sid else w
  | .syncState sid p => if sessOpen w sid then handleSyncState w sid p else w
  | .close sid => if sessOpen w sid then handleClose w sid else w
  | .leaseFire rid r =>
    match lookupRoom w rid with
    | some room =>
      if room.timer r = some t then
        onLeaseExpire (updateRoom w rid (fun rm => rm.setTimer r none)) rid r
      else w
    | none => w
  | .cleanupFire rid =>
    match lookupRoom w rid with
    | some room =>
      if room.cleanupTimer = some t then
        { w with rooms := w.rooms.filter (fun p => decide (p.1 ≠ rid)) }
      else w
    | none => w

/-- The empty initial world. -/
def initWorld : World := ⟨[], [], 0⟩

/-- Run a timed event trace from a given world. -/
def runFrom (w : World) (tr : List (Event × Nat)) : World :=
  tr.foldl (fun w p => step w p.1 p.2) w

/-- Run a timed event trace from the initial world. -/
def run (tr : List (Event × Nat)) : World := runFrom initWorld tr

/-! ### Association-list lemmas -/

theorem assocFind_update_self {α β : Type} [DecidableEq α] (l : List (α × β)) (k : α)
    (f : β → β) : assocFind (assocUpdate l k f) k = (assocFind l k).map f := by
  induction l with
  | nil => rfl
  | cons p rest ih =>
    rcases p with ⟨k', v⟩
    by_cases h : k' = k <;> simp [assocFind, assocUpdate, h, ih]

theorem assocFind_update_ne {α β : Type} [DecidableEq α] (l : List (α × β)) {k k' : α}
    (f : β → β) (h : k' ≠ k) : assocFind (assocUpdate l k f) k' = assocFind l k' := by
  induction l with
  | nil => rfl
  | cons p rest ih =>
    rcases p with ⟨k0, v⟩
    by_cases h0 : k0 = k
    · subst h0; simp [assocFind, assocUpdate, Ne.symm h, ih]
    · by_cases h1 : k0 = k' <;> simp [assocFind, assocUpdate, h0, h1, h, ih]

theorem assocUpdate_assocUpdate {α β : Type} [DecidableEq α] (l : List (α × β)) (k : α)
    (f g : β → β) : assocUpdate (assocUpdate l k f) k g = assocUpdate l k (fun x => g (f x)) := by
  induction l with
  | nil => rfl
  | cons p rest ih =>
    rcases p with ⟨k0, v⟩
    by_cases h : k0 = k <;> simp [assocUpdate, h, ih]

theorem assocFind_append_none {α β : Type} [DecidableEq α] (l : List (α × β)) {k : α}
    (v : β) (h : assocFind l k = none) : assocFind (l ++ [(k, v)]) k = some v := by
  induction l with
  | nil => simp [assocFind]
  | cons p rest ih =>
    rcases p with ⟨k0, v0⟩
    by_cases h0 : k0 = k
    · simp [assocFind, h0] at h
    · simp [assocFind, h0] at h ⊢
      exact ih h

theorem assocFind_append_ne {α β : Type} [DecidableEq α] (l : List (α × β)) {k k' : α}
    (v : β) (h : k' ≠ k) : assocFind (l ++ [(k, v)]) k' = assocFind l k' := by
  induction l with
  | nil => simp [assocFind, Ne.symm h]
  | cons p rest ih =>
    rcases p with ⟨k0, v0⟩
    by_cases h0 : k0 = k' <;> simp [assocFind, h0, ih]

theorem assocFind_filter_self {α β : Type} [DecidableEq α] (l : List (α × β)) (k : α) :
    assocFind (l.filter (fun p => decide (p.1 ≠ k))) k = none := by
  induction l with
  | nil => rfl
  | cons p rest ih =>
    rcases p with ⟨k0, v0⟩
    by_cases h0 : k0 = k
    · simp [assocFind, h0, List.filter_cons] at ih ⊢
      exact ih
    · simp [assocFind, h0, List.filter_cons] at ih ⊢
      exact ih

theorem assocFind_filter_ne {α β : Type} [DecidableEq α] (l : List (α × β)) {k k' : α}
    (h : k' ≠ k) : assocFind (l.filter (fun p => decide (p.1 ≠ k))) k' = assocFind l k' := by
  induction l with
  | nil => rfl
  | cons p rest ih =>
    rcases p with ⟨k0, v0⟩
    by_cases h0 : k0 = k
    · subst h0
      simp [assocFind, Ne.symm h, List.filter_cons] at ih ⊢
      exact ih
    · by_cases h1 : k0 = k'
      · subst h1; simp [assocFind, List.filter_cons, h0, h]
      · simp [assocFind, List.filter_cons, h0, h1] at ih ⊢
        exact ih

/-! ### Two-element-array lemmas -/

@[simp] theorem pget_pset_same {α : Type} (p : α × α) (r : Fin 2) (v : α) :
    pget (pset p r v) r = v := by
  rcases p with ⟨a, b⟩; fin_cases r <;> simp [pget, pset]

@[simp] theorem pget_pset_ne {α : Type} (p : α × α) {r r' : Fin 2} (v : α) (h : r' ≠ r) :
    pget (pset p r v) r' = pget p r' := by
  rcases p with ⟨a, b⟩; fin_cases r <;> fin_cases r' <;> simp_all [pget, pset]

/-! ### World bookkeeping lemmas -/

theorem lookupRoom_updateSess (w : World) (sid : Nat) (f : Sess → Sess) (rid : String) :
    lookupRoom (updateSess w sid f) rid = lookupRoom w rid := rfl

theorem lookupSess_updateRoom (w : World) (rid : String) (f : Room → Room) (sid : Nat) :
    lookupSess (updateRoom w rid f) sid = lookupSess w sid := rfl

theorem clock_updateRoom (w : World) (rid : String) (f : Room → Room) :
    (updateRoom w rid f).clock = w.clock := rfl

theorem clock_updateSess (w : World) (sid : Nat) (f : Sess → Sess) :
    (updateSess w sid f).clock = w.clock := rfl

theorem lookupRoom_updateRoom (w : World) (rid rid' : String) (f : Room → Room) :
    lookupRoom (updateRoom w rid f) rid' =
      if rid' = rid then (lookupRoom w rid).map f else lookupRoom w rid' := by
  by_cases h : rid' = rid
  · subst h; simpa [lookupRoom, updateRoom] using assocFind_update_self w.rooms rid' f
  · simpa [lookupRoom, updateRoom, h] using assocFind_update_ne w.rooms f h

theorem lookupSess_updateSess (w : World) (sid sid' : Nat) (f : Sess → Sess) :
    lookupSess (updateSess w sid f) sid' =
      if sid' = sid then (lookupSess w sid).map f else lookupSess w sid' := by
  by_cases h : sid' = sid
  · subst h; simpa [lookupSess, updateSess] using assocFind_update_self w.sessions sid' f
  · simpa [lookupSess, updateSess, h] using assocFind_update_ne w.sessions f h

theorem lookupRoom_updateRoom_self (w : World) (rid : String) (f : Room → Room) :
    lookupRoom (updateRoom w rid f) rid = (lookupRoom w rid).map f := by
  simpa [lookupRoom, updateRoom] using assocFind_update_self w.rooms rid f

theorem lookupRoom_updateRoom_ne (w : World) {rid rid' : String} (f : Room → Room)
    (h : rid' ≠ rid) : lookupRoom (updateRoom w rid f) rid' = lookupRoom w rid' := by
  simpa [lookupRoom, updateRoom] using assocFind_update_ne w.rooms f h

theorem lookupSess_updateSess_self (w : World) (sid : Nat) (f : Sess → Sess) :
    lookupSess (updateSess w sid f) sid = (lookupSess w sid).map f := by
  simpa [lookupSess, updateSess] using assocFind_update_self w.sessions sid f

theorem lookupSess_updateSess_ne (w : World) {sid sid' : Nat} (f : Sess → Sess)
    (h : sid' ≠ sid) : lookupSess (updateSess w sid f) sid' = lookupSess w sid' := by
  simpa [lookupSess, updateSess] using assocFind_update_ne w.sessions f h

theorem rooms_sendPayload (w : World) (sid : Nat) (m : SMsg) :
    (sendPayload w sid m).rooms = w.rooms := by
  unfold sendPayload
  rcases h : lookupSess w sid with _ | s <;> simp
  split <;> rfl

theorem clock_sendPayload (w : World) (sid : Nat) (m : SMsg) :
    (sendPayload w sid m).clock = w.clock := by
  unfold sendPayload
  rcases h : lookupSess w sid with _ | s <;> simp
  split <;> rfl

theorem lookupRoom_sendPayload (w : World) (sid : Nat) (m : SMsg) (rid : String) :
    lookupRoom (sendPayload w sid m) rid = lookupRoom w rid := by
  unfold lookupRoom
  rw [rooms_sendPayload]

theorem rooms_sendSnapshotIfAny (w : World) (sid : Nat) (stOpt : Option JVal) :
    (sendSnapshotIfAny w sid stOpt).rooms = w.rooms := by
  unfold sendSnapshotIfAny
  rcases stOpt with _ | st
  · rfl
  · simp only
    split <;> simp [rooms_sendPayload]

theorem lookupRoom_sendSnapshotIfAny (w : World) (sid : Nat) (stOpt : Option JVal)
    (rid : String) : lookupRoom (sendSnapshotIfAny w sid stOpt) rid = lookupRoom w rid := by
  unfold lookupRoom
  rw [rooms_sendSnapshotIfAny]

theorem clock_sendSnapshotIfAny (w : World) (sid : Nat) (stOpt : Option JVal) :
    (sendSnapshotIfAny w sid stOpt).clock = w.clock := by
  unfold sendSnapshotIfAny
  rcases stOpt with _ | st
  · rfl
  · simp only
    split <;> simp [clock_sendPayload]

/-- The inbox-irrelevant part of a session: everything `sendPayload` leaves
unchanged. -/
def sessCore (s : Sess) : Option String × Option Nat × Option String × Bool :=
  (s.roomId, s.roleIdx, s.deviceId, s.isOpen)

theorem sessCore_sendPayload (w : World) (x : Nat) (m : SMsg) (sid : Nat) :
    (lookupSess (sendPayload w x m) sid).map sessCore = (lookupSess w sid).map sessCore := by
  unfold sendPayload
  rcases h : lookupSess w x with _ | s
  · rfl
  · simp only
    split
    · rw [lookupSess_updateSess]
      by_cases hx : sid = x
      · subst hx; simp [h, sessCore]
      · simp [hx]
    · rfl

theorem sessOpen_sendPayload (w : World) (x : Nat) (m : SMsg) (sid : Nat) :
    sessOpen (sendPayload w x m) sid = sessOpen w sid := by
  have h := sessCore_sendPayload w x m sid
  unfold sessOpen
  rcases h1 : lookupSess (sendPayload w x m) sid with _ | s1 <;>
    rcases h2 : lookupSess w sid with _ | s2 <;> simp [h1, h2, sessCore] at h ⊢
  exact h.2.2.2

/-- `m` has been delivered to `sid`. -/
def InInbox (w : World) (sid : Nat) (m : SMsg) : Prop :=
  ∃ s, lookupSess w sid = some s ∧ m ∈ s.inbox

theorem inInbox_updateSess_append (w : World) (x sid : Nat) (m m' : SMsg)
    (h : InInbox w sid m) :
    InInbox (updateSess w x (fun s => { s with inbox := s.inbox ++ [m'] })) sid m := by
  obtain ⟨s, hs, hm⟩ := h
  by_cases hx : sid = x
  · subst hx
    have hl : lookupSess (updateSess w sid (fun s => { s with inbox := s.inbox ++ [m'] })) sid =
        some { s with inbox := s.inbox ++ [m'] } := by
      rw [lookupSess_updateSess]; simp [hs]
    exact ⟨_, hl, by simp [hm]⟩
  · have hl : lookupSess (updateSess w x (fun s => { s with inbox := s.inbox ++ [m'] })) sid =
        lookupSess w sid := by
      rw [lookupSess_updateSess]; simp [hx]
    exact ⟨s, by rw [hl]; exact hs, hm⟩

theorem inInbox_sendPayload_self (w : World) (sid : Nat) (m : SMsg)
    (h : sessOpen w sid = true) : InInbox (sendPayload w sid m) sid m := by
  unfold sessOpen at h
  unfold sendPayload
  rcases h1 : lookupSess w sid with _ | s <;> rw [h1] at h
  · cases h
  · simp only at h
    simp only [h, if_true]
    have hl : lookupSess (updateSess w sid (fun s => { s with inbox := s.inbox ++ [m] })) sid =
        some { s with inbox := s.inbox ++ [m] } := by
      rw [lookupSess_updateSess]; simp [h1]
    exact ⟨_, hl, by simp⟩

theorem inInbox_sendPayload_mono (w : World) (x sid : Nat) (m m' : SMsg)
    (h : InInbox w sid m) : InInbox (sendPayload w x m') sid m := by
  unfold sendPayload
  rcases h1 : lookupSess w x with _ | sx
  · exact h
  · simp only
    split
    · exact inInbox_updateSess_append w x sid m m' h
    · exact h

theorem inInbox_sendSnapshotIfAny_mono (w : World) (x sid : Nat) (m : SMsg)
    (stOpt : Option JVal) (h : InInbox w sid m) : InInbox (sendSnapshotIfAny w x stOpt) sid m := by
  unfold sendSnapshotIfAny
  rcases stOpt with _ | st
  · exact h
  · simp only
    split
    · exact inInbox_sendPayload_mono _ _ _ _ _ h
    · exact h

theorem foldl_send_inbox_mono (l : List Nat) (w : World) (m m' : SMsg) (sid : Nat)
    (h : InInbox w sid m) :
    InInbox (l.foldl (fun w x => sendPayload w x m') w) sid m := by
  induction l generalizing w with
  | nil => exact h
  | cons y l ih => exact ih _ (inInbox_sendPayload_mono _ _ _ _ _ h)

theorem foldl_send_delivers (l : List Nat) (w : World) (m : SMsg) (sid : Nat)
    (hm : sid ∈ l) (hopen : sessOpen w sid = true) :
    InInbox (l.foldl (fun w x => sendPayload w x m) w) sid m := by
  induction l generalizing w with
  | nil => cases hm
  | cons y l ih =>
    simp only [List.foldl_cons]
    rcases List.mem_cons.mp hm with h | h
    · subst h
      exact foldl_send_inbox_mono l _ m m sid (inInbox_sendPayload_self _ _ _ hopen)
    · exact ih _ h (by rw [sessOpen_sendPayload]; exact hopen)

theorem rooms_foldl_send (l : List Nat) (w : World) (m : SMsg) :
    (l.foldl (fun w x => sendPayload w x m) w).rooms = w.rooms := by
  induction l generalizing w with
  | nil => rfl
  | cons y l ih => rw [List.foldl_cons, ih, rooms_sendPayload]

theorem rooms_broadcast (w : World) (rid : String) (m : SMsg) :
    (broadcast w rid m).rooms = w.rooms := by
  unfold broadcast
  rcases h : lookupRoom w rid with _ | room
  · rfl
  · exact rooms_foldl_send _ _ _

theorem broadcast_delivers (w : World) (rid : String) (m : SMsg) (room : Room) (sid : Nat)
    (hroom : lookupRoom w rid = some room)
    (hmem : sid ∈ room.slots.1.toList ++ room.slots.2.toList ++ room.spectators)
    (hopen : sessOpen w sid = true) : InInbox (broadcast w rid m) sid m := by
  unfold broadcast
  rw [hroom]
  exact foldl_send_delivers _ _ _ _ hmem hopen

/-! ### Room getter/setter simp lemmas -/

@[simp] theorem Room.slot_setSlot_same (room : Room) (r : Fin 2) (v : Option Nat) :
    (room.setSlot r v).slot r = v := pget_pset_same _ _ _

@[simp] theorem Room.slot_setSlot_other (room : Room) {r r' : Fin 2} (v : Option Nat)
    (h : r' ≠ r) : (room.setSlot r v).slot r' = room.slot r' := pget_pset_ne _ _ h

@[simp] theorem Room.slot_setToken (room : Room) (r r' : Fin 2) (v : Option String) :
    (room.setToken r v).slot r' = room.slot r' := rfl

@[simp] theorem Room.slot_setExpiry (room : Room) (r r' : Fin 2) (v : Nat) :
    (room.setExpiry r v).slot r' = room.slot r' := rfl

@[simp] theorem Room.slot_setTimer (room : Room) (r r' : Fin 2) (v : Option Nat) :
    (room.setTimer r v).slot r' = room.slot r' := rfl

@[simp] theorem Room.token_setSlot (room : Room) (r r' : Fin 2) (v : Option Nat) :
    (room.setSlot r v).token r' = room.token r' := rfl

@[simp] theorem Room.token_setToken_same (room : Room) (r : Fin 2) (v : Option String) :
    (room.setToken r v).token r = v := pget_pset_same _ _ _

@[simp] theorem Room.token_setToken_other (room : Room) {r r' : Fin 2} (v : Option String)
    (h : r' ≠ r) : (room.setToken r v).token r' = room.token r' := pget_pset_ne _ _ h

@[simp] theorem Room.token_setExpiry (room : Room) (r r' : Fin 2) (v : Nat) :
    (room.setExpiry r v).token r' = room.token r' := rfl

@[simp] theorem Room.token_setTimer (room : Room) (r r' : Fin 2) (v : Option Nat) :
    (room.setTimer r v).token r' = room.token r' := rfl

@[simp] theorem Room.expiry_setSlot (room : Room) (r r' : Fin 2) (v : Option Nat) :
    (room.setSlot r v).expiry r' = room.expiry r' := rfl

@[simp] theorem Room.expiry_setToken (room : Room) (r r' : Fin 2) (v : Option String) :
    (room.setToken r v).expiry r' = room.expiry r' := rfl

@[simp] theorem Room.expiry_setExpiry_same (room : Room) (r : Fin 2) (v : Nat) :
    (room.setExpiry r v).expiry r = v := pget_pset_same _ _ _

@[simp] theorem Room.expiry_setExpiry_other (room : Room) {r r' : Fin 2} (v : Nat)
    (h : r' ≠ r) : (room.setExpiry r v).expiry r' = room.expiry r' := pget_pset_ne _ _ h

@[simp] theorem Room.expiry_setTimer (room : Room) (r r' : Fin 2) (v : Option Nat) :
    (room.setTimer r v).expiry r' = room.expiry r' := rfl

@[simp] theorem Room.timer_setSlot (room : Room) (r r' : Fin 2) (v : Option Nat) :
    (room.setSlot r v).timer r' = room.timer r' := rfl

@[simp] theorem Room.timer_setToken (room : Room) (r r' : Fin 2) (v : Option String) :
    (room.setToken r v).timer r' = room.timer r' := rfl

@[simp] theorem Room.timer_setExpiry (room : Room) (r r' : Fin 2) (v : Nat) :
    (room.setExpiry r v).timer r' = room.timer r' := rfl

@[simp] theorem Room.timer_setTimer_same (room : Room) (r : Fin 2) (v : Option Nat) :
    (room.setTimer r v).timer r = v := pget_pset_same _ _ _

@[simp] theorem Room.timer_setTimer_other (room : Room) {r r' : Fin 2} (v : Option Nat)
    (h : r' ≠ r) : (room.setTimer r v).timer r' = room.timer r' := pget_pset_ne _ _ h

@[simp] theorem Room.state_setSlot (room : Room) (r : Fin 2) (v : Option Nat) :
    (room.setSlot r v).state = room.state := rfl

@[simp] theorem Room.state_setToken (room : Room) (r : Fin 2) (v : Option String) :
    (room.setToken r v).state = room.state := rfl

@[simp] theorem Room.state_setExpiry (room : Room) (r : Fin 2) (v : Nat) :
    (room.setExpiry r v).state = room.state := rfl

@[simp] theorem Room.state_setTimer (room : Room) (r : Fin 2) (v : Option Nat) :
    (room.setTimer r v).state = room.state := rfl

@[simp] theorem Room.spectators_setSlot (room : Room) (r : Fin 2) (v : Option Nat) :
    (room.setSlot r v).spectators = room.spectators := rfl

@[simp] theorem Room.spectators_setToken (room : Room) (r : Fin 2) (v : Option String) :
    (room.setToken r v).spectators = room.spectators := rfl

@[simp] theorem Room.spectators_setExpiry (room : Room) (r : Fin 2) (v : Nat) :
    (room.setExpiry r v).spectators = room.spectators := rfl

@[simp] theorem Room.spectators_setTimer (room : Room) (r : Fin 2) (v : Option Nat) :
    (room.setTimer r v).spectators = room.spectators := rfl

@[simp] theorem Room.specQueue_setSlot (room : Room) (r : Fin 2) (v : Option Nat) :
    (room.setSlot r v).specQueue = room.specQueue := rfl

@[simp] theorem Room.specQueue_setToken (room : Room) (r : Fin 2) (v : Option String) :
    (room.setToken r v).specQueue = room.specQueue := rfl

@[simp] theorem Room.specQueue_setExpiry (room : Room) (r : Fin 2) (v : Nat) :
    (room.setExpiry r v).specQueue = room.specQueue := rfl

@[simp] theorem Room.specQueue_setTimer (room : Room) (r : Fin 2) (v : Option Nat) :
    (room.setTimer r v).specQueue = room.specQueue := rfl

@[simp] theorem Room.cleanupTimer_setSlot (room : Room) (r : Fin 2) (v : Option Nat) :
    (room.setSlot r v).cleanupTimer = room.cleanupTimer := rfl

@[simp] theorem Room.cleanupTimer_setToken (room : Room) (r : Fin 2) (v : Option String) :
    (room.setToken r v).cleanupTimer = room.cleanupTimer := rfl

@[simp] theorem Room.cleanupTimer_setExpiry (room : Room) (r : Fin 2) (v : Nat) :
    (room.setExpiry r v).cleanupTimer = room.cleanupTimer := rfl

@[simp] theorem Room.cleanupTimer_setTimer (room : Room) (r : Fin 2) (v : Option Nat) :
    (room.setTimer r v).cleanupTimer = room.cleanupTimer := rfl

@[simp] theorem Room.slot_mkUpd (room : Room) (r : Fin 2) (sp : List Nat) (q : List String) :
    ({ room with spectators := sp, specQueue := q } : Room).slot r = room.slot r := rfl

@[simp] theorem Room.token_mkUpd (room : Room) (r : Fin 2) (sp : List Nat) (q : List String) :
    ({ room with spectators := sp, specQueue := q } : Room).token r = room.token r := rfl

@[simp] theorem Room.expiry_mkUpd (room : Room) (r : Fin 2) (sp : List Nat) (q : List String) :
    ({ room with spectators := sp, specQueue := q } : Room).expiry r = room.expiry r := rfl

@[simp] theorem Room.timer_mkUpd (room : Room) (r : Fin 2) (sp : List Nat) (q : List String) :
    ({ room with spectators := sp, specQueue := q } : Room).timer r = room.timer r := rfl

@[simp] theorem Room.slot_mkState (room : Room) (r : Fin 2) (st : Option JVal) (lu : Nat) :
    ({ room with state := st, lastUpdated := lu } : Room).slot r = room.slot r := rfl

@[simp] theorem Room.token_mkState (room : Room) (r : Fin 2) (st : Option JVal) (lu : Nat) :
    ({ room with state := st, lastUpdated := lu } : Room).token r = room.token r := rfl

@[simp] theorem Room.expiry_mkState (room : Room) (r : Fin 2) (st : Option JVal) (lu : Nat) :
    ({ room with state := st, lastUpdated := lu } : Room).expiry r = room.expiry r := rfl

@[simp] theorem Room.timer_mkState (room : Room) (r : Fin 2) (st : Option JVal) (lu : Nat) :
    ({ room with state := st, lastUpdated := lu } : Room).timer r = room.timer r := rfl

@[simp] theorem Room.slot_mkCleanup (room : Room) (r : Fin 2) (ct : Option Nat) :
    ({ room with cleanupTimer := ct } : Room).slot r = room.slot r := rfl

@[simp] theorem Room.token_mkCleanup (room : Room) (r : Fin 2) (ct : Option Nat) :
    ({ room with cleanupTimer := ct } : Room).token r = room.token r := rfl

@[simp] theorem Room.expiry_mkCleanup (room : Room) (r : Fin 2) (ct : Option Nat) :
    ({ room with cleanupTimer := ct } : Room).expiry r = room.expiry r := rfl

@[simp] theorem Room.timer_mkCleanup (room : Room) (r : Fin 2) (ct : Option Nat) :
    ({ room with cleanupTimer := ct } : Room).timer r = room.timer r := rfl

/-! ### Handler characterization lemmas -/

/-- The token `assignRole` records: `ws.deviceId || null`. -/
def devToken (dev : Option String) : Option String :=
  match dev with
  | some d => if d = "" then none else some d
  | none => none

/-- The room fields written by `assignRole`. -/
def assignedRoom (room : Room) (r : Fin 2) (sid : Nat) (tok : Option String) : Room :=
  (((room.setSlot r (some sid)).setToken r tok).setExpiry r 0).setTimer r none

theorem assignRole_spec (w : World) (rid : String) (r : Fin 2) (sid : Nat) (room : Room)
    (s : Sess) (hroom : lookupRoom w rid = some room) (hs : lookupSess w sid = some s) :
    lookupRoom (assignRole w rid r sid) rid =
      some (assignedRoom room r sid (devToken s.deviceId)) ∧
    lookupSess (assignRole w rid r sid) sid = some { s with roleIdx := some r.val } ∧
    (∀ sid', sid' ≠ sid → lookupSess (assignRole w rid r sid) sid' = lookupSess w sid') ∧
    (∀ rid', rid' ≠ rid → lookupRoom (assignRole w rid r sid) rid' = lookupRoom w rid') ∧
    (assignRole w rid r sid).clock = w.clock := by
  unfold assignRole
  rw [hs]
  refine ⟨?_, ?_, ?_, ?_, rfl⟩
  · rw [lookupRoom_updateSess, lookupRoom_updateRoom]
    simp [hroom, assignedRoom, devToken]
  · rw [lookupSess_updateSess]
    simp [lookupSess_updateRoom, hs]
  · intro sid' h
    rw [lookupSess_updateSess]
    simp [h, lookupSess_updateRoom]
  · intro rid' h
    rw [lookupRoom_updateSess, lookupRoom_updateRoom]
    simp [h]

theorem lookupSess_sendPayload_ne (w : World) (x : Nat) (m : SMsg) (sid : Nat)
    (h : sid ≠ x) : lookupSess (sendPayload w x m) sid = lookupSess w sid := by
  unfold sendPayload
  rcases h1 : lookupSess w x with _ | s
  · rfl
  · simp only
    split
    · rw [lookupSess_updateSess]; simp [h]
    · rfl

theorem lookupSess_sendSnapshotIfAny_ne (w : World) (x : Nat) (stOpt : Option JVal)
    (sid : Nat) (h : sid ≠ x) : lookupSess (sendSnapshotIfAny w x stOpt) sid = lookupSess w sid := by
  unfold sendSnapshotIfAny
  rcases stOpt with _ | st
  · rfl
  · simp only
    split
    · exact lookupSess_sendPayload_ne _ _ _ _ h
    · rfl

theorem sessCore_sendSnapshotIfAny (w : World) (x : Nat) (stOpt : Option JVal) (sid : Nat) :
    (lookupSess (sendSnapshotIfAny w x stOpt) sid).map sessCore =
      (lookupSess w sid).map sessCore := by
  unfold sendSnapshotIfAny
  rcases stOpt with _ | st
  · rfl
  · simp only
    split
    · exact sessCore_sendPayload _ _ _ _
    · rfl

theorem inInbox_sendSnapshotIfAny_self (w : World) (sid : Nat) (st : JVal)
    (hopen : sessOpen w sid = true) (ht : truthy st = true) :
    InInbox (sendSnapshotIfAny w sid (some st)) sid (.syncState st) := by
  unfold sendSnapshotIfAny
  simp only [ht, if_true]
  exact inInbox_sendPayload_self _ _ _ hopen

theorem sessOpen_sendSnapshotIfAny (w : World) (x : Nat) (stOpt : Option JVal) (sid : Nat) :
    sessOpen (sendSnapshotIfAny w x stOpt) sid = sessOpen w sid := by
  unfold sendSnapshotIfAny
  rcases stOpt with _ | st
  · rfl
  · simp only
    split
    · exact sessOpen_sendPayload _ _ _ _
    · rfl

theorem seatPlayer_spec (w : World) (rid : String) (r : Fin 2) (sid : Nat) (room : Room)
    (s : Sess) (hroom : lookupRoom w rid = some room) (hs : lookupSess w sid = some s) :
    lookupRoom (seatPlayer w rid r sid) rid =
      some (assignedRoom room r sid (devToken s.deviceId)) ∧
    (lookupSess (seatPlayer w rid r sid) sid).map sessCore =
      some (s.roomId, some r.val, s.deviceId, s.isOpen) ∧
    (s.isOpen = true → InInbox (seatPlayer w rid r sid) sid (.role r.val) ∧
      (∀ st, room.state = some st → truthy st = true →
        InInbox (seatPlayer w rid r sid) sid (.syncState st))) ∧
    (∀ sid', sid' ≠ sid → lookupSess (seatPlayer w rid r sid) sid' = lookupSess w sid') ∧
    (∀ rid', rid' ≠ rid → lookupRoom (seatPlayer w rid r sid) rid' = lookupRoom w rid') ∧
    (seatPlayer w rid r sid).clock = w.clock := by
  obtain ⟨ha1, ha2, ha3, ha4, ha5⟩ := assignRole_spec w rid r sid room s hroom hs
  have hroom2 : lookupRoom (sendPayload (assignRole w rid r sid) sid (.role r.val)) rid =
      some (assignedRoom room r sid (devToken s.deviceId)) := by
    rw [lookupRoom_sendPayload]; exact ha1
  have heq : seatPlayer w rid r sid =
      sendSnapshotIfAny (sendPayload (assignRole w rid r sid) sid (.role r.val)) sid
        (assignedRoom room r sid (devToken s.deviceId)).state := by
    unfold seatPlayer
    simp only [hroom2]
  rw [heq]
  have hstate : (assignedRoom room r sid (devToken s.deviceId)).state = room.state := by
    simp [assignedRoom]
  refine ⟨?_, ?_, ?_, ?_, ?_, ?_⟩
  · rw [lookupRoom_sendSnapshotIfAny, lookupRoom_sendPayload]; exact ha1
  · rw [sessCore_sendSnapshotIfAny, sessCore_sendPayload, ha2]
    rfl
  · intro hopen
    have hopen1 : sessOpen (assignRole w rid r sid) sid = true := by
      unfold sessOpen
      rw [ha2]
      exact hopen
    constructor
    · exact inInbox_sendSnapshotIfAny_mono _ _ _ _ _
        (inInbox_sendPayload_self _ _ _ hopen1)
    · intro st hst ht
      rw [hstate, hst]
      apply inInbox_sendSnapshotIfAny_self
      · rw [sessOpen_sendPayload]; exact hopen1
      · exact ht
  · intro sid' h
    rw [lookupSess_sendSnapshotIfAny_ne _ _ _ _ h, lookupSess_sendPayload_ne _ _ _ _ h]
    exact ha3 sid' h
  · intro rid' h
    rw [lookupRoom_sendSnapshotIfAny, lookupRoom_sendPayload]
    exact ha4 rid' h
  · rw [clock_sendSnapshotIfAny, clock_sendPayload]
    exact ha5

/-! ### `step` unfolding wrappers -/

theorem sessOpen_setClock (w : World) (t : Nat) (sid : Nat) :
    sessOpen { w with clock := t } sid = sessOpen w sid := rfl

theorem step_join_eq (w : World) (sid : Nat) (rid dev : String) (t : Nat)
    (h : sessOpen w sid = true) :
    step w (.join sid rid dev) t = handleJoin { w with clock := t } sid rid dev := by
  simp only [step, sessOpen_setClock, h, if_true]

theorem step_close_eq (w : World) (sid : Nat) (t : Nat) (h : sessOpen w sid = true) :
    step w (.close sid) t = handleClose { w with clock := t } sid := by
  simp only [step, sessOpen_setClock, h, if_true]

theorem step_syncState_eq (w : World) (sid : Nat) (p : Option JVal) (t : Nat)
    (h : sessOpen w sid = true) :
    step w (.syncState sid p) t = handleSyncState { w with clock := t } sid p := by
  simp only [step, sessOpen_setClock, h, if_true]

theorem step_requestState_eq (w : World) (sid : Nat) (t : Nat) (h : sessOpen w sid = true) :
    step w (.requestState sid) t = handleRequestState { w with clock := t } sid := by
  simp only [step, sessOpen_setClock, h, if_true]

theorem step_leaseFire_eq (w : World) (rid : String) (r : Fin 2) (t : Nat) (room : Room)
    (hroom : lookupRoom w rid = some room) (harm : room.timer r = some t) :
    step w (.leaseFire rid r) t =
      onLeaseExpire (updateRoom { w with clock := t } rid (fun rm => rm.setTimer r none)) rid r := by
  have hroom' : lookupRoom { w with clock := t } rid = some room := hroom
  simp only [step, hroom', harm, if_true]

/-! ### `handleJoin` branch lemmas -/

theorem handleJoin_reclaim_eq (w : World) (sid : Nat) (rid dev : String) (room : Room)
    (r : Fin 2) (hroom : lookupRoom w rid = some room)
    (hcond : reclaimCond room dev r w.clock = true)
    (hfirst : r = 1 → reclaimCond room dev 0 w.clock = false) :
    handleJoin w sid rid dev =
      seatPlayer (updateSess w sid
        (fun s => { s with roomId := some rid, deviceId := some dev })) rid r sid := by
  have hget : getOrCreateRoom w rid = w := by
    unfold getOrCreateRoom
    rw [hroom]
  have hroom2 : lookupRoom (updateSess w sid
      (fun s => { s with roomId := some rid, deviceId := some dev })) rid = some room := by
    rw [lookupRoom_updateSess]; exact hroom
  have hclock : (updateSess w sid
      (fun s => { s with roomId := some rid, deviceId := some dev })).clock = w.clock := rfl
  have hr01 : r = 0 ∨ r = 1 := by fin_cases r <;> simp
  unfold handleJoin
  rw [hget]
  rcases hr01 with rfl | rfl
  · simp only [hroom2, hclock, hcond, if_true]
  · have h0 : reclaimCond room dev 0 w.clock = false := hfirst rfl
    simp only [hroom2, hclock, h0, hcond, Bool.false_eq_true, if_false, if_true]

theorem handleJoin_fresh_eq (w : World) (sid : Nat) (rid dev : String) (room : Room)
    (r : Fin 2) (hroom : lookupRoom w rid = some room)
    (hrc0 : reclaimCond room dev 0 w.clock = false)
    (hrc1 : reclaimCond room dev 1 w.clock = false)
    (hcond : freshCond room r w.clock = true)
    (hfirst : r = 1 → freshCond room 0 w.clock = false) :
    handleJoin w sid rid dev =
      seatPlayer (updateSess w sid
        (fun s => { s with roomId := some rid, deviceId := some dev })) rid r sid := by
  have hget : getOrCreateRoom w rid = w := by
    unfold getOrCreateRoom
    rw [hroom]
  have hroom2 : lookupRoom (updateSess w sid
      (fun s => { s with roomId := some rid, deviceId := some dev })) rid = some room := by
    rw [lookupRoom_updateSess]; exact hroom
  have hclock : (updateSess w sid
      (fun s => { s with roomId := some rid, deviceId := some dev })).clock = w.clock := rfl
  have hr01 : r = 0 ∨ r = 1 := by fin_cases r <;> simp
  unfold handleJoin
  rw [hget]
  rcases hr01 with rfl | rfl
  · simp only [hroom2, hclock, hrc0, hrc1, hcond, Bool.false_eq_true, if_false, if_true]
  · have h0 : freshCond room 0 w.clock = false := hfirst rfl
    simp only [hroom2, hclock, hrc0, hrc1, h0, hcond, Bool.false_eq_true, if_false, if_true]

theorem handleJoin_spectate_eq (w : World) (sid : Nat) (rid dev : String) (room : Room)
    (hroom : lookupRoom w rid = some room)
    (hrc0 : reclaimCond room dev 0 w.clock = false)
    (hrc1 : reclaimCond room dev 1 w.clock = false)
    (hf0 : freshCond room 0 w.clock = false)
    (hf1 : freshCond room 1 w.clock = false) :
    handleJoin w sid rid dev =
      (let w3 := updateRoom (updateSess w sid
        (fun s => { s with roomId := some rid, deviceId := some dev })) rid
        (fun rm => enqueueSpectator rm sid dev);
      let room3 := enqueueSpectator room sid dev;
      let ord := 2 + room3.spectators.length - 1;
      sendSnapshotIfAny
        (sendPayload (updateSess w3 sid (fun s => { s with roleIdx := some ord })) sid (.role ord))
        sid room3.state) := by
  have hget : getOrCreateRoom w rid = w := by
    unfold getOrCreateRoom
    rw [hroom]
  have hroom2 : lookupRoom (updateSess w sid
      (fun s => { s with roomId := some rid, deviceId := some dev })) rid = some room := by
    rw [lookupRoom_updateSess]; exact hroom
  have hclock : (updateSess w sid
      (fun s => { s with roomId := some rid, deviceId := some dev })).clock = w.clock := rfl
  have hroom3 : lookupRoom (updateRoom (updateSess w sid
      (fun s => { s with roomId := some rid, deviceId := some dev })) rid
      (fun rm => enqueueSpectator rm sid dev)) rid = some (enqueueSpectator room sid dev) := by
    rw [lookupRoom_updateRoom]
    simp [hroom2]
  unfold handleJoin
  rw [hget]
  simp only [hroom2, hclock, hrc0, hrc1, hf0, hf1, Bool.false_eq_true, if_false, hroom3]

/-! ### `handleClose` characterization -/


/-- The room fields written when a seated player's slot is vacated on close:
slot cleared, lease expiry and timer armed for `e`. -/
def leasedRoom (room : Room) (r : Fin 2) (e : Nat) : Room :=
  ((room.setSlot r none).setExpiry r e).setTimer r (some e)

/-- The occupancy count recomputed at the end of `ws.on("close")`. -/
def peersOf (room : Room) : Nat :=
  (if room.slots.1.isSome then 1 else 0) + (if room.slots.2.isSome then 1 else 0) +
    room.spectators.length

theorem handleClose_player_eq (w : World) (sid : Nat) (s : Sess) (rid : String)
    (room : Room) (r : Fin 2) (hs : lookupSess w sid = some s)
    (hroomId : s.roomId = some rid) (hrole : s.roleIdx = some r.val)
    (hroom : lookupRoom w rid = some room) (hslot : room.slot r = some sid) :
    handleClose w sid =
      (if peersOf (leasedRoom room r (w.clock + ROLE_LEASE_MS)) = 0 then
        updateRoom (updateRoom (updateRoom (updateSess w sid
          (fun s => { s with isOpen := false })) rid
          (fun rm => rm.setSlot r none)) rid
          (fun rm => (rm.setExpiry r (w.clock + ROLE_LEASE_MS)).setTimer r
            (some (w.clock + ROLE_LEASE_MS)))) rid
          (fun rm => { rm with cleanupTimer := some (w.clock + CLEANUP_TTL) })
      else
        updateRoom (updateRoom (updateSess w sid
          (fun s => { s with isOpen := false })) rid
          (fun rm => rm.setSlot r none)) rid
          (fun rm => (rm.setExpiry r (w.clock + ROLE_LEASE_MS)).setTimer r
            (some (w.clock + ROLE_LEASE_MS)))) := by
  have h1 : lookupSess (updateSess w sid (fun s => { s with isOpen := false })) sid
      = some { s with isOpen := false } := by
    rw [lookupSess_updateSess]; simp [hs]
  have hroomw1 : lookupRoom (updateSess w sid (fun s => { s with isOpen := false })) rid
      = some room := hroom
  have hr01 : r = 0 ∨ r = 1 := by fin_cases r <;> simp
  have hA : lookupRoom (updateRoom (updateSess w sid (fun s => { s with isOpen := false }))
      rid (fun rm => rm.setSlot r none)) rid = some (room.setSlot r none) := by
    rw [lookupRoom_updateRoom]
    simp [hroomw1]
  have hB : lookupRoom (startLeaseTimer (updateRoom (updateSess w sid
      (fun s => { s with isOpen := false })) rid (fun rm => rm.setSlot r none)) rid r) rid =
      some (((room.setSlot r none).setExpiry r
        (w.clock + ROLE_LEASE_MS)).setTimer r (some (w.clock + ROLE_LEASE_MS))) := by
    have hstl : startLeaseTimer (updateRoom (updateSess w sid
        (fun s => { s with isOpen := false })) rid (fun rm => rm.setSlot r none)) rid r =
        updateRoom (updateRoom (updateSess w sid (fun s => { s with isOpen := false })) rid
          (fun rm => rm.setSlot r none)) rid
          (fun rm => (rm.setExpiry r (w.clock + ROLE_LEASE_MS)).setTimer r
            (some (w.clock + ROLE_LEASE_MS))) := by
      simp only [startLeaseTimer, hA]
      rfl
    rw [hstl, lookupRoom_updateRoom]
    simp [hA]
  rcases hr01 with rfl | rfl <;>
    simp only [handleClose, h1, hroomId, hrole, hroomw1, Fin.val_zero, Fin.val_one, hslot,
      Option.some.injEq, Fin.isValue, hB, true_or, or_true, reduceCtorEq, or_false, false_or,
      if_true, if_false, ite_true, ite_false, one_ne_zero, zero_ne_one, ite_self,
      peersOf, leasedRoom] <;>
    { congr 1
      · simp only [startLeaseTimer, hA]
        rfl
      · simp only [startLeaseTimer, hA]
        rfl }

theorem handleClose_player_spec (w : World) (sid : Nat) (s : Sess) (rid : String)
    (room : Room) (r : Fin 2) (hs : lookupSess w sid = some s)
    (hroomId : s.roomId = some rid) (hrole : s.roleIdx = some r.val)
    (hroom : lookupRoom w rid = some room) (hslot : room.slot r = some sid) :
    (∃ room2, lookupRoom (handleClose w sid) rid = some room2 ∧
      room2.slot r = none ∧
      room2.token r = room.token r ∧
      room2.expiry r = w.clock + ROLE_LEASE_MS ∧
      room2.timer r = some (w.clock + ROLE_LEASE_MS) ∧
      (∀ r', r' ≠ r → room2.slot r' = room.slot r' ∧ room2.token r' = room.token r' ∧
        room2.expiry r' = room.expiry r' ∧ room2.timer r' = room.timer r') ∧
      room2.state = room.state ∧ room2.spectators = room.spectators ∧
      room2.specQueue = room.specQueue) ∧
    lookupSess (handleClose w sid) sid = some { s with isOpen := false } ∧
    (∀ sid', sid' ≠ sid → lookupSess (handleClose w sid) sid' = lookupSess w sid') ∧
    (∀ rid', rid' ≠ rid → lookupRoom (handleClose w sid) rid' = lookupRoom w rid') ∧
    (handleClose w sid).clock = w.clock := by
  rw [handleClose_player_eq w sid s rid room r hs hroomId hrole hroom hslot]
  have hroomw1 : lookupRoom (updateSess w sid (fun s => { s with isOpen := false })) rid
      = some room := hroom
  have hA : lookupRoom (updateRoom (updateSess w sid (fun s => { s with isOpen := false }))
      rid (fun rm => rm.setSlot r none)) rid = some (room.setSlot r none) := by
    rw [lookupRoom_updateRoom]
    simp [hroomw1]
  have hW2 : lookupRoom (updateRoom (updateRoom (updateSess w sid
      (fun s => { s with isOpen := false })) rid (fun rm => rm.setSlot r none)) rid
      (fun rm => (rm.setExpiry r (w.clock + ROLE_LEASE_MS)).setTimer r
        (some (w.clock + ROLE_LEASE_MS)))) rid =
      some (leasedRoom room r (w.clock + ROLE_LEASE_MS)) := by
    rw [lookupRoom_updateRoom]
    simp [hA, leasedRoom]
  have hW2ne : ∀ rid', rid' ≠ rid → lookupRoom (updateRoom (updateRoom (updateSess w sid
      (fun s => { s with isOpen := false })) rid (fun rm => rm.setSlot r none)) rid
      (fun rm => (rm.setExpiry r (w.clock + ROLE_LEASE_MS)).setTimer r
        (some (w.clock + ROLE_LEASE_MS)))) rid' = lookupRoom w rid' := by
    intro rid' h
    rw [lookupRoom_updateRoom]
    rw [if_neg h, lookupRoom_updateRoom, if_neg h]
    rfl
  have hroomFacts : ∀ room2 : Room, room2 = leasedRoom room r (w.clock + ROLE_LEASE_MS) →
      room2.slot r = none ∧ room2.token r = room.token r ∧
      room2.expiry r = w.clock + ROLE_LEASE_MS ∧
      room2.timer r = some (w.clock + ROLE_LEASE_MS) ∧
      (∀ r', r' ≠ r → room2.slot r' = room.slot r' ∧ room2.token r' = room.token r' ∧
        room2.expiry r' = room.expiry r' ∧ room2.timer r' = room.timer r') ∧
      room2.state = room.state ∧ room2.spectators = room.spectators ∧
      room2.specQueue = room.specQueue := by
    rintro _ rfl
    refine ⟨by simp [leasedRoom], by simp [leasedRoom], by simp [leasedRoom],
      by simp [leasedRoom], ?_, by simp [leasedRoom], by simp [leasedRoom],
      by simp [leasedRoom]⟩
    intro r' hr'
    simp [leasedRoom, hr']
  by_cases hpeers : peersOf (leasedRoom room r (w.clock + ROLE_LEASE_MS)) = 0
  · rw [if_pos hpeers]
    refine ⟨?_, ?_, ?_, ?_, rfl⟩
    · refine ⟨{ leasedRoom room r (w.clock + ROLE_LEASE_MS) with
        cleanupTimer := some (w.clock + CLEANUP_TTL) }, ?_, ?_⟩
      · rw [lookupRoom_updateRoom, if_pos rfl, hW2]
        rfl
      · obtain ⟨f1, f2, f3, f4, f5, f6, f7, f8⟩ :=
          hroomFacts (leasedRoom room r (w.clock + ROLE_LEASE_MS)) rfl
        exact ⟨f1, f2, f3, f4, fun r' hr' => f5 r' hr', f6, f7, f8⟩
    · rw [lookupSess_updateRoom, lookupSess_updateRoom, lookupSess_updateRoom,
        lookupSess_updateSess]
      simp [hs]
    · intro sid' h
      rw [lookupSess_updateRoom, lookupSess_updateRoom, lookupSess_updateRoom,
        lookupSess_updateSess]
      simp [h]
    · intro rid' h
      rw [lookupRoom_updateRoom, if_neg h]
      exact hW2ne rid' h
  · rw [if_neg hpeers]
    refine ⟨?_, ?_, ?_, ?_, rfl⟩
    · exact ⟨leasedRoom room r (w.clock + ROLE_LEASE_MS), hW2,
        hroomFacts (leasedRoom room r (w.clock + ROLE_LEASE_MS)) rfl⟩
    · rw [lookupSess_updateRoom, lookupSess_updateRoom, lookupSess_updateSess]
      simp [hs]
    · intro sid' h
      rw [lookupSess_updateRoom, lookupSess_updateRoom, lookupSess_updateSess]
      simp [h]
    · exact hW2ne

/-! ### Claim theorems -/

/-- C7: when a session that is still the recorded occupant of slot `r`
disconnects, the slot occupant reference is cleared, the pre-existing lease
timer for that slot is replaced, `playerLeaseExpiry[r]` becomes
`now + ROLE_LEASE_MS` (default 90000 ms), expiry handling is scheduled at
exactly that instant, and the slot's `playerToken` is left unchanged. -/
theorem claim_C7_close_starts_lease (w : World) (sid : Nat) (s : Sess) (rid : String)
    (room : Room) (r : Fin 2) (t : Nat) (hs : lookupSess w sid = some s)
    (hopen : s.isOpen = true) (hroomId : s.roomId = some rid)
    (hrole : s.roleIdx = some r.val) (hroom : lookupRoom w rid = some room)
    (hslot : room.slot r = some sid) :
    ∃ room2, lookupRoom (step w (.close sid) t) rid = some room2 ∧
      room2.slot r = none ∧
      room2.expiry r = t + ROLE_LEASE_MS ∧
      room2.timer r = some (t + ROLE_LEASE_MS) ∧
      room2.token r = room.token r ∧
      ROLE_LEASE_MS = 90000 := by
  have hso : sessOpen w sid = true := by
    unfold sessOpen
    rw [hs]
    exact hopen
  rw [step_close_eq w sid t hso]
  obtain ⟨⟨room2, hr2, hr2slot, hr2tok, hr2exp, hr2tim, _⟩, _⟩ :=
    handleClose_player_spec { w with clock := t } sid s rid room r hs hroomId hrole hroom hslot
  exact ⟨room2, hr2, hr2slot, hr2exp, hr2tim, hr2tok, rfl⟩

/-- Witness for C7 at a concrete world: session 1 seated in slot 0 of room
`"r"` disconnects at time 5. -/
theorem claim_C7_witness :
    ∃ room2, lookupRoom (step
      (⟨[("r", ⟨(some 1, none), [], [], (some "d", none), (0, 0), (none, none), none, 0, none⟩)],
        [(1, ⟨some "r", some 0, some "d", true, []⟩)], 0⟩ : World)
      (.close 1) 5) "r" = some room2 ∧
      room2.slot 0 = none ∧
      room2.expiry 0 = 5 + ROLE_LEASE_MS ∧
      room2.timer 0 = some (5 + ROLE_LEASE_MS) ∧
      room2.token 0 = (⟨(some 1, none), [], [], (some "d", none), (0, 0), (none, none),
        none, 0, none⟩ : Room).token 0 ∧
      ROLE_LEASE_MS = 90000 :=
  claim_C7_close_starts_lease _ 1 _ "r" _ 0 5 rfl rfl rfl rfl rfl rfl

/-! ### `handleSyncState` characterization -/

/-- The acceptance condition of the `syncState` handler: sender seated as a
player, and `msg.state && typeof msg.state === "object"`. -/
def syncAccepted (s : Sess) (stOpt : Option JVal) : Prop :=
  (s.roleIdx = some 0 ∨ s.roleIdx = some 1) ∧
  ∃ st, stOpt = some st ∧ truthy st = true ∧ isObjectType st = true

theorem handleSyncState_accept_eq (w : World) (sid : Nat) (s : Sess) (rid : String)
    (room : Room) (st : JVal) (hs : lookupSess w sid = some s)
    (hroomId : s.roomId = some rid) (hroom : lookupRoom w rid = some room)
    (hrole : s.roleIdx = some 0 ∨ s.roleIdx = some 1)
    (hguard : (truthy st && isObjectType st) = true) :
    handleSyncState w sid (some st) =
      broadcast (updateRoom w rid
        (fun rm => { rm with state := some st, lastUpdated := w.clock })) rid
        (.syncState st) := by
  unfold handleSyncState
  rw [hs]
  simp only [hroomId, hroom, hrole, if_true, hguard, if_pos hrole]

theorem handleSyncState_reject_eq (w : World) (sid : Nat) (s : Sess)
    (stOpt : Option JVal) (hs : lookupSess w sid = some s)
    (hna : ¬ syncAccepted s stOpt) :
    handleSyncState w sid stOpt = w := by
  unfold handleSyncState
  simp only [hs]
  rcases hrid : s.roomId with _ | rid
  · simp only [hrid]
  · simp only [hrid]
    rcases hroom : lookupRoom w rid with _ | room
    · simp only [hroom]
    · simp only [hroom]
      by_cases hrole : s.roleIdx = some 0 ∨ s.roleIdx = some 1
      · rw [if_pos hrole]
        rcases stOpt with _ | st
        · rfl
        · simp only
          have hguard : (truthy st && isObjectType st) = false := by
            rcases hb : truthy st && isObjectType st
            · rfl
            · exfalso
              exact hna ⟨hrole, st, rfl, (Bool.and_eq_true _ _).mp hb⟩
          rw [hguard]
          rfl
      · rw [if_neg hrole]

theorem lookupRoom_broadcast (w : World) (rid : String) (m : SMsg) (rid' : String) :
    lookupRoom (broadcast w rid m) rid' = lookupRoom w rid' := by
  unfold lookupRoom
  rw [rooms_broadcast]

theorem sessOpen_foldl_send (l : List Nat) (w : World) (m : SMsg) (sid : Nat) :
    sessOpen (l.foldl (fun w x => sendPayload w x m) w) sid = sessOpen w sid := by
  induction l generalizing w with
  | nil => rfl
  | cons y l ih => rw [List.foldl_cons, ih, sessOpen_sendPayload]

theorem sessOpen_broadcast (w : World) (rid : String) (m : SMsg) (sid : Nat) :
    sessOpen (broadcast w rid m) sid = sessOpen w sid := by
  unfold broadcast
  rcases h : lookupRoom w rid with _ | room
  · rfl
  · exact sessOpen_foldl_send _ _ _ _

/-- C6: a `syncState` message mutates the room exactly when the sender's role
is player 0 or 1 and the payload's `state` is present, truthy and of object
type; on acceptance the snapshot is replaced, `lastUpdated` is set to the
current time and the new snapshot is broadcast to the entire room including
the sender; on rejection rooms and sessions are left unchanged and nothing is
delivered. -/
theorem claim_C6_syncState_guard (w : World) (sid : Nat) (s : Sess) (rid : String)
    (room : Room) (stOpt : Option JVal) (t : Nat)
    (hs : lookupSess w sid = some s) (hopen : s.isOpen = true)
    (hroomId : s.roomId = some rid) (hroom : lookupRoom w rid = some room)
    (hseated : ∀ j : Fin 2, s.roleIdx = some j.val → room.slot j = some sid) :
    (syncAccepted s stOpt →
      ∃ st, stOpt = some st ∧
        (∃ room', lookupRoom (step w (.syncState sid stOpt) t) rid = some room' ∧
          room'.state = some st ∧ room'.lastUpdated = t ∧
          room'.slots = room.slots ∧ room'.spectators = room.spectators ∧
          room'.specQueue = room.specQueue ∧ room'.playerToken = room.playerToken) ∧
        (∀ x, x ∈ room.slots.1.toList ++ room.slots.2.toList ++ room.spectators →
          sessOpen w x = true → InInbox (step w (.syncState sid stOpt) t) x (.syncState st)) ∧
        InInbox (step w (.syncState sid stOpt) t) sid (.syncState st)) ∧
    (¬ syncAccepted s stOpt →
      (step w (.syncState sid stOpt) t).rooms = w.rooms ∧
      (step w (.syncState sid stOpt) t).sessions = w.sessions) := by
  have hso : sessOpen w sid = true := by
    unfold sessOpen
    rw [hs]
    exact hopen
  rw [step_syncState_eq w sid stOpt t hso]
  have hsT : lookupSess { w with clock := t } sid = some s := hs
  have hroomT : lookupRoom { w with clock := t } rid = some room := hroom
  constructor
  · rintro ⟨hrole, st, rfl, htr, hobj⟩
    have haccept := handleSyncState_accept_eq { w with clock := t } sid s rid room st hsT
      hroomId hroomT hrole (by simp [htr, hobj])
    rw [haccept]
    have hw1 : lookupRoom (updateRoom { w with clock := t } rid
        (fun rm => { rm with state := some st, lastUpdated := ({ w with clock := t } : World).clock }))
        rid = some { room with state := some st, lastUpdated := t } := by
      rw [lookupRoom_updateRoom]
      simp [hroomT]
    have hdeliv : ∀ x, x ∈ room.slots.1.toList ++ room.slots.2.toList ++ room.spectators →
        sessOpen w x = true →
        InInbox (broadcast (updateRoom { w with clock := t } rid
          (fun rm => { rm with state := some st, lastUpdated := ({ w with clock := t } : World).clock })) rid (.syncState st))
          x (.syncState st) := by
      intro x hx hopenx
      exact broadcast_delivers _ rid (.syncState st)
        { room with state := some st, lastUpdated := t } x hw1 hx hopenx
    refine ⟨st, rfl, ⟨{ room with state := some st, lastUpdated := t }, ?_, rfl, rfl, rfl,
      rfl, rfl, rfl⟩, hdeliv, ?_⟩
    · rw [lookupRoom_broadcast]
      exact hw1
    · have hmem : sid ∈ room.slots.1.toList ++ room.slots.2.toList ++ room.spectators := by
        rcases hrole with h0 | h1
        · have hsl := hseated 0 h0
          unfold Room.slot pget at hsl
          simp at hsl
          simp [hsl]
        · have hsl := hseated 1 h1
          unfold Room.slot pget at hsl
          simp at hsl
          simp [hsl]
      exact hdeliv sid hmem hso
  · intro hna
    rw [handleSyncState_reject_eq { w with clock := t } sid s stOpt hsT hna]
    exact ⟨rfl, rfl⟩

/-- Witness for C6: player 0 of a full room with one spectator sends a valid
object snapshot at time 7. -/
theorem claim_C6_witness :
    (syncAccepted (⟨some "r", some 0, some "d", true, []⟩ : Sess) (some (.jobj [])) →
      ∃ st, (some (JVal.jobj []) : Option JVal) = some st ∧
        (∃ room', lookupRoom (step (⟨[("r", (⟨(some 1, some 2), [3], [], (some "d", some "e"), (0, 0), (none, none), none, 0, none⟩ : Room))], [(1, ⟨some "r", some 0, some "d", true, []⟩), (2, ⟨some "r", some 1, some "e", true, []⟩), (3, ⟨some "r", some 2, some "f", true, []⟩)], 0⟩ : World) (.syncState 1 (some (.jobj []))) 7) "r" = some room' ∧
          room'.state = some st ∧ room'.lastUpdated = 7 ∧
          room'.slots = (⟨(some 1, some 2), [3], [], (some "d", some "e"), (0, 0), (none, none), none, 0, none⟩ : Room).slots ∧ room'.spectators = (⟨(some 1, some 2), [3], [], (some "d", some "e"), (0, 0), (none, none), none, 0, none⟩ : Room).spectators ∧
          room'.specQueue = (⟨(some 1, some 2), [3], [], (some "d", some "e"), (0, 0), (none, none), none, 0, none⟩ : Room).specQueue ∧ room'.playerToken = (⟨(some 1, some 2), [3], [], (some "d", some "e"), (0, 0), (none, none), none, 0, none⟩ : Room).playerToken) ∧
        (∀ x, x ∈ (⟨(some 1, some 2), [3], [], (some "d", some "e"), (0, 0), (none, none), none, 0, none⟩ : Room).slots.1.toList ++ (⟨(some 1, some 2), [3], [], (some "d", some "e"), (0, 0), (none, none), none, 0, none⟩ : Room).slots.2.toList ++ (⟨(some 1, some 2), [3], [], (some "d", some "e"), (0, 0), (none, none), none, 0, none⟩ : Room).spectators →
          sessOpen (⟨[("r", (⟨(some 1, some 2), [3], [], (some "d", some "e"), (0, 0), (none, none), none, 0, none⟩ : Room))], [(1, ⟨some "r", some 0, some "d", true, []⟩), (2, ⟨some "r", some 1, some "e", true, []⟩), (3, ⟨some "r", some 2, some "f", true, []⟩)], 0⟩ : World) x = true → InInbox (step (⟨[("r", (⟨(some 1, some 2), [3], [], (some "d", some "e"), (0, 0), (none, none), none, 0, none⟩ : Room))], [(1, ⟨some "r", some 0, some "d", true, []⟩), (2, ⟨some "r", some 1, some "e", true, []⟩), (3, ⟨some "r", some 2, some "f", true, []⟩)], 0⟩ : World) (.syncState 1 (some (.jobj []))) 7) x (.syncState st)) ∧
        InInbox (step (⟨[("r", (⟨(some 1, some 2), [3], [], (some "d", some "e"), (0, 0), (none, none), none, 0, none⟩ : Room))], [(1, ⟨some "r", some 0, some "d", true, []⟩), (2, ⟨some "r", some 1, some "e", true, []⟩), (3, ⟨some "r", some 2, some "f", true, []⟩)], 0⟩ : World) (.syncState 1 (some (.jobj []))) 7) 1 (.syncState st)) ∧
    (¬ syncAccepted (⟨some "r", some 0, some "d", true, []⟩ : Sess) (some (.jobj [])) →
      (step (⟨[("r", (⟨(some 1, some 2), [3], [], (some "d", some "e"), (0, 0), (none, none), none, 0, none⟩ : Room))], [(1, ⟨some "r", some 0, some "d", true, []⟩), (2, ⟨some "r", some 1, some "e", true, []⟩), (3, ⟨some "r", some 2, some "f", true, []⟩)], 0⟩ : World) (.syncState 1 (some (.jobj []))) 7).rooms = (⟨[("r", (⟨(some 1, some 2), [3], [], (some "d", some "e"), (0, 0), (none, none), none, 0, none⟩ : Room))], [(1, ⟨some "r", some 0, some "d", true, []⟩), (2, ⟨some "r", some 1, some "e", true, []⟩), (3, ⟨some "r", some 2, some "f", true, []⟩)], 0⟩ : World).rooms ∧
      (step (⟨[("r", (⟨(some 1, some 2), [3], [], (some "d", some "e"), (0, 0), (none, none), none, 0, none⟩ : Room))], [(1, ⟨some "r", some 0, some "d", true, []⟩), (2, ⟨some "r", some 1, some "e", true, []⟩), (3, ⟨some "r", some 2, some "f", true, []⟩)], 0⟩ : World) (.syncState 1 (some (.jobj []))) 7).sessions = (⟨[("r", (⟨(some 1, some 2), [3], [], (some "d", some "e"), (0, 0), (none, none), none, 0, none⟩ : Room))], [(1, ⟨some "r", some 0, some "d", true, []⟩), (2, ⟨some "r", some 1, some "e", true, []⟩), (3, ⟨some "r", some 2, some "f", true, []⟩)], 0⟩ : World).sessions) :=
  claim_C6_syncState_guard (⟨[("r", (⟨(some 1, some 2), [3], [], (some "d", some "e"), (0, 0), (none, none), none, 0, none⟩ : Room))], [(1, ⟨some "r", some 0, some "d", true, []⟩), (2, ⟨some "r", some 1, some "e", true, []⟩), (3, ⟨some "r", some 2, some "f", true, []⟩)], 0⟩ : World) 1 (⟨some "r", some 0, some "d", true, []⟩ : Sess) "r" (⟨(some 1, some 2), [3], [], (some "d", some "e"), (0, 0), (none, none), none, 0, none⟩ : Room)
    (some (.jobj [])) 7 rfl rfl rfl rfl (by decide)

/-- C9: a join routed to the spectator path adds the session to the spectator
set, appends its deviceId to `specQueue` exactly when the deviceId is
non-empty and not already queued, and acknowledges the role ordinal
`2 + (spectator count after insertion - 1)`. -/
theorem claim_C9_spectator_path (w : World) (sid : Nat) (rid dev : String) (room : Room)
    (s : Sess) (t : Nat) (hs : lookupSess w sid = some s) (hopen : s.isOpen = true)
    (hnotin : sid ∉ room.spectators) (hroom : lookupRoom w rid = some room)
    (hrc0 : reclaimCond room dev 0 t = false) (hrc1 : reclaimCond room dev 1 t = false)
    (hf0 : freshCond room 0 t = false) (hf1 : freshCond room 1 t = false) :
    ∃ room', lookupRoom (step w (.join sid rid dev) t) rid = some room' ∧
      room'.spectators = room.spectators ++ [sid] ∧
      room'.specQueue = (if dev ≠ "" ∧ dev ∉ room.specQueue
        then room.specQueue ++ [dev] else room.specQueue) ∧
      2 + room'.spectators.length - 1 = 2 + (room.spectators.length + 1) - 1 ∧
      ∃ s', lookupSess (step w (.join sid rid dev) t) sid = some s' ∧
        s'.roleIdx = some (2 + room'.spectators.length - 1) ∧
        InInbox (step w (.join sid rid dev) t) sid
          (.role (2 + room'.spectators.length - 1)) := by
  have hso : sessOpen w sid = true := by
    unfold sessOpen
    rw [hs]
    exact hopen
  rw [step_join_eq w sid rid dev t hso]
  have hsT : lookupSess { w with clock := t } sid = some s := hs
  have hroomT : lookupRoom { w with clock := t } rid = some room := hroom
  rw [handleJoin_spectate_eq { w with clock := t } sid rid dev room hroomT hrc0 hrc1 hf0 hf1]
  simp only
  have hspec : (enqueueSpectator room sid dev).spectators = room.spectators ++ [sid] := by
    unfold enqueueSpectator
    simp [hnotin]
  have hqueue : (enqueueSpectator room sid dev).specQueue =
      (if dev ≠ "" ∧ dev ∉ room.specQueue then room.specQueue ++ [dev]
       else room.specQueue) := by
    unfold enqueueSpectator
    simp
  have hs3 : lookupSess (updateRoom (updateSess { w with clock := t } sid
      (fun s => { s with roomId := some rid, deviceId := some dev })) rid
      (fun rm => enqueueSpectator rm sid dev)) sid =
      some { s with roomId := some rid, deviceId := some dev } := by
    rw [lookupSess_updateRoom, lookupSess_updateSess]
    simp [hsT]
  have hs4 : lookupSess (updateSess (updateRoom (updateSess { w with clock := t } sid
      (fun s => { s with roomId := some rid, deviceId := some dev })) rid
      (fun rm => enqueueSpectator rm sid dev)) sid
      (fun s => { s with roleIdx := some (2 + (enqueueSpectator room sid dev).spectators.length - 1) }))
      sid = some { s with roomId := some rid, deviceId := some dev, roleIdx := some (2 + (enqueueSpectator room sid dev).spectators.length - 1) } := by
    rw [lookupSess_updateSess]
    simp [hs3]
  have hroom3 : lookupRoom (updateRoom (updateSess { w with clock := t } sid
      (fun s => { s with roomId := some rid, deviceId := some dev })) rid
      (fun rm => enqueueSpectator rm sid dev)) rid = some (enqueueSpectator room sid dev) := by
    rw [lookupRoom_updateRoom_self, lookupRoom_updateSess, hroomT]
    rfl
  have hopen4 : sessOpen (updateSess (updateRoom (updateSess { w with clock := t } sid
      (fun s => { s with roomId := some rid, deviceId := some dev })) rid
      (fun rm => enqueueSpectator rm sid dev)) sid
      (fun s => { s with roleIdx := some (2 + (enqueueSpectator room sid dev).spectators.length - 1) }))
      sid = true := by
    unfold sessOpen
    rw [hs4]
    exact hopen
  refine ⟨enqueueSpectator room sid dev, ?_, hspec, hqueue, ?_, ?_⟩
  · rw [lookupRoom_sendSnapshotIfAny, lookupRoom_sendPayload, lookupRoom_updateSess]
    exact hroom3
  · simp [hspec]
  · have hcore : (lookupSess (sendSnapshotIfAny (sendPayload (updateSess (updateRoom
        (updateSess { w with clock := t } sid
          (fun s => { s with roomId := some rid, deviceId := some dev })) rid
        (fun rm => enqueueSpectator rm sid dev)) sid
        (fun s => { s with roleIdx := some (2 + (enqueueSpectator room sid dev).spectators.length - 1) }))
        sid (.role (2 + (enqueueSpectator room sid dev).spectators.length - 1))) sid
        (enqueueSpectator room sid dev).state) sid).map sessCore =
        some (some rid, some (2 + (enqueueSpectator room sid dev).spectators.length - 1),
          some dev, true) := by
      rw [sessCore_sendSnapshotIfAny, sessCore_sendPayload, hs4]
      simp [sessCore, hopen]
    rcases hlook : lookupSess (sendSnapshotIfAny (sendPayload (updateSess (updateRoom
        (updateSess { w with clock := t } sid
          (fun s => { s with roomId := some rid, deviceId := some dev })) rid
        (fun rm => enqueueSpectator rm sid dev)) sid
        (fun s => { s with roleIdx := some (2 + (enqueueSpectator room sid dev).spectators.length - 1) }))
        sid (.role (2 + (enqueueSpectator room sid dev).spectators.length - 1))) sid
        (enqueueSpectator room sid dev).state) sid with _ | s'
    · rw [hlook] at hcore
      cases hcore
    · rw [hlook] at hcore
      have hys : sessCore s' = (some rid,
          some (2 + (enqueueSpectator room sid dev).spectators.length - 1), some dev, true) :=
        Option.some.inj hcore
      refine ⟨s', rfl, ?_, ?_⟩
      · unfold sessCore at hys
        exact congrArg (fun p => p.2.1) hys
      · exact inInbox_sendSnapshotIfAny_mono _ _ _ _ _
          (inInbox_sendPayload_self _ _ _ hopen4)

/-- Witness for C9: a third connection joins the full room `"r"` and becomes
its first spectator, with role ordinal 2. -/
theorem claim_C9_witness :
    ∃ room', lookupRoom (step (⟨[("r", (⟨(some 1, some 2), [], [], (some "d", some "e"), (0, 0), (none, none), none, 0, none⟩ : Room))], [(1, ⟨some "r", some 0, some "d", true, []⟩), (2, ⟨some "r", some 1, some "e", true, []⟩), (3, ⟨none, none, none, true, []⟩)], 0⟩ : World) (.join 3 "r" "f") 4) "r" = some room' ∧
      room'.spectators = (⟨(some 1, some 2), [], [], (some "d", some "e"), (0, 0), (none, none), none, 0, none⟩ : Room).spectators ++ [3] ∧
      room'.specQueue = (if "f" ≠ "" ∧ "f" ∉ (⟨(some 1, some 2), [], [], (some "d", some "e"), (0, 0), (none, none), none, 0, none⟩ : Room).specQueue
        then (⟨(some 1, some 2), [], [], (some "d", some "e"), (0, 0), (none, none), none, 0, none⟩ : Room).specQueue ++ ["f"] else (⟨(some 1, some 2), [], [], (some "d", some "e"), (0, 0), (none, none), none, 0, none⟩ : Room).specQueue) ∧
      2 + room'.spectators.length - 1 = 2 + ((⟨(some 1, some 2), [], [], (some "d", some "e"), (0, 0), (none, none), none, 0, none⟩ : Room).spectators.length + 1) - 1 ∧
      ∃ s', lookupSess (step (⟨[("r", (⟨(some 1, some 2), [], [], (some "d", some "e"), (0, 0), (none, none), none, 0, none⟩ : Room))], [(1, ⟨some "r", some 0, some "d", true, []⟩), (2, ⟨some "r", some 1, some "e", true, []⟩), (3, ⟨none, none, none, true, []⟩)], 0⟩ : World) (.join 3 "r" "f") 4) 3 = some s' ∧
        s'.roleIdx = some (2 + room'.spectators.length - 1) ∧
        InInbox (step (⟨[("r", (⟨(some 1, some 2), [], [], (some "d", some "e"), (0, 0), (none, none), none, 0, none⟩ : Room))], [(1, ⟨some "r", some 0, some "d", true, []⟩), (2, ⟨some "r", some 1, some "e", true, []⟩), (3, ⟨none, none, none, true, []⟩)], 0⟩ : World) (.join 3 "r" "f") 4) 3 (.role (2 + room'.spectators.length - 1)) :=
  claim_C9_spectator_path (⟨[("r", (⟨(some 1, some 2), [], [], (some "d", some "e"), (0, 0), (none, none), none, 0, none⟩ : Room))], [(1, ⟨some "r", some 0, some "d", true, []⟩), (2, ⟨some "r", some 1, some "e", true, []⟩), (3, ⟨none, none, none, true, []⟩)], 0⟩ : World) 3 "r" "f" (⟨(some 1, some 2), [], [], (some "d", some "e"), (0, 0), (none, none), none, 0, none⟩ : Room)
    ⟨none, none, none, true, []⟩ 4 rfl rfl (by decide) rfl (by decide) (by decide)
    (by decide) (by decide)

theorem handleJoin_slot_preserved (w : World) (sid : Nat) (rid dev : String) (room : Room)
    (s : Sess) (r : Fin 2) (hs : lookupSess w sid = some s)
    (hroom : lookupRoom w rid = some room)
    (hrc : reclaimCond room dev r w.clock = false)
    (hf : freshCond room r w.clock = false) :
    ∀ room', lookupRoom (handleJoin w sid rid dev) rid = some room' →
      room'.slot r = room.slot r := by
  intro room' hroom'
  have hsT : lookupSess (updateSess w sid
      (fun s => { s with roomId := some rid, deviceId := some dev })) sid =
      some { s with roomId := some rid, deviceId := some dev } := by
    rw [lookupSess_updateSess_self, hs]
    rfl
  have hroomT : lookupRoom (updateSess w sid
      (fun s => { s with roomId := some rid, deviceId := some dev })) rid = some room :=
    hroom
  have hr01 : r = 0 ∨ r = 1 := by fin_cases r <;> simp
  have hseat : ∀ r' : Fin 2, r' ≠ r →
      handleJoin w sid rid dev = seatPlayer (updateSess w sid
        (fun s => { s with roomId := some rid, deviceId := some dev })) rid r' sid →
      room'.slot r = room.slot r := by
    intro r' hne heq
    obtain ⟨hA, _, _, _, _, _⟩ := seatPlayer_spec (updateSess w sid
      (fun s => { s with roomId := some rid, deviceId := some dev })) rid r' sid room
      { s with roomId := some rid, deviceId := some dev } hroomT hsT
    rw [heq, hA] at hroom'
    cases hroom'
    simp [assignedRoom, Ne.symm hne]
  rcases hr01 with rfl | rfl
  · by_cases hrc1 : reclaimCond room dev 1 w.clock = true
    · exact hseat 1 (by decide)
        (handleJoin_reclaim_eq w sid rid dev room 1 hroom hrc1 (fun _ => hrc))
    · have hrc1' : reclaimCond room dev 1 w.clock = false := by
        rcases hb : reclaimCond room dev 1 w.clock
        · rfl
        · exact absurd hb hrc1
      by_cases hf1 : freshCond room 1 w.clock = true
      · exact hseat 1 (by decide)
          (handleJoin_fresh_eq w sid rid dev room 1 hroom hrc hrc1' hf1 (fun _ => hf))
      · have hf1' : freshCond room 1 w.clock = false := by
          rcases hb : freshCond room 1 w.clock
          · rfl
          · exact absurd hb hf1
        rw [handleJoin_spectate_eq w sid rid dev room hroom hrc hrc1' hf hf1'] at hroom'
        simp only [lookupRoom_sendSnapshotIfAny, lookupRoom_sendPayload,
          lookupRoom_updateSess] at hroom'
        rw [lookupRoom_updateRoom_self, lookupRoom_updateSess, hroom] at hroom'
        cases hroom'
        unfold enqueueSpectator
        simp [Room.slot]
  · by_cases hrc0 : reclaimCond room dev 0 w.clock = true
    · exact hseat 0 (by decide)
        (handleJoin_reclaim_eq w sid rid dev room 0 hroom hrc0 (by simp))
    · have hrc0' : reclaimCond room dev 0 w.clock = false := by
        rcases hb : reclaimCond room dev 0 w.clock
        · rfl
        · exact absurd hb hrc0
      by_cases hf0 : freshCond room 0 w.clock = true
      · exact hseat 0 (by decide)
          (handleJoin_fresh_eq w sid rid dev room 0 hroom hrc0' hrc hf0 (by simp))
      · have hf0' : freshCond room 0 w.clock = false := by
          rcases hb : freshCond room 0 w.clock
          · rfl
          · exact absurd hb hf0
        rw [handleJoin_spectate_eq w sid rid dev room hroom hrc0' hrc hf0' hf] at hroom'
        simp only [lookupRoom_sendSnapshotIfAny, lookupRoom_sendPayload,
          lookupRoom_updateSess] at hroom'
        rw [lookupRoom_updateRoom_self, lookupRoom_updateSess, hroom] at hroom'
        cases hroom'
        unfold enqueueSpectator
        simp [Room.slot]

/-- C10: a connection joining with an empty deviceId and seated via the
fresh-seat path gets `playerToken` recorded as `null` (not `""`); with the
token `null` and the lease window still running, no later join — whatever its
deviceId, including another empty one — can reach that slot: the token-reclaim
condition is false and so is the fresh-seat condition, so any join leaves the
slot empty for the whole window. -/
theorem claim_C10_empty_deviceId :
    (∀ (w : World) (sid : Nat) (rid : String) (room : Room) (s : Sess) (t : Nat) (r : Fin 2),
      lookupSess w sid = some s → s.isOpen = true → lookupRoom w rid = some room →
      reclaimCond room "" 0 t = false → reclaimCond room "" 1 t = false →
      freshCond room r t = true → (r = 1 → freshCond room 0 t = false) →
      ∃ room', lookupRoom (step w (.join sid rid "") t) rid = some room' ∧
        room'.slot r = some sid ∧ room'.token r = none) ∧
    (∀ (w : World) (sid : Nat) (rid dev : String) (room : Room) (t : Nat) (r : Fin 2),
      lookupRoom w rid = some room → room.slot r = none → room.token r = none →
      room.expiry r ≠ 0 → t < room.expiry r →
      reclaimCond room dev r t = false ∧ freshCond room r t = false ∧
      ∀ room', lookupRoom (step w (.join sid rid dev) t) rid = some room' →
        room'.slot r = none) := by
  constructor
  · intro w sid rid room s t r hs hopen hroom hrc0 hrc1 hfr hfirst
    have hso : sessOpen w sid = true := by
      unfold sessOpen
      rw [hs]
      exact hopen
    rw [step_join_eq w sid rid "" t hso]
    have hsT : lookupSess { w with clock := t } sid = some s := hs
    have hroomT : lookupRoom { w with clock := t } rid = some room := hroom
    rw [handleJoin_fresh_eq { w with clock := t } sid rid "" room r hroomT hrc0 hrc1 hfr hfirst]
    have hsT2 : lookupSess (updateSess { w with clock := t } sid
        (fun s => { s with roomId := some rid, deviceId := some "" })) sid =
        some { s with roomId := some rid, deviceId := some "" } := by
      rw [lookupSess_updateSess_self, hsT]
      rfl
    have hroomT2 : lookupRoom (updateSess { w with clock := t } sid
        (fun s => { s with roomId := some rid, deviceId := some "" })) rid = some room :=
      hroomT
    obtain ⟨hA, _⟩ := seatPlayer_spec (updateSess { w with clock := t } sid
      (fun s => { s with roomId := some rid, deviceId := some "" })) rid r sid room
      { s with roomId := some rid, deviceId := some "" } hroomT2 hsT2
    refine ⟨_, hA, ?_, ?_⟩
    · simp [assignedRoom]
    · simp [assignedRoom, devToken]
  · intro w sid rid dev room t r hroom hslot htok hexp hlt
    have hrc : reclaimCond room dev r t = false := by
      unfold reclaimCond tokenMatches
      rw [htok]
      simp
    have hf : freshCond room r t = false := by
      unfold freshCond
      rw [hslot]
      simp only [Option.isNone_none, Bool.true_and]
      simp [hexp, Nat.not_le.mpr hlt]
    refine ⟨hrc, hf, ?_⟩
    intro room' hroom'
    by_cases hso : sessOpen w sid = true
    · rw [step_join_eq w sid rid dev t hso] at hroom'
      obtain ⟨s, hs⟩ : ∃ s, lookupSess w sid = some s := by
        unfold sessOpen at hso
        rcases h : lookupSess w sid with _ | s
        · rw [h] at hso
          cases hso
        · exact ⟨s, rfl⟩
      have hroomT : lookupRoom { w with clock := t } rid = some room := hroom
      have hsT : lookupSess { w with clock := t } sid = some s := hs
      have := handleJoin_slot_preserved { w with clock := t } sid rid dev room s r hsT
        hroomT hrc hf room' hroom'
      rw [this]
      exact hslot
    · have hstep : step w (.join sid rid dev) t = { w with clock := t } := by
        simp only [step, sessOpen_setClock]
        rw [if_neg hso]
      rw [hstep] at hroom'
      have : room' = room := by
        have h2 : lookupRoom { w with clock := t } rid = some room := hroom
        rw [hroom'] at h2
        exact Option.some.inj h2
      rw [this]
      exact hslot

/-- Witness for C10: seating with an empty deviceId stores a `null` token, and
with a `null` token and a running lease no join can take the slot. -/
theorem claim_C10_witness :
    (∃ room', lookupRoom (step (⟨[("r", (⟨(none, none), [], [], (none, none), (0, 0), (none, none), none, 0, none⟩ : Room))], [(1, ⟨none, none, none, true, []⟩)], 0⟩ : World) (.join 1 "r" "") 0) "r" = some room' ∧
      room'.slot 0 = some 1 ∧ room'.token 0 = none) ∧
    (reclaimCond (⟨(none, some 9), [], [], (none, some "e"), (90000, 0), (some 90000, none), none, 0, none⟩ : Room) "" 0 10 = false ∧ freshCond (⟨(none, some 9), [], [], (none, some "e"), (90000, 0), (some 90000, none), none, 0, none⟩ : Room) 0 10 = false ∧
      ∀ room', lookupRoom (step (⟨[("q", (⟨(none, some 9), [], [], (none, some "e"), (90000, 0), (some 90000, none), none, 0, none⟩ : Room))], [(2, ⟨none, none, none, true, []⟩)], 0⟩ : World) (.join 2 "q" "") 10) "q" = some room' →
        room'.slot 0 = none) :=
  ⟨claim_C10_empty_deviceId.1 (⟨[("r", (⟨(none, none), [], [], (none, none), (0, 0), (none, none), none, 0, none⟩ : Room))], [(1, ⟨none, none, none, true, []⟩)], 0⟩ : World) 1 "r" (⟨(none, none), [], [], (none, none), (0, 0), (none, none), none, 0, none⟩ : Room)
      ⟨none, none, none, true, []⟩ 0 0 rfl rfl rfl (by decide) (by decide) (by decide)
      (by decide),
    claim_C10_empty_deviceId.2 (⟨[("q", (⟨(none, some 9), [], [], (none, some "e"), (90000, 0), (some 90000, none), none, 0, none⟩ : Room))], [(2, ⟨none, none, none, true, []⟩)], 0⟩ : World) 2 "q" "" (⟨(none, some 9), [], [], (none, some "e"), (90000, 0), (some 90000, none), none, 0, none⟩ : Room)
      10 0 rfl (by decide) (by decide) (by decide) (by decide)⟩

/-- C3: if the session holding slot `r` with non-empty deviceId `D` (recorded
as the slot's token) disconnects at `t1`, and before `t1 + ROLE_LEASE_MS` and
before any promotion or reseat of `r` a new connection with deviceId `D`
joins the same room, that connection is seated in slot `r` via token reclaim:
the token stays `D`, the lease expiry is reset to 0, the pending lease timer
is cancelled, and the joiner receives the `role` acknowledgment and the
room's snapshot if one exists. -/
theorem claim_C3_reconnect_token (w : World) (sid sid2 : Nat) (s s2 : Sess)
    (rid D : String) (room : Room) (r : Fin 2) (t1 t2 : Nat)
    (hs : lookupSess w sid = some s) (hopen : s.isOpen = true)
    (hroomId : s.roomId = some rid) (hrole : s.roleIdx = some r.val)
    (hroom : lookupRoom w rid = some room) (hslot : room.slot r = some sid)
    (htok : room.token r = some D) (hD : D ≠ "")
    (hs2 : lookupSess w sid2 = some s2) (hs2open : s2.isOpen = true) (hne : sid2 ≠ sid)
    (htime : t2 < t1 + ROLE_LEASE_MS)
    (hfirst : r = 1 → reclaimCond room D 0 t2 = false) :
    ∃ room2, lookupRoom (step (step w (.close sid) t1) (.join sid2 rid D) t2) rid =
        some room2 ∧
      room2.slot r = some sid2 ∧ room2.token r = some D ∧
      room2.expiry r = 0 ∧ room2.timer r = none ∧
      ∃ s2', lookupSess (step (step w (.close sid) t1) (.join sid2 rid D) t2) sid2 =
          some s2' ∧
        s2'.roleIdx = some r.val ∧
        InInbox (step (step w (.close sid) t1) (.join sid2 rid D) t2) sid2 (.role r.val) ∧
        (∀ st, room.state = some st → truthy st = true →
          InInbox (step (step w (.close sid) t1) (.join sid2 rid D) t2) sid2
            (.syncState st)) := by
  have hso : sessOpen w sid = true := by
    unfold sessOpen
    rw [hs]
    exact hopen
  rw [step_close_eq w sid t1 hso]
  obtain ⟨⟨room1, hr1, hr1slot, hr1tok, hr1exp, hr1tim, hr1other, hr1state, _, _⟩, _,
      hsessne, _, _⟩ :=
    handleClose_player_spec { w with clock := t1 } sid s rid room r hs hroomId hrole hroom hslot
  set w1 := handleClose { w with clock := t1 } sid with hw1def
  have hs2w1 : lookupSess w1 sid2 = some s2 := by
    rw [hsessne sid2 hne]
    exact hs2
  have hso2 : sessOpen w1 sid2 = true := by
    unfold sessOpen
    rw [hs2w1]
    exact hs2open
  rw [step_join_eq w1 sid2 rid D t2 hso2]
  have hroomT : lookupRoom { w1 with clock := t2 } rid = some room1 := hr1
  have hs2T : lookupSess { w1 with clock := t2 } sid2 = some s2 := hs2w1
  have hclockT : ({ w1 with clock := t2 } : World).clock = t2 := rfl
  have hexp1 : room1.expiry r = t1 + ROLE_LEASE_MS := hr1exp
  have hrc : reclaimCond room1 D r t2 = true := by
    unfold reclaimCond tokenMatches
    rw [hr1slot, hr1tok, htok, hexp1]
    simp [hD, htime]
  have hfirst' : r = 1 → reclaimCond room1 D 0 t2 = false := by
    intro hr1eq
    have h0ne : (0 : Fin 2) ≠ r := by
      rw [hr1eq]
      decide
    obtain ⟨ho1, ho2, ho3, _⟩ := hr1other 0 h0ne
    have := hfirst hr1eq
    unfold reclaimCond tokenMatches at this ⊢
    rw [ho1, ho2, ho3]
    exact this
  rw [show handleJoin { w1 with clock := t2 } sid2 rid D =
      seatPlayer (updateSess { w1 with clock := t2 } sid2
        (fun s => { s with roomId := some rid, deviceId := some D })) rid r sid2 from
    handleJoin_reclaim_eq { w1 with clock := t2 } sid2 rid D room1 r hroomT
      (by rw [hclockT]; exact hrc) (by rw [hclockT]; exact hfirst')]
  have hroomT2 : lookupRoom (updateSess { w1 with clock := t2 } sid2
      (fun s => { s with roomId := some rid, deviceId := some D })) rid = some room1 :=
    hroomT
  have hs2T2 : lookupSess (updateSess { w1 with clock := t2 } sid2
      (fun s => { s with roomId := some rid, deviceId := some D })) sid2 =
      some { s2 with roomId := some rid, deviceId := some D } := by
    rw [lookupSess_updateSess_self, hs2T]
    rfl
  obtain ⟨hA, hcore, hmsgs, _, _, _⟩ := seatPlayer_spec (updateSess { w1 with clock := t2 }
    sid2 (fun s => { s with roomId := some rid, deviceId := some D })) rid r sid2 room1
    { s2 with roomId := some rid, deviceId := some D } hroomT2 hs2T2
  obtain ⟨hrolemsg, hsnap⟩ := hmsgs hs2open
  refine ⟨assignedRoom room1 r sid2 (devToken (some D)), hA, ?_, ?_, ?_, ?_, ?_⟩
  · simp [assignedRoom]
  · simp [assignedRoom, devToken, hD]
  · simp [assignedRoom]
  · simp [assignedRoom]
  · rcases hlook : lookupSess (seatPlayer (updateSess { w1 with clock := t2 } sid2
        (fun s => { s with roomId := some rid, deviceId := some D })) rid r sid2) sid2
        with _ | s2'
    · rw [hlook] at hcore
      cases hcore
    · rw [hlook] at hcore
      have hys : sessCore s2' = (some rid, some r.val, some D, s2.isOpen) :=
        Option.some.inj hcore
      refine ⟨s2', rfl, ?_, hrolemsg, ?_⟩
      · unfold sessCore at hys
        exact congrArg (fun p => p.2.1) hys
      · intro st hst ht
        exact hsnap st (by rw [hr1state]; exact hst) ht

/-- Witness for C3: device `"d"` holds slot 0, disconnects at 10, and a new
connection with the same deviceId rejoins at 20 (inside the lease window),
reclaiming slot 0. -/
theorem claim_C3_witness :
    ∃ room2, lookupRoom (step (step (⟨[("r", (⟨(some 1, none), [], [], (some "d", none), (0, 0), (none, none), none, 0, none⟩ : Room))], [(1, ⟨some "r", some 0, some "d", true, []⟩), (2, ⟨none, none, none, true, []⟩)], 0⟩ : World) (.close 1) 10) (.join 2 "r" "d") 20) "r" = some room2 ∧
      room2.slot 0 = some 2 ∧ room2.token 0 = some "d" ∧
      room2.expiry 0 = 0 ∧ room2.timer 0 = none ∧
      ∃ s2', lookupSess (step (step (⟨[("r", (⟨(some 1, none), [], [], (some "d", none), (0, 0), (none, none), none, 0, none⟩ : Room))], [(1, ⟨some "r", some 0, some "d", true, []⟩), (2, ⟨none, none, none, true, []⟩)], 0⟩ : World) (.close 1) 10) (.join 2 "r" "d") 20) 2 = some s2' ∧
        s2'.roleIdx = some (0 : Fin 2).val ∧
        InInbox (step (step (⟨[("r", (⟨(some 1, none), [], [], (some "d", none), (0, 0), (none, none), none, 0, none⟩ : Room))], [(1, ⟨some "r", some 0, some "d", true, []⟩), (2, ⟨none, none, none, true, []⟩)], 0⟩ : World) (.close 1) 10) (.join 2 "r" "d") 20) 2 (.role (0 : Fin 2).val) ∧
        (∀ st, (⟨(some 1, none), [], [], (some "d", none), (0, 0), (none, none), none, 0, none⟩ : Room).state = some st → truthy st = true →
          InInbox (step (step (⟨[("r", (⟨(some 1, none), [], [], (some "d", none), (0, 0), (none, none), none, 0, none⟩ : Room))], [(1, ⟨some "r", some 0, some "d", true, []⟩), (2, ⟨none, none, none, true, []⟩)], 0⟩ : World) (.close 1) 10) (.join 2 "r" "d") 20) 2 (.syncState st)) :=
  claim_C3_reconnect_token (⟨[("r", (⟨(some 1, none), [], [], (some "d", none), (0, 0), (none, none), none, 0, none⟩ : Room))], [(1, ⟨some "r", some 0, some "d", true, []⟩), (2, ⟨none, none, none, true, []⟩)], 0⟩ : World) 1 2 ⟨some "r", some 0, some "d", true, []⟩
    ⟨none, none, none, true, []⟩ "r" "d" (⟨(some 1, none), [], [], (some "d", none), (0, 0), (none, none), none, 0, none⟩ : Room) 0 10 20
    rfl rfl rfl rfl rfl rfl rfl (by decide) rfl rfl (by decide) (by decide) (by decide)

/-! ### `dequeueNextLiveSpectator` lemmas -/

theorem dequeue_all_dead (w : World) (q : List String) (specs : List Nat)
    (h : ∀ d ∈ q, findLiveSpec w specs d = none) :
    dequeueNextLiveSpectator w q specs = (none, [], specs) := by
  induction q with
  | nil => rfl
  | cons d rest ih =>
    unfold dequeueNextLiveSpectator
    rw [h d (List.mem_cons_self _ _)]
    exact ih (fun d' hd' => h d' (List.mem_cons_of_mem _ hd'))

theorem dequeue_none_iff (w : World) (q : List String) (specs : List Nat) :
    (dequeueNextLiveSpectator w q specs).1 = none ↔
      ∀ d ∈ q, findLiveSpec w specs d = none := by
  constructor
  · intro h
    induction q with
    | nil => intro d hd; cases hd
    | cons d rest ih =>
      unfold dequeueNextLiveSpectator at h
      rcases hf : findLiveSpec w specs d with _ | sid
      · rw [hf] at h
        intro d' hd'
        rcases List.mem_cons.mp hd' with rfl | hd'
        · exact hf
        · exact ih h d' hd'
      · rw [hf] at h
        cases h
  · intro h
    rw [dequeue_all_dead w q specs h]

theorem dequeue_first_live (w : World) (q1 : List String) (d : String) (q2 : List String)
    (specs : List Nat) (sid : Nat)
    (hdead : ∀ d' ∈ q1, findLiveSpec w specs d' = none)
    (hlive : findLiveSpec w specs d = some sid) :
    dequeueNextLiveSpectator w (q1 ++ d :: q2) specs =
      (some sid, q2, specs.filter (fun x => decide (x ≠ sid))) := by
  induction q1 with
  | nil =>
    rw [List.nil_append]
    simp only [dequeueNextLiveSpectator]
    rw [hlive]
  | cons d' rest ih =>
    rw [List.cons_append]
    unfold dequeueNextLiveSpectator
    rw [hdead d' (List.mem_cons_self _ _)]
    exact ih (fun x hx => hdead x (List.mem_cons_of_mem _ hx))

theorem findLiveSpec_none_iff (w : World) (specs : List Nat) (d : String) :
    findLiveSpec w specs d = none ↔
      ∀ x ∈ specs, ∀ sx, lookupSess w x = some sx →
        ¬(sx.isOpen = true ∧ sx.deviceId = some d) := by
  unfold findLiveSpec
  rw [List.find?_eq_none]
  constructor
  · intro h x hx sx hsx ⟨h1, h2⟩
    have := h x hx
    rw [hsx] at this
    simp [h1, h2] at this
  · intro h x hx
    rcases hsx : lookupSess w x with _ | sx
    · simp
    · have := h x hx sx hsx
      simp only [Bool.and_eq_true, decide_eq_true_eq]
      intro hcon
      exact this ⟨hcon.1, hcon.2⟩

theorem leaseFire_no_live_spec (w : World) (rid : String) (r : Fin 2) (t : Nat) (room : Room)
    (hroom : lookupRoom w rid = some room) (harm : room.timer r = some t)
    (hslot : room.slot r = none)
    (hnolive : ∀ d ∈ room.specQueue, findLiveSpec w room.spectators d = none) :
    ∃ room1, lookupRoom (step w (.leaseFire rid r) t) rid = some room1 ∧
      room1.slot r = none ∧ room1.token r = none ∧ room1.expiry r = 0 ∧
      room1.timer r = none ∧ room1.specQueue = [] ∧
      room1.spectators = room.spectators ∧ room1.state = room.state ∧
      (∀ r', r' ≠ r → room1.slot r' = room.slot r' ∧ room1.token r' = room.token r' ∧
        room1.expiry r' = room.expiry r') ∧
      (step w (.leaseFire rid r) t).sessions = w.sessions := by
  have hroomA : lookupRoom (updateRoom { w with clock := t } rid
      (fun rm => rm.setTimer r none)) rid = some (room.setTimer r none) := by
    rw [lookupRoom_updateRoom_self]
    have h2 : lookupRoom { w with clock := t } rid = some room := hroom
    rw [h2]
    rfl
  have hcond : (room.setTimer r none).slot r = none := by simp [hslot]
  have hdeq : dequeueNextLiveSpectator (updateRoom { w with clock := t } rid
      (fun rm => rm.setTimer r none)) (room.setTimer r none).specQueue
      (room.setTimer r none).spectators = (none, [], room.spectators) := by
    exact dequeue_all_dead _ _ _ hnolive
  have heq : step w (.leaseFire rid r) t =
      updateRoom (updateRoom { w with clock := t } rid (fun rm => rm.setTimer r none)) rid
        (fun rm => ((({ rm with specQueue := ([] : List String) }).setToken r
          none).setExpiry r 0).setTimer r none) := by
    rw [step_leaseFire_eq w rid r t room hroom harm]
    simp only [onLeaseExpire, hroomA]
    rw [if_pos hcond, hdeq]
  rw [heq]
  refine ⟨((({ room.setTimer r none with specQueue := ([] : List String) }).setToken r
      none).setExpiry r 0).setTimer r none, ?_, ?_, ?_, ?_, ?_, ?_, ?_, ?_, ?_, rfl⟩
  · rw [lookupRoom_updateRoom_self, hroomA]
    rfl
  · simpa [Room.slot, Room.setSlot, Room.setToken, Room.setExpiry, Room.setTimer, pget,
      pset] using hslot
  · by_cases hr0 : r.val = 0 <;>
      simp [Room.token, Room.setSlot, Room.setToken, Room.setExpiry, Room.setTimer, pget,
        pset, hr0]
  · by_cases hr0 : r.val = 0 <;>
      simp [Room.expiry, Room.setSlot, Room.setToken, Room.setExpiry, Room.setTimer, pget,
        pset, hr0]
  · by_cases hr0 : r.val = 0 <;>
      simp [Room.timer, Room.setSlot, Room.setToken, Room.setExpiry, Room.setTimer, pget,
        pset, hr0]
  · simp
  · simp
  · simp
  · intro r' hr'
    fin_cases r <;> fin_cases r' <;>
      simp_all [Room.slot, Room.token, Room.expiry, Room.setSlot, Room.setToken,
        Room.setExpiry, Room.setTimer, pget, pset]

/-- C4: when the lease timer for vacated slot `r` fires with no live queued
spectator, the slot's token is cleared, its lease expiry is reset to 0 and the
timer reference is cleared; consequently the next joining connection with any
deviceId (provided it is not captured by the other slot first) fails the
token-reclaim test for `r`, passes the fresh-seat test, and is seated in slot
`r`, its own deviceId becoming the slot's token. -/
theorem claim_C4_lease_expiry_no_spectators (w : World) (rid : String) (r : Fin 2)
    (t : Nat) (room : Room) (hroom : lookupRoom w rid = some room)
    (harm : room.timer r = some t) (hslot : room.slot r = none)
    (hnolive : ∀ d ∈ room.specQueue, findLiveSpec w room.spectators d = none) :
    ∃ room1, lookupRoom (step w (.leaseFire rid r) t) rid = some room1 ∧
      room1.token r = none ∧ room1.expiry r = 0 ∧ room1.timer r = none ∧
      room1.slot r = none ∧
      (∀ (sid2 : Nat) (s2 : Sess) (dev : String) (t2 : Nat),
        lookupSess (step w (.leaseFire rid r) t) sid2 = some s2 → s2.isOpen = true →
        (∀ r' : Fin 2, r' ≠ r → reclaimCond room1 dev r' t2 = false) →
        (r = 1 → freshCond room1 0 t2 = false) →
        reclaimCond room1 dev r t2 = false ∧ freshCond room1 r t2 = true ∧
        ∃ room2, lookupRoom (step (step w (.leaseFire rid r) t) (.join sid2 rid dev) t2)
            rid = some room2 ∧
          room2.slot r = some sid2 ∧ room2.token r = devToken (some dev)) := by
  obtain ⟨room1, hr1, hr1slot, hr1tok, hr1exp, hr1tim, _, _, _, _, hsess⟩ :=
    leaseFire_no_live_spec w rid r t room hroom harm hslot hnolive
  refine ⟨room1, hr1, hr1tok, hr1exp, hr1tim, hr1slot, ?_⟩
  intro sid2 s2 dev t2 hs2 hs2open hrout hfr0
  have hrcr : reclaimCond room1 dev r t2 = false := by
    unfold reclaimCond tokenMatches
    rw [hr1tok]
    simp
  have hfres : freshCond room1 r t2 = true := by
    unfold freshCond
    rw [hr1slot, hr1exp]
    simp
  refine ⟨hrcr, hfres, ?_⟩
  set w1 := step w (.leaseFire rid r) t with hw1def
  have hso2 : sessOpen w1 sid2 = true := by
    unfold sessOpen
    rw [hs2]
    exact hs2open
  rw [step_join_eq w1 sid2 rid dev t2 hso2]
  have hroomT : lookupRoom { w1 with clock := t2 } rid = some room1 := hr1
  have hclockT : ({ w1 with clock := t2 } : World).clock = t2 := rfl
  have hr01 : r = 0 ∨ r = 1 := by fin_cases r <;> simp
  have hjoin : handleJoin { w1 with clock := t2 } sid2 rid dev =
      seatPlayer (updateSess { w1 with clock := t2 } sid2
        (fun s => { s with roomId := some rid, deviceId := some dev })) rid r sid2 := by
    rcases hr01 with rfl | rfl
    · exact handleJoin_fresh_eq { w1 with clock := t2 } sid2 rid dev room1 0 hroomT
        (by rw [hclockT]; exact hrcr)
        (by rw [hclockT]; exact hrout 1 (by decide))
        (by rw [hclockT]; exact hfres) (by simp)
    · exact handleJoin_fresh_eq { w1 with clock := t2 } sid2 rid dev room1 1 hroomT
        (by rw [hclockT]; exact hrout 0 (by decide))
        (by rw [hclockT]; exact hrcr)
        (by rw [hclockT]; exact hfres)
        (fun _ => by rw [hclockT]; exact hfr0 rfl)
  rw [hjoin]
  have hs2T : lookupSess (updateSess { w1 with clock := t2 } sid2
      (fun s => { s with roomId := some rid, deviceId := some dev })) sid2 =
      some { s2 with roomId := some rid, deviceId := some dev } := by
    rw [lookupSess_updateSess_self]
    have h2 : lookupSess { w1 with clock := t2 } sid2 = some s2 := hs2
    rw [h2]
    rfl
  have hroomT2 : lookupRoom (updateSess { w1 with clock := t2 } sid2
      (fun s => { s with roomId := some rid, deviceId := some dev })) rid = some room1 :=
    hroomT
  obtain ⟨hA, _⟩ := seatPlayer_spec (updateSess { w1 with clock := t2 } sid2
    (fun s => { s with roomId := some rid, deviceId := some dev })) rid r sid2 room1
    { s2 with roomId := some rid, deviceId := some dev } hroomT2 hs2T
  refine ⟨assignedRoom room1 r sid2 (devToken (some dev)), hA, ?_, ?_⟩
  · simp [assignedRoom]
  · simp [assignedRoom]

/-- Witness for C4: slot 0's lease fires at 90010 with only a stale queue
entry; the slot's reclaim rights are discarded and a joiner with a fresh
deviceId is seated there at 90020. -/
theorem claim_C4_witness :
    ∃ room1, lookupRoom (step (⟨[("r", (⟨(none, some 9), ([] : List Nat), ["x"], (some "d", some "i"), (90010, 0), (some 90010, none), none, 0, none⟩ : Room))], [(2, ⟨none, none, none, true, []⟩), (9, ⟨some "r", some 1, some "i", true, []⟩)], 0⟩ : World) (.leaseFire "r" 0) 90010) "r" = some room1 ∧
      room1.token 0 = none ∧ room1.expiry 0 = 0 ∧ room1.timer 0 = none ∧
      room1.slot 0 = none ∧
      (∀ (sid2 : Nat) (s2 : Sess) (dev : String) (t2 : Nat),
        lookupSess (step (⟨[("r", (⟨(none, some 9), ([] : List Nat), ["x"], (some "d", some "i"), (90010, 0), (some 90010, none), none, 0, none⟩ : Room))], [(2, ⟨none, none, none, true, []⟩), (9, ⟨some "r", some 1, some "i", true, []⟩)], 0⟩ : World) (.leaseFire "r" 0) 90010) sid2 = some s2 → s2.isOpen = true →
        (∀ r' : Fin 2, r' ≠ 0 → reclaimCond room1 dev r' t2 = false) →
        ((0 : Fin 2) = 1 → freshCond room1 0 t2 = false) →
        reclaimCond room1 dev 0 t2 = false ∧ freshCond room1 0 t2 = true ∧
        ∃ room2, lookupRoom (step (step (⟨[("r", (⟨(none, some 9), ([] : List Nat), ["x"], (some "d", some "i"), (90010, 0), (some 90010, none), none, 0, none⟩ : Room))], [(2, ⟨none, none, none, true, []⟩), (9, ⟨some "r", some 1, some "i", true, []⟩)], 0⟩ : World) (.leaseFire "r" 0) 90010) (.join sid2 "r" dev) t2) "r" = some room2 ∧
          room2.slot 0 = some sid2 ∧ room2.token 0 = devToken (some dev)) :=
  claim_C4_lease_expiry_no_spectators (⟨[("r", (⟨(none, some 9), ([] : List Nat), ["x"], (some "d", some "i"), (90010, 0), (some 90010, none), none, 0, none⟩ : Room))], [(2, ⟨none, none, none, true, []⟩), (9, ⟨some "r", some 1, some "i", true, []⟩)], 0⟩ : World) "r" 0 90010 (⟨(none, some 9), ([] : List Nat), ["x"], (some "d", some "i"), (90010, 0), (some 90010, none), none, 0, none⟩ : Room)
    rfl rfl rfl (by decide)

/-- C5: when a lease expires on a still-empty slot, promotion pops queued
deviceIds in FIFO order, discarding every id that has no currently connected
spectator session, and seats the first live one; the queue keeps only the
entries after the promoted id.  Promotion yields nobody exactly when no queued
id has a live spectator, and an id has no live spectator exactly when no
member of the spectator set is an open session with that deviceId. -/
theorem claim_C5_promotion_fifo :
    (∀ (w : World) (rid : String) (r : Fin 2) (t : Nat) (room : Room) (q1 : List String)
      (d : String) (q2 : List String) (sid' : Nat) (s' : Sess),
      lookupRoom w rid = some room → room.timer r = some t → room.slot r = none →
      room.specQueue = q1 ++ d :: q2 →
      (∀ d' ∈ q1, findLiveSpec w room.spectators d' = none) →
      findLiveSpec w room.spectators d = some sid' →
      lookupSess w sid' = some s' →
      ∃ room', lookupRoom (step w (.leaseFire rid r) t) rid = some room' ∧
        room'.slot r = some sid' ∧ room'.specQueue = q2 ∧
        room'.spectators = room.spectators.filter (fun x => decide (x ≠ sid')) ∧
        room'.token r = devToken s'.deviceId) ∧
    (∀ (w : World) (q : List String) (specs : List Nat),
      (dequeueNextLiveSpectator w q specs).1 = none ↔
        ∀ d ∈ q, findLiveSpec w specs d = none) ∧
    (∀ (w : World) (specs : List Nat) (d : String),
      findLiveSpec w specs d = none ↔
        ∀ x ∈ specs, ∀ sx, lookupSess w x = some sx →
          ¬(sx.isOpen = true ∧ sx.deviceId = some d)) := by
  refine ⟨?_, dequeue_none_iff, findLiveSpec_none_iff⟩
  intro w rid r t room q1 d q2 sid' s' hroom harm hslot hq hdead hlive hs'
  have hroomA : lookupRoom (updateRoom { w with clock := t } rid
      (fun rm => rm.setTimer r none)) rid = some (room.setTimer r none) := by
    rw [lookupRoom_updateRoom_self]
    have h2 : lookupRoom { w with clock := t } rid = some room := hroom
    rw [h2]
    rfl
  have hcond : (room.setTimer r none).slot r = none := by simp [hslot]
  have hdeq : dequeueNextLiveSpectator (updateRoom { w with clock := t } rid
      (fun rm => rm.setTimer r none)) (room.setTimer r none).specQueue
      (room.setTimer r none).spectators =
      (some sid', q2, room.spectators.filter (fun x => decide (x ≠ sid'))) := by
    rw [show (room.setTimer r none).specQueue = room.specQueue from rfl, hq]
    exact dequeue_first_live _ q1 d q2 room.spectators sid' hdead hlive
  have heq : step w (.leaseFire rid r) t =
      sendSnapshotIfAny (sendPayload (assignRole (updateRoom (updateRoom { w with clock := t }
        rid (fun rm => rm.setTimer r none)) rid
        (fun rm => { rm with spectators := room.spectators.filter (fun x => decide (x ≠ sid')), specQueue := q2 }))
        rid r sid') sid' (.role r.val)) sid' (room.setTimer r none).state := by
    rw [step_leaseFire_eq w rid r t room hroom harm]
    simp only [onLeaseExpire, hroomA]
    rw [if_pos hcond, hdeq]
  rw [heq]
  have hroomB : lookupRoom (updateRoom (updateRoom { w with clock := t } rid
      (fun rm => rm.setTimer r none)) rid
      (fun rm => { rm with spectators := room.spectators.filter (fun x => decide (x ≠ sid')), specQueue := q2 }))
      rid = some { room.setTimer r none with spectators := room.spectators.filter (fun x => decide (x ≠ sid')), specQueue := q2 } := by
    rw [lookupRoom_updateRoom_self, hroomA]
    rfl
  have hs'B : lookupSess (updateRoom (updateRoom { w with clock := t } rid
      (fun rm => rm.setTimer r none)) rid
      (fun rm => { rm with spectators := room.spectators.filter (fun x => decide (x ≠ sid')), specQueue := q2 }))
      sid' = some s' := hs'
  obtain ⟨hA, _, _, _, _, _⟩ := assignRole_spec (updateRoom (updateRoom { w with clock := t }
    rid (fun rm => rm.setTimer r none)) rid
    (fun rm => { rm with spectators := room.spectators.filter (fun x => decide (x ≠ sid')), specQueue := q2 }))
    rid r sid' _ s' hroomB hs'B
  refine ⟨assignedRoom { room.setTimer r none with spectators := room.spectators.filter (fun x => decide (x ≠ sid')), specQueue := q2 } r sid' (devToken s'.deviceId), ?_, ?_, ?_, ?_, ?_⟩
  · rw [lookupRoom_sendSnapshotIfAny, lookupRoom_sendPayload]
    exact hA
  · simp [assignedRoom]
  · simp [assignedRoom]
  · simp [assignedRoom]
  · simp [assignedRoom]

/-- Witness for C5: queue `["a","b","c"]` where device `"a"`'s spectator has
disconnected and `"b"`'s is live: the stale head is discarded, `"b"`'s
session (5) is promoted to slot 0, and the queue shrinks to `["c"]`. -/
theorem claim_C5_witness :
    (∃ room', lookupRoom (step (⟨[("r", (⟨(none, none), [4, 5], ["a", "b", "c"], (none, none), (100, 0), (some 100, none), none, 0, none⟩ : Room))], [(4, ⟨some "r", some 2, some "a", false, []⟩), (5, ⟨some "r", some 3, some "b", true, []⟩)], 0⟩ : World) (.leaseFire "r" 0) 100) "r" = some room' ∧
      room'.slot 0 = some 5 ∧ room'.specQueue = ["c"] ∧
      room'.spectators = (⟨(none, none), [4, 5], ["a", "b", "c"], (none, none), (100, 0), (some 100, none), none, 0, none⟩ : Room).spectators.filter (fun x => decide (x ≠ 5)) ∧
      room'.token 0 = devToken (⟨some "r", some 3, some "b", true, []⟩ : Sess).deviceId) ∧
    ((dequeueNextLiveSpectator (⟨[("r", (⟨(none, none), [4, 5], ["a", "b", "c"], (none, none), (100, 0), (some 100, none), none, 0, none⟩ : Room))], [(4, ⟨some "r", some 2, some "a", false, []⟩), (5, ⟨some "r", some 3, some "b", true, []⟩)], 0⟩ : World) ["a"] [4]).1 = none ↔
      ∀ d ∈ ["a"], findLiveSpec (⟨[("r", (⟨(none, none), [4, 5], ["a", "b", "c"], (none, none), (100, 0), (some 100, none), none, 0, none⟩ : Room))], [(4, ⟨some "r", some 2, some "a", false, []⟩), (5, ⟨some "r", some 3, some "b", true, []⟩)], 0⟩ : World) [4] d = none) ∧
    (findLiveSpec (⟨[("r", (⟨(none, none), [4, 5], ["a", "b", "c"], (none, none), (100, 0), (some 100, none), none, 0, none⟩ : Room))], [(4, ⟨some "r", some 2, some "a", false, []⟩), (5, ⟨some "r", some 3, some "b", true, []⟩)], 0⟩ : World) [4] "a" = none ↔
      ∀ x ∈ [4], ∀ sx, lookupSess (⟨[("r", (⟨(none, none), [4, 5], ["a", "b", "c"], (none, none), (100, 0), (some 100, none), none, 0, none⟩ : Room))], [(4, ⟨some "r", some 2, some "a", false, []⟩), (5, ⟨some "r", some 3, some "b", true, []⟩)], 0⟩ : World) x = some sx →
        ¬(sx.isOpen = true ∧ sx.deviceId = some "a")) :=
  ⟨claim_C5_promotion_fifo.1 (⟨[("r", (⟨(none, none), [4, 5], ["a", "b", "c"], (none, none), (100, 0), (some 100, none), none, 0, none⟩ : Room))], [(4, ⟨some "r", some 2, some "a", false, []⟩), (5, ⟨some "r", some 3, some "b", true, []⟩)], 0⟩ : World) "r" 0 100 (⟨(none, none), [4, 5], ["a", "b", "c"], (none, none), (100, 0), (some 100, none), none, 0, none⟩ : Room)
      ["a"] "b" ["c"] 5 ⟨some "r", some 3, some "b", true, []⟩ rfl rfl rfl rfl
      (by decide) (by decide) rfl,
    claim_C5_promotion_fifo.2.1 (⟨[("r", (⟨(none, none), [4, 5], ["a", "b", "c"], (none, none), (100, 0), (some 100, none), none, 0, none⟩ : Room))], [(4, ⟨some "r", some 2, some "a", false, []⟩), (5, ⟨some "r", some 3, some "b", true, []⟩)], 0⟩ : World) ["a"] [4],
    claim_C5_promotion_fifo.2.2 (⟨[("r", (⟨(none, none), [4, 5], ["a", "b", "c"], (none, none), (100, 0), (some 100, none), none, 0, none⟩ : Room))], [(4, ⟨some "r", some 2, some "a", false, []⟩), (5, ⟨some "r", some 3, some "b", true, []⟩)], 0⟩ : World) [4] "a"⟩

/-- C8: a valid `syncState` from the occupant of slot 0 is stored as the
room's snapshot, the same payload is delivered to the occupant of slot 1 (if
any, and open) and to every currently connected spectator, and a subsequent
`request_state` from any open member of the room returns exactly that
snapshot. -/
theorem claim_C8_broadcast_completeness (w : World) (sid : Nat) (s : Sess) (rid : String)
    (room : Room) (st : JVal) (t : Nat)
    (hs : lookupSess w sid = some s) (hopen : s.isOpen = true)
    (hroomId : s.roomId = some rid) (hrole : s.roleIdx = some 0)
    (hroom : lookupRoom w rid = some room) (hseat0 : room.slots.1 = some sid)
    (htr : truthy st = true) (hobj : isObjectType st = true) :
    (∃ room', lookupRoom (step w (.syncState sid (some st)) t) rid = some room' ∧
      room'.state = some st) ∧
    (∀ p1, room.slots.2 = some p1 → sessOpen w p1 = true →
      InInbox (step w (.syncState sid (some st)) t) p1 (.syncState st)) ∧
    (∀ x ∈ room.spectators, sessOpen w x = true →
      InInbox (step w (.syncState sid (some st)) t) x (.syncState st)) ∧
    InInbox (step w (.syncState sid (some st)) t) sid (.syncState st) ∧
    (∀ (m : Nat) (t2 : Nat) (sm : Sess),
      lookupSess (step w (.syncState sid (some st)) t) m = some sm → sm.isOpen = true →
      sm.roomId = some rid →
      InInbox (step (step w (.syncState sid (some st)) t) (.requestState m) t2) m
        (.syncState st)) := by
  have hso : sessOpen w sid = true := by
    unfold sessOpen
    rw [hs]
    exact hopen
  rw [step_syncState_eq w sid (some st) t hso]
  have hsT : lookupSess { w with clock := t } sid = some s := hs
  have hroomT : lookupRoom { w with clock := t } rid = some room := hroom
  rw [handleSyncState_accept_eq { w with clock := t } sid s rid room st hsT hroomId hroomT
    (Or.inl hrole) (by simp [htr, hobj])]
  have hw1 : lookupRoom (updateRoom { w with clock := t } rid
      (fun rm => { rm with state := some st, lastUpdated := ({ w with clock := t } : World).clock }))
      rid = some { room with state := some st, lastUpdated := t } := by
    rw [lookupRoom_updateRoom_self, hroomT]
    rfl
  have hdeliv : ∀ x, x ∈ room.slots.1.toList ++ room.slots.2.toList ++ room.spectators →
      sessOpen w x = true →
      InInbox (broadcast (updateRoom { w with clock := t } rid
        (fun rm => { rm with state := some st, lastUpdated := ({ w with clock := t } : World).clock })) rid (.syncState st))
        x (.syncState st) := by
    intro x hx hopenx
    exact broadcast_delivers _ rid (.syncState st)
      { room with state := some st, lastUpdated := t } x hw1 hx hopenx
  have hstored : lookupRoom (broadcast (updateRoom { w with clock := t } rid
      (fun rm => { rm with state := some st, lastUpdated := ({ w with clock := t } : World).clock })) rid (.syncState st)) rid =
      some { room with state := some st, lastUpdated := t } := by
    rw [lookupRoom_broadcast]
    exact hw1
  refine ⟨⟨{ room with state := some st, lastUpdated := t }, hstored, rfl⟩, ?_, ?_, ?_, ?_⟩
  · intro p1 hp1 hopen1
    exact hdeliv p1 (by simp [hp1]) hopen1
  · intro x hx hopenx
    exact hdeliv x (by simp [hx]) hopenx
  · exact hdeliv sid (by simp [hseat0]) hso
  · intro m t2 sm hsm hsmopen hsmroom
    have hsom : sessOpen (broadcast (updateRoom { w with clock := t } rid
        (fun rm => { rm with state := some st, lastUpdated := ({ w with clock := t } : World).clock })) rid (.syncState st)) m = true := by
      unfold sessOpen
      rw [hsm]
      exact hsmopen
    rw [step_requestState_eq _ m t2 hsom]
    unfold handleRequestState
    have hsm2 : lookupSess { broadcast (updateRoom { w with clock := t } rid
        (fun rm => { rm with state := some st, lastUpdated := ({ w with clock := t } : World).clock })) rid (.syncState st) with clock := t2 } m = some sm := hsm
    have hst2 : lookupRoom { broadcast (updateRoom { w with clock := t } rid
        (fun rm => { rm with state := some st, lastUpdated := ({ w with clock := t } : World).clock })) rid (.syncState st) with clock := t2 } rid =
        some { room with state := some st, lastUpdated := t } := hstored
    simp only [hsm2, hsmroom, hst2]
    unfold sendSnapshotIfAny
    simp only [htr, if_true]
    apply inInbox_sendPayload_self
    exact hsom

/-- Witness for C8: slot 0's occupant broadcasts an object snapshot in a room
with a second player and one spectator. -/
theorem claim_C8_witness :
    (∃ room', lookupRoom (step (⟨[("r", (⟨(some 1, some 2), [3], [], (some "d", some "e"), (0, 0), (none, none), none, 0, none⟩ : Room))], [(1, ⟨some "r", some 0, some "d", true, []⟩), (2, ⟨some "r", some 1, some "e", true, []⟩), (3, ⟨some "r", some 2, some "f", true, []⟩)], 0⟩ : World) (.syncState 1 (some (.jobj []))) 7) "r" = some room' ∧
      room'.state = some (.jobj [])) ∧
    (∀ p1, (⟨(some 1, some 2), [3], [], (some "d", some "e"), (0, 0), (none, none), none, 0, none⟩ : Room).slots.2 = some p1 → sessOpen (⟨[("r", (⟨(some 1, some 2), [3], [], (some "d", some "e"), (0, 0), (none, none), none, 0, none⟩ : Room))], [(1, ⟨some "r", some 0, some "d", true, []⟩), (2, ⟨some "r", some 1, some "e", true, []⟩), (3, ⟨some "r", some 2, some "f", true, []⟩)], 0⟩ : World) p1 = true →
      InInbox (step (⟨[("r", (⟨(some 1, some 2), [3], [], (some "d", some "e"), (0, 0), (none, none), none, 0, none⟩ : Room))], [(1, ⟨some "r", some 0, some "d", true, []⟩), (2, ⟨some "r", some 1, some "e", true, []⟩), (3, ⟨some "r", some 2, some "f", true, []⟩)], 0⟩ : World) (.syncState 1 (some (.jobj []))) 7) p1 (.syncState (.jobj []))) ∧
    (∀ x ∈ (⟨(some 1, some 2), [3], [], (some "d", some "e"), (0, 0), (none, none), none, 0, none⟩ : Room).spectators, sessOpen (⟨[("r", (⟨(some 1, some 2), [3], [], (some "d", some "e"), (0, 0), (none, none), none, 0, none⟩ : Room))], [(1, ⟨some "r", some 0, some "d", true, []⟩), (2, ⟨some "r", some 1, some "e", true, []⟩), (3, ⟨some "r", some 2, some "f", true, []⟩)], 0⟩ : World) x = true →
      InInbox (step (⟨[("r", (⟨(some 1, some 2), [3], [], (some "d", some "e"), (0, 0), (none, none), none, 0, none⟩ : Room))], [(1, ⟨some "r", some 0, some "d", true, []⟩), (2, ⟨some "r", some 1, some "e", true, []⟩), (3, ⟨some "r", some 2, some "f", true, []⟩)], 0⟩ : World) (.syncState 1 (some (.jobj []))) 7) x (.syncState (.jobj []))) ∧
    InInbox (step (⟨[("r", (⟨(some 1, some 2), [3], [], (some "d", some "e"), (0, 0), (none, none), none, 0, none⟩ : Room))], [(1, ⟨some "r", some 0, some "d", true, []⟩), (2, ⟨some "r", some 1, some "e", true, []⟩), (3, ⟨some "r", some 2, some "f", true, []⟩)], 0⟩ : World) (.syncState 1 (some (.jobj []))) 7) 1 (.syncState (.jobj [])) ∧
    (∀ (m : Nat) (t2 : Nat) (sm : Sess),
      lookupSess (step (⟨[("r", (⟨(some 1, some 2), [3], [], (some "d", some "e"), (0, 0), (none, none), none, 0, none⟩ : Room))], [(1, ⟨some "r", some 0, some "d", true, []⟩), (2, ⟨some "r", some 1, some "e", true, []⟩), (3, ⟨some "r", some 2, some "f", true, []⟩)], 0⟩ : World) (.syncState 1 (some (.jobj []))) 7) m = some sm → sm.isOpen = true → sm.roomId = some "r" →
      InInbox (step (step (⟨[("r", (⟨(some 1, some 2), [3], [], (some "d", some "e"), (0, 0), (none, none), none, 0, none⟩ : Room))], [(1, ⟨some "r", some 0, some "d", true, []⟩), (2, ⟨some "r", some 1, some "e", true, []⟩), (3, ⟨some "r", some 2, some "f", true, []⟩)], 0⟩ : World) (.syncState 1 (some (.jobj []))) 7) (.requestState m) t2) m (.syncState (.jobj []))) :=
  claim_C8_broadcast_completeness (⟨[("r", (⟨(some 1, some 2), [3], [], (some "d", some "e"), (0, 0), (none, none), none, 0, none⟩ : Room))], [(1, ⟨some "r", some 0, some "d", true, []⟩), (2, ⟨some "r", some 1, some "e", true, []⟩), (3, ⟨some "r", some 2, some "f", true, []⟩)], 0⟩ : World) 1 ⟨some "r", some 0, some "d", true, []⟩ "r"
    (⟨(some 1, some 2), [3], [], (some "d", some "e"), (0, 0), (none, none), none, 0, none⟩ : Room) (.jobj []) 7 rfl rfl rfl rfl rfl rfl rfl rfl

/-! ### Occupancy: a session's locations across all rooms -/

/-- A place a session can occupy inside a room: one of the two player slots,
or membership in the spectator set. -/
inductive RoomLoc where
  | player (r : Fin 2)
  | spectator
deriving DecidableEq

/-- `sid` occupies location `l` of `room`. -/
def locHolds (room : Room) (sid : Nat) : RoomLoc → Prop
  | .player r => room.slot r = some sid
  | .spectator => sid ∈ room.spectators

/-- `sid` occupies location `l` of the room keyed `rid`. -/
def OccIn (rooms : List (String × Room)) (sid : Nat) (rid : String) (l : RoomLoc) : Prop :=
  ∃ room, assocFind rooms rid = some room ∧ locHolds room sid l

/-- Every session occupies at most one location across all rooms. -/
def UniqueOcc (rooms : List (String × Room)) : Prop :=
  ∀ sid rid₁ l₁ rid₂ l₂, OccIn rooms sid rid₁ l₁ → OccIn rooms sid rid₂ l₂ →
    rid₁ = rid₂ ∧ l₁ = l₂

/-- Every occupant is a session that has joined (its `roomId` is set). -/
def OccJoined (w : World) : Prop :=
  ∀ sid rid l, OccIn w.rooms sid rid l →
    ∃ s, lookupSess w sid = some s ∧ s.roomId ≠ none

/-- `sid` has not joined: if it is a session at all, its `roomId` is unset. -/
def NotJoined (w : World) (sid : Nat) : Prop :=
  ∀ s, lookupSess w sid = some s → s.roomId = none

/-- The sids of the join events of a trace. -/
def joinSids (tr : List (Event × Nat)) : List Nat :=
  tr.filterMap (fun p => match p.1 with
    | .join sid _ _ => some sid
    | _ => none)

theorem occIn_update_iff (rooms : List (String × Room)) (rid0 : String) (f : Room → Room)
    (sid : Nat) (rid : String) (l : RoomLoc) :
    OccIn (assocUpdate rooms rid0 f) sid rid l ↔
      ((rid = rid0 ∧ ∃ room, assocFind rooms rid0 = some room ∧ locHolds (f room) sid l) ∨
       (rid ≠ rid0 ∧ OccIn rooms sid rid l)) := by
  by_cases h : rid = rid0
  · subst h
    unfold OccIn
    rw [assocFind_update_self]
    constructor
    · rintro ⟨room', hfind, hl⟩
      rcases hf : assocFind rooms rid with _ | room
      · rw [hf] at hfind
        cases hfind
      · rw [hf] at hfind
        have hfr : f room = room' := Option.some.inj hfind
        exact Or.inl ⟨rfl, room, rfl, by rw [hfr]; exact hl⟩
    · rintro (⟨-, room, hfind, hl⟩ | ⟨hne, -⟩)
      · exact ⟨f room, by rw [hfind]; rfl, hl⟩
      · exact absurd rfl hne
  · unfold OccIn
    rw [assocFind_update_ne _ _ h]
    constructor
    · intro hocc
      exact Or.inr ⟨h, hocc⟩
    · rintro (⟨h', -⟩ | ⟨-, hocc⟩)
      · exact absurd h' h
      · exact hocc

theorem locHolds_mk0 (t : Nat) (sid : Nat) (l : RoomLoc) : ¬ locHolds (Room.mk0 t) sid l := by
  rcases l with r | _
  · unfold locHolds Room.mk0 Room.slot pget
    by_cases h : r.val = 0 <;> simp [h]
  · unfold locHolds Room.mk0
    simp

theorem occIn_append_mk0 (rooms : List (String × Room)) (rid0 : String) (t : Nat)
    (hnone : assocFind rooms rid0 = none) (sid : Nat) (rid : String) (l : RoomLoc) :
    OccIn (rooms ++ [(rid0, Room.mk0 t)]) sid rid l ↔ OccIn rooms sid rid l := by
  by_cases h : rid = rid0
  · subst h
    unfold OccIn
    rw [assocFind_append_none rooms _ hnone]
    constructor
    · rintro ⟨room, hfind, hl⟩
      cases Option.some.inj hfind
      exact absurd hl (locHolds_mk0 t sid l)
    · rintro ⟨room, hfind, hl⟩
      rw [hnone] at hfind
      cases hfind
  · unfold OccIn
    rw [assocFind_append_ne _ _ h]

theorem occIn_filter (rooms : List (String × Room)) (rid0 : String) (sid : Nat)
    (rid : String) (l : RoomLoc) :
    OccIn (rooms.filter (fun p => decide (p.1 ≠ rid0))) sid rid l → OccIn rooms sid rid l := by
  rintro ⟨room, hfind, hl⟩
  by_cases h : rid = rid0
  · subst h
    rw [assocFind_filter_self] at hfind
    cases hfind
  · rw [assocFind_filter_ne _ h] at hfind
    exact ⟨room, hfind, hl⟩

theorem uniqueOcc_of_sub (rooms1 rooms2 : List (String × Room))
    (h : ∀ sid rid l, OccIn rooms2 sid rid l → OccIn rooms1 sid rid l)
    (hu : UniqueOcc rooms1) : UniqueOcc rooms2 :=
  fun sid rid₁ l₁ rid₂ l₂ h1 h2 => hu sid rid₁ l₁ rid₂ l₂ (h sid rid₁ l₁ h1) (h sid rid₂ l₂ h2)

theorem occIn_update_shrink (rooms : List (String × Room)) (rid0 : String) (f : Room → Room)
    (hf : ∀ rm s l, locHolds (f rm) s l → locHolds rm s l) (sid : Nat) (rid : String)
    (l : RoomLoc) : OccIn (assocUpdate rooms rid0 f) sid rid l → OccIn rooms sid rid l := by
  intro h
  rcases (occIn_update_iff rooms rid0 f sid rid l).mp h with ⟨rfl, room, hfind, hl⟩ | ⟨-, hocc⟩
  · exact ⟨room, hfind, hf room sid l hl⟩
  · exact hocc

theorem locHolds_of_fields (rm rm' : Room) (h1 : rm'.slots = rm.slots)
    (h2 : rm'.spectators = rm.spectators) (s : Nat) (l : RoomLoc) :
    locHolds rm' s l → locHolds rm s l := by
  rcases l with r | _
  · unfold locHolds Room.slot
    rw [h1]
    exact id
  · unfold locHolds
    rw [h2]
    exact id

theorem assocFind_append_some {α β : Type} [DecidableEq α] (l l2 : List (α × β)) {k : α}
    {v : β} (h : assocFind l k = some v) : assocFind (l ++ l2) k = some v := by
  induction l with
  | nil => cases h
  | cons p rest ih =>
    rcases p with ⟨k0, v0⟩
    by_cases h0 : k0 = k
    · simp [assocFind, h0] at h ⊢
      exact h
    · simp [assocFind, h0] at h ⊢
      exact ih h

/-- `roomId` of every session is unchanged from `w` to `w'`. -/
def RoomIdsEq (w w' : World) : Prop :=
  ∀ x, (lookupSess w' x).map Sess.roomId = (lookupSess w x).map Sess.roomId

theorem roomIdsEq_refl (w : World) : RoomIdsEq w w := fun _ => rfl

theorem roomIdsEq_trans {w1 w2 w3 : World} (h1 : RoomIdsEq w1 w2) (h2 : RoomIdsEq w2 w3) :
    RoomIdsEq w1 w3 := fun x => (h2 x).trans (h1 x)

theorem roomIdsEq_updateRoom (w : World) (rid : String) (f : Room → Room) :
    RoomIdsEq w (updateRoom w rid f) := fun _ => rfl

theorem roomIdsEq_of_core (w w' : World)
    (h : ∀ x, (lookupSess w' x).map sessCore = (lookupSess w x).map sessCore) :
    RoomIdsEq w w' := by
  intro x
  have hx := h x
  rcases h1 : lookupSess w' x with _ | s1 <;> rcases h2 : lookupSess w x with _ | s2 <;>
    rw [h1, h2] at hx
  case none.some => simp at hx
  case some.none => simp at hx
  case some.some =>
    have hc : sessCore s1 = sessCore s2 := Option.some.inj hx
    unfold sessCore at hc
    show some s1.roomId = some s2.roomId
    exact congrArg some (congrArg Prod.fst hc)

theorem roomIdsEq_sendPayload (w : World) (x : Nat) (m : SMsg) :
    RoomIdsEq w (sendPayload w x m) :=
  roomIdsEq_of_core _ _ (fun y => sessCore_sendPayload w x m y)

theorem roomIdsEq_sendSnapshotIfAny (w : World) (x : Nat) (stOpt : Option JVal) :
    RoomIdsEq w (sendSnapshotIfAny w x stOpt) :=
  roomIdsEq_of_core _ _ (fun y => sessCore_sendSnapshotIfAny w x stOpt y)

theorem roomIdsEq_updateSess (w : World) (sid : Nat) (f : Sess → Sess)
    (hf : ∀ s, (f s).roomId = s.roomId) : RoomIdsEq w (updateSess w sid f) := by
  intro x
  rw [lookupSess_updateSess]
  by_cases hx : x = sid
  · subst hx
    rcases h : lookupSess w x with _ | s
    · simp
    · simp [hf]
  · simp [hx]

theorem roomIdsEq_foldl_send (l : List Nat) (w : World) (m : SMsg) :
    RoomIdsEq w (l.foldl (fun w x => sendPayload w x m) w) := by
  induction l generalizing w with
  | nil => exact roomIdsEq_refl w
  | cons y rest ih =>
    rw [List.foldl_cons]
    exact roomIdsEq_trans (roomIdsEq_sendPayload w y m) (ih (sendPayload w y m))

theorem roomIdsEq_broadcast (w : World) (rid : String) (m : SMsg) :
    RoomIdsEq w (broadcast w rid m) := by
  unfold broadcast
  rcases h : lookupRoom w rid with _ | room
  · exact roomIdsEq_refl w
  · exact roomIdsEq_foldl_send _ _ _

/-- OccJoined transfers along a step whose occupancies are either the
designated session `ex` or sessions that already occupied something. -/
theorem occJoined_transfer (w w' : World) (ex : Nat)
    (hchar : ∀ s rid l, OccIn w'.rooms s rid l →
      s = ex ∨ ∃ rid2 l2, OccIn w.rooms s rid2 l2)
    (hex : (∃ rid l, OccIn w'.rooms ex rid l) →
      ∃ s', lookupSess w' ex = some s' ∧ s'.roomId ≠ none)
    (hrp : ∀ x, x ≠ ex →
      (lookupSess w' x).map Sess.roomId = (lookupSess w x).map Sess.roomId)
    (hoj : OccJoined w) : OccJoined w' := by
  intro sid rid l hocc
  by_cases hx : sid = ex
  · subst hx
    exact hex ⟨rid, l, hocc⟩
  · rcases hchar sid rid l hocc with rfl | ⟨rid2, l2, h2⟩
    · exact absurd rfl hx
    · obtain ⟨s, hs, hne⟩ := hoj sid rid2 l2 h2
      have := hrp sid hx
      rw [hs] at this
      rcases h1 : lookupSess w' sid with _ | s1
      · rw [h1] at this
        cases this
      · rw [h1] at this
        refine ⟨s1, rfl, ?_⟩
        have : s1.roomId = s.roomId := Option.some.inj this
        rw [this]
        exact hne

/-- OccJoined transfers along an occupancy-shrinking, roomId-preserving step. -/
theorem occJoined_of_sub (w w' : World)
    (hsub : ∀ s rid l, OccIn w'.rooms s rid l → OccIn w.rooms s rid l)
    (hrp : RoomIdsEq w w') (hoj : OccJoined w) : OccJoined w' := by
  intro sid rid l hocc
  obtain ⟨s, hs, hne⟩ := hoj sid rid l (hsub sid rid l hocc)
  have := hrp sid
  rw [hs] at this
  rcases h1 : lookupSess w' sid with _ | s1
  · rw [h1] at this
    cases this
  · rw [h1] at this
    refine ⟨s1, rfl, ?_⟩
    have h2 : s1.roomId = s.roomId := Option.some.inj this
    rw [h2]
    exact hne

/-- NotJoined transfers along a roomId-preserving step. -/
theorem notJoined_of_rp (w w' : World) (sid : Nat) (hrp : RoomIdsEq w w')
    (hnj : NotJoined w sid) : NotJoined w' sid := by
  intro s' hs'
  have := hrp sid
  rw [hs'] at this
  rcases h1 : lookupSess w sid with _ | s
  · rw [h1] at this
    cases this
  · rw [h1] at this
    have h2 : s'.roomId = s.roomId := Option.some.inj this
    rw [h2]
    exact hnj s h1

theorem assocFind_append_singleton_cases {α β : Type} [DecidableEq α]
    (l : List (α × β)) (k0 : α) (v : β) (x : α) (s : β)
    (h : assocFind (l ++ [(k0, v)]) x = some s) :
    assocFind l x = some s ∨ (x = k0 ∧ assocFind l x = none ∧ s = v) := by
  rcases hf : assocFind l x with _ | s0
  · by_cases hx : x = k0
    · subst hx
      rw [assocFind_append_none l v hf] at h
      exact Or.inr ⟨rfl, rfl, (Option.some.inj h).symm⟩
    · rw [assocFind_append_ne l v hx] at h
      rw [hf] at h
      cases h
  · rw [assocFind_append_some l _ hf] at h
    exact Or.inl h

theorem lookupSess_congr (w1 w2 : World) (h : w1.sessions = w2.sessions) (x : Nat) :
    lookupSess w1 x = lookupSess w2 x := by
  unfold lookupSess
  rw [h]

theorem occIn_congr (w1 w2 : World) (h : w1.rooms = w2.rooms) (s : Nat) (rid : String)
    (l : RoomLoc) : OccIn w1.rooms s rid l ↔ OccIn w2.rooms s rid l := by
  rw [h]

/-- Preservation for `connect`. -/
theorem preserve_connect (w : World) (sid : Nat) (t : Nat)
    (hu : UniqueOcc w.rooms) (hoj : OccJoined w) :
    UniqueOcc (step w (.connect sid) t).rooms ∧ OccJoined (step w (.connect sid) t) ∧
    (∀ x, NotJoined w x → NotJoined (step w (.connect sid) t) x) := by
  simp only [step]
  split
  · exact ⟨hu, fun s rid l h => hoj s rid l h, fun x hx s hs => hx s hs⟩
  · refine ⟨hu, ?_, ?_⟩
    · intro s rid l h
      obtain ⟨s0, hs0, hne⟩ := hoj s rid l h
      refine ⟨s0, ?_, hne⟩
      show assocFind (w.sessions ++ [(sid, Sess.init)]) s = some s0
      exact assocFind_append_some _ _ hs0
    · intro x hx s hs
      have hs' : assocFind (w.sessions ++ [(sid, Sess.init)]) x = some s := hs
      rcases assocFind_append_singleton_cases _ _ _ _ _ hs' with h1 | ⟨-, -, rfl⟩
      · exact hx s h1
      · rfl

theorem rooms_handleRequestState (w : World) (sid : Nat) :
    (handleRequestState w sid).rooms = w.rooms := by
  unfold handleRequestState
  split
  · rfl
  · split
    · rfl
    · split
      · rfl
      · exact rooms_sendSnapshotIfAny _ _ _

theorem roomIdsEq_handleRequestState (w : World) (sid : Nat) :
    RoomIdsEq w (handleRequestState w sid) := by
  unfold handleRequestState
  split
  · exact roomIdsEq_refl w
  · split
    · exact roomIdsEq_refl w
    · split
      · exact roomIdsEq_refl w
      · exact roomIdsEq_sendSnapshotIfAny _ _ _

/-- Preservation for `requestState`. -/
theorem preserve_requestState (w : World) (sid : Nat) (t : Nat)
    (hu : UniqueOcc w.rooms) (hoj : OccJoined w) :
    UniqueOcc (step w (.requestState sid) t).rooms ∧
    OccJoined (step w (.requestState sid) t) ∧
    (∀ x, NotJoined w x → NotJoined (step w (.requestState sid) t) x) := by
  simp only [step]
  split
  · have hrooms : (handleRequestState { w with clock := t } sid).rooms = w.rooms :=
      rooms_handleRequestState { w with clock := t } sid
    have hrp : RoomIdsEq w (handleRequestState { w with clock := t } sid) :=
      roomIdsEq_handleRequestState { w with clock := t } sid
    refine ⟨?_, ?_, ?_⟩
    · rw [hrooms]
      exact hu
    · refine occJoined_of_sub w _ ?_ hrp hoj
      intro s rid l h
      rw [hrooms] at h
      exact h
    · intro x hx
      exact notJoined_of_rp w _ x hrp hx
  · exact ⟨hu, fun s rid l h => hoj s rid l h, fun x hx s hs => hx s hs⟩

theorem occIn_handleSyncState_sub (w : World) (sid : Nat) (p : Option JVal) :
    ∀ s rid l, OccIn (handleSyncState w sid p).rooms s rid l → OccIn w.rooms s rid l := by
  intro s rid l h
  unfold handleSyncState at h
  split at h
  · exact h
  · split at h
    · exact h
    · split at h
      · exact h
      · split at h
        · split at h
          · split at h
            · rw [rooms_broadcast] at h
              refine occIn_update_shrink _ _ _ ?_ _ _ _ h
              intro rm s0 l0
              exact locHolds_of_fields _ _ rfl rfl s0 l0
            · exact h
          · exact h
        · exact h

theorem roomIdsEq_handleSyncState (w : World) (sid : Nat) (p : Option JVal) :
    RoomIdsEq w (handleSyncState w sid p) := by
  unfold handleSyncState
  split
  · exact roomIdsEq_refl w
  · split
    · exact roomIdsEq_refl w
    · split
      · exact roomIdsEq_refl w
      · split
        · split
          · split
            · exact roomIdsEq_trans (roomIdsEq_updateRoom _ _ _) (roomIdsEq_broadcast _ _ _)
            · exact roomIdsEq_refl w
          · exact roomIdsEq_refl w
        · exact roomIdsEq_refl w

/-- Preservation for `syncState`. -/
theorem preserve_syncState (w : World) (sid : Nat) (p : Option JVal) (t : Nat)
    (hu : UniqueOcc w.rooms) (hoj : OccJoined w) :
    UniqueOcc (step w (.syncState sid p) t).rooms ∧ OccJoined (step w (.syncState sid p) t) ∧
    (∀ x, NotJoined w x → NotJoined (step w (.syncState sid p) t) x) := by
  simp only [step]
  split
  · have hsub := occIn_handleSyncState_sub { w with clock := t } sid p
    have hrp : RoomIdsEq w (handleSyncState { w with clock := t } sid p) :=
      roomIdsEq_handleSyncState { w with clock := t } sid p
    refine ⟨?_, occJoined_of_sub w _ hsub hrp hoj, fun x hx => notJoined_of_rp w _ x hrp hx⟩
    exact uniqueOcc_of_sub _ _ hsub hu
  · exact ⟨hu, fun s rid l h => hoj s rid l h, fun x hx s hs => hx s hs⟩

/-- Preservation for `cleanupFire`. -/
theorem preserve_cleanupFire (w : World) (rid : String) (t : Nat)
    (hu : UniqueOcc w.rooms) (hoj : OccJoined w) :
    UniqueOcc (step w (.cleanupFire rid) t).rooms ∧ OccJoined (step w (.cleanupFire rid) t) ∧
    (∀ x, NotJoined w x → NotJoined (step w (.cleanupFire rid) t) x) := by
  simp only [step]
  split
  · split
    · have hsub : ∀ s rid' l,
          OccIn (w.rooms.filter (fun p => decide (p.1 ≠ rid))) s rid' l →
          OccIn w.rooms s rid' l := fun s rid' l h => occIn_filter _ _ _ _ _ h
      exact ⟨uniqueOcc_of_sub _ _ hsub hu,
        occJoined_of_sub w _ hsub (roomIdsEq_refl _) hoj,
        fun x hx s hs => hx s hs⟩
    · exact ⟨hu, fun s rid' l h => hoj s rid' l h, fun x hx s hs => hx s hs⟩
  · exact ⟨hu, fun s rid' l h => hoj s rid' l h, fun x hx s hs => hx s hs⟩

theorem sessions_startLeaseTimer (w : World) (rid : String) (r : Fin 2) :
    (startLeaseTimer w rid r).sessions = w.sessions := by
  unfold startLeaseTimer
  split
  · rfl
  · rfl

theorem occIn_startLeaseTimer_sub (w : World) (rid : String) (r : Fin 2) :
    ∀ s rid' l, OccIn (startLeaseTimer w rid r).rooms s rid' l → OccIn w.rooms s rid' l := by
  intro s rid' l h
  unfold startLeaseTimer at h
  split at h
  · exact h
  · refine occIn_update_shrink _ _ _ ?_ _ _ _ h
    intro rm s0 l0
    exact locHolds_of_fields _ _ rfl rfl s0 l0

theorem locHolds_setSlot_none (rm : Room) (r : Fin 2) :
    ∀ s l, locHolds (rm.setSlot r none) s l → locHolds rm s l := by
  intro s l
  rcases l with r' | _
  · simp only [locHolds]
    by_cases hr : r' = r
    · subst hr
      rw [Room.slot_setSlot_same]
      intro h
      cases h
    · rw [Room.slot_setSlot_other _ _ hr]
      exact id
  · simp only [locHolds]
    exact id

theorem locHolds_filter_spec (rm : Room) (sid0 : Nat) :
    ∀ s l, locHolds { rm with spectators := rm.spectators.filter (fun x => decide (x ≠ sid0)) } s l →
      locHolds rm s l := by
  intro s l
  rcases l with r' | _
  · simp only [locHolds, Room.slot]
    exact id
  · simp only [locHolds]
    intro h
    exact List.mem_of_mem_filter h

theorem locHolds_setCleanup (rm : Room) (ct : Option Nat) :
    ∀ s l, locHolds { rm with cleanupTimer := ct } s l → locHolds rm s l := by
  intro s l
  rcases l with r' | _
  · simp only [locHolds, Room.slot]
    exact id
  · simp only [locHolds]
    exact id

theorem sessions_handleClose (w : World) (sid : Nat) :
    (handleClose w sid).sessions =
      (updateSess w sid (fun s => { s with isOpen := false })).sessions := by
  simp only [handleClose]
  split
  · rfl
  · split
    · rfl
    · split
      · rfl
      · split <;>
          · split <;>
              simp [apply_ite World.sessions, sessions_startLeaseTimer, updateRoom, updateSess]

theorem occIn_handleClose_sub (w : World) (sid : Nat) :
    ∀ s rid l, OccIn (handleClose w sid).rooms s rid l → OccIn w.rooms s rid l := by
  intro s0 rid0 l0 h
  simp only [handleClose] at h
  repeat' split at h
  all_goals
    first
      | exact h
      | exact occIn_update_shrink _ _ _ (fun rm => locHolds_filter_spec rm _) _ _ _ h
      | exact occIn_update_shrink _ _ _ (fun rm => locHolds_setSlot_none rm _) _ _ _
          (occIn_startLeaseTimer_sub _ _ _ _ _ _ h)
      | exact occIn_update_shrink _ _ _ (fun rm => locHolds_setCleanup rm _) _ _ _ h
      | exact occIn_update_shrink _ _ _ (fun rm => locHolds_filter_spec rm _) _ _ _
          (occIn_update_shrink _ _ _ (fun rm => locHolds_setCleanup rm _) _ _ _ h)
      | exact occIn_update_shrink _ _ _ (fun rm => locHolds_setSlot_none rm _) _ _ _
          (occIn_startLeaseTimer_sub _ _ _ _ _ _
            (occIn_update_shrink _ _ _ (fun rm => locHolds_setCleanup rm _) _ _ _ h))

/-- Preservation for `close`. -/
theorem preserve_close (w : World) (sid : Nat) (t : Nat)
    (hu : UniqueOcc w.rooms) (hoj : OccJoined w) :
    UniqueOcc (step w (.close sid) t).rooms ∧ OccJoined (step w (.close sid) t) ∧
    (∀ x, NotJoined w x → NotJoined (step w (.close sid) t) x) := by
  simp only [step]
  split
  · have hsub : ∀ s rid l, OccIn (handleClose { w with clock := t } sid).rooms s rid l →
        OccIn w.rooms s rid l :=
      fun s rid l h => occIn_handleClose_sub { w with clock := t } sid s rid l h
    have hrp : RoomIdsEq w (handleClose { w with clock := t } sid) := by
      intro x
      rw [lookupSess_congr _ _ (sessions_handleClose { w with clock := t } sid) x]
      exact roomIdsEq_updateSess { w with clock := t } sid
        (fun s => { s with isOpen := false }) (fun s => rfl) x
    exact ⟨uniqueOcc_of_sub _ _ hsub hu, occJoined_of_sub w _ hsub hrp hoj,
      fun x hx => notJoined_of_rp w _ x hrp hx⟩
  · exact ⟨hu, fun s rid l h => hoj s rid l h, fun x hx s hs => hx s hs⟩

theorem dequeue_some_facts (w : World) (q : List String) (specs : List Nat) (sid' : Nat)
    (q2 : List String) (specs2 : List Nat)
    (h : dequeueNextLiveSpectator w q specs = (some sid', q2, specs2)) :
    sid' ∈ specs ∧ specs2 = specs.filter (fun x => decide (x ≠ sid')) := by
  induction q with
  | nil => cases h
  | cons d rest ih =>
    unfold dequeueNextLiveSpectator at h
    rcases hf : findLiveSpec w specs d with _ | x
    · rw [hf] at h
      exact ih h
    · rw [hf] at h
      have h1 : x = sid' := by
        have := congrArg Prod.fst h
        exact Option.some.inj this
      subst h1
      have h3 : specs2 = specs.filter (fun y => decide (y ≠ x)) := by
        have := congrArg (fun p => p.2.2) h
        exact this.symm
      refine ⟨?_, h3⟩
      exact List.mem_of_find?_eq_some hf

/-- The token `assignRole` computes from the session's `deviceId`. -/
def sessTok (w : World) (sid : Nat) : Option String :=
  match lookupSess w sid with
  | some s => devToken s.deviceId
  | none => none

theorem rooms_assignRole (w : World) (rid : String) (r : Fin 2) (sid : Nat) :
    (assignRole w rid r sid).rooms = assocUpdate w.rooms rid
      (fun room => (((room.setSlot r (some sid)).setToken r
        (sessTok w sid)).setExpiry r 0).setTimer r none) := by
  unfold assignRole sessTok devToken
  rfl

theorem roomIdsEq_assignRole (w : World) (rid : String) (r : Fin 2) (sid : Nat) :
    RoomIdsEq w (assignRole w rid r sid) := by
  unfold assignRole
  exact roomIdsEq_trans (roomIdsEq_updateRoom w rid _)
    (roomIdsEq_updateSess _ sid _ (fun s => rfl))

/-- Preservation for `leaseFire`. -/
theorem preserve_leaseFire (w : World) (rid : String) (r : Fin 2) (t : Nat)
    (hu : UniqueOcc w.rooms) (hoj : OccJoined w) :
    UniqueOcc (step w (.leaseFire rid r) t).rooms ∧ OccJoined (step w (.leaseFire rid r) t) ∧
    (∀ x, NotJoined w x → NotJoined (step w (.leaseFire rid r) t) x) := by
  rcases hroom : lookupRoom w rid with _ | room
  · have hstep : step w (.leaseFire rid r) t = { w with clock := t } := by
      have hroom' : lookupRoom { w with clock := t } rid = none := hroom
      simp only [step, hroom']
    rw [hstep]
    exact ⟨hu, fun s rid' l h => hoj s rid' l h, fun x hx s hs => hx s hs⟩
  by_cases htm : room.timer r = some t
  swap
  · have hstep : step w (.leaseFire rid r) t = { w with clock := t } := by
      have hroom' : lookupRoom { w with clock := t } rid = some room := hroom
      simp only [step, hroom', htm, if_false]
    rw [hstep]
    exact ⟨hu, fun s rid' l h => hoj s rid' l h, fun x hx s hs => hx s hs⟩
  rw [step_leaseFire_eq w rid r t room hroom htm]
  have hroomA : lookupRoom (updateRoom { w with clock := t } rid
      (fun rm => rm.setTimer r none)) rid = some (room.setTimer r none) := by
    rw [lookupRoom_updateRoom_self]
    have hroom' : lookupRoom { w with clock := t } rid = some room := hroom
    rw [hroom']
    rfl
  rcases hslot : room.slot r with _ | occ
  swap
  · -- slot still occupied: the callback does nothing
    have heq : onLeaseExpire (updateRoom { w with clock := t } rid
        (fun rm => rm.setTimer r none)) rid r =
        updateRoom { w with clock := t } rid (fun rm => rm.setTimer r none) := by
      simp only [onLeaseExpire, hroomA]
      rw [if_neg (by simp [hslot])]
    rw [heq]
    have hsub : ∀ s rid' l, OccIn (updateRoom { w with clock := t } rid
        (fun rm => rm.setTimer r none)).rooms s rid' l → OccIn w.rooms s rid' l := by
      intro s rid' l h
      have h1 : OccIn (assocUpdate w.rooms rid (fun rm => rm.setTimer r none)) s rid' l := h
      exact occIn_update_shrink w.rooms rid (fun rm => rm.setTimer r none)
        (fun rm s0 l0 => locHolds_of_fields rm (rm.setTimer r none) rfl rfl s0 l0) s rid' l h1
    exact ⟨uniqueOcc_of_sub _ _ hsub hu,
      occJoined_of_sub w _ hsub (fun x => rfl) hoj,
      fun x hx => notJoined_of_rp w _ x (fun y => rfl) hx⟩
  · have hcond : (room.setTimer r none).slot r = none := by simp [hslot]
    rcases hdq : dequeueNextLiveSpectator (updateRoom { w with clock := t } rid
        (fun rm => rm.setTimer r none)) (room.setTimer r none).specQueue
        (room.setTimer r none).spectators with ⟨o, q2, specs2⟩
    rcases o with _ | sid'
    · -- nobody to promote: reclaim rights dropped, occupancies only shrink
      have heq : onLeaseExpire (updateRoom { w with clock := t } rid
          (fun rm => rm.setTimer r none)) rid r =
          updateRoom (updateRoom { w with clock := t } rid (fun rm => rm.setTimer r none)) rid
            (fun rm => ((({ rm with specQueue := q2 }).setToken r none).setExpiry r
              0).setTimer r none) := by
        simp only [onLeaseExpire, hroomA]
        rw [if_pos hcond, hdq]
      rw [heq]
      have hsub : ∀ s rid' l, OccIn (updateRoom (updateRoom { w with clock := t } rid
          (fun rm => rm.setTimer r none)) rid
          (fun rm => ((({ rm with specQueue := q2 }).setToken r none).setExpiry r
            0).setTimer r none)).rooms s rid' l → OccIn w.rooms s rid' l := by
        intro s rid' l h
        have h1 : OccIn (assocUpdate (updateRoom { w with clock := t } rid
            (fun rm => rm.setTimer r none)).rooms rid
            (fun rm => ((({ rm with specQueue := q2 }).setToken r none).setExpiry r
              0).setTimer r none)) s rid' l := h
        have h2 := occIn_update_shrink (updateRoom { w with clock := t } rid
            (fun rm => rm.setTimer r none)).rooms rid
            (fun rm => ((({ rm with specQueue := q2 }).setToken r none).setExpiry r
              0).setTimer r none)
            (fun rm s0 l0 => locHolds_of_fields rm
              (((({ rm with specQueue := q2 }).setToken r none).setExpiry r
                0).setTimer r none) rfl rfl s0 l0) s rid' l h1
        have h3 : OccIn (assocUpdate w.rooms rid (fun rm => rm.setTimer r none)) s rid' l := h2
        exact occIn_update_shrink w.rooms rid (fun rm => rm.setTimer r none)
          (fun rm s0 l0 => locHolds_of_fields rm (rm.setTimer r none) rfl rfl s0 l0) s rid' l h3
      exact ⟨uniqueOcc_of_sub _ _ hsub hu,
        occJoined_of_sub w _ hsub (fun x => rfl) hoj,
        fun x hx => notJoined_of_rp w _ x (fun y => rfl) hx⟩
    · -- promotion: sid' moves from the spectator set to slot r
      obtain ⟨hmem, hspecs2⟩ := dequeue_some_facts _ _ _ _ _ _ hdq
      have hroomW : assocFind w.rooms rid = some room := hroom
      have holdspec : OccIn w.rooms sid' rid .spectator := ⟨room, hroomW, hmem⟩
      have heq : onLeaseExpire (updateRoom { w with clock := t } rid
          (fun rm => rm.setTimer r none)) rid r =
          sendSnapshotIfAny (sendPayload (assignRole (updateRoom (updateRoom
            { w with clock := t } rid (fun rm => rm.setTimer r none)) rid
            (fun rm => { rm with spectators := specs2, specQueue := q2 })) rid r sid')
            sid' (.role r.val)) sid' (room.setTimer r none).state := by
        simp only [onLeaseExpire, hroomA]
        rw [if_pos hcond, hdq]
      rw [heq]
      have hroomsfinal : (sendSnapshotIfAny (sendPayload (assignRole (updateRoom (updateRoom
          { w with clock := t } rid (fun rm => rm.setTimer r none)) rid
          (fun rm => { rm with spectators := specs2, specQueue := q2 })) rid r sid')
          sid' (.role r.val)) sid' (room.setTimer r none).state).rooms =
          assocUpdate w.rooms rid (fun rm =>
            ((((({ rm.setTimer r none with spectators := specs2, specQueue := q2 }).setSlot r
              (some sid')).setToken r (sessTok (updateRoom (updateRoom
                { w with clock := t } rid (fun rm => rm.setTimer r none)) rid
                (fun rm => { rm with spectators := specs2, specQueue := q2 })) sid')).setExpiry r
              0).setTimer r none)) := by
        rw [rooms_sendSnapshotIfAny, rooms_sendPayload, rooms_assignRole]
        show assocUpdate (assocUpdate (assocUpdate w.rooms rid _) rid _) rid _ = _
        rw [assocUpdate_assocUpdate, assocUpdate_assocUpdate]
      have hana : ∀ s0 rid0 l0,
          OccIn (sendSnapshotIfAny (sendPayload (assignRole (updateRoom (updateRoom
            { w with clock := t } rid (fun rm => rm.setTimer r none)) rid
            (fun rm => { rm with spectators := specs2, specQueue := q2 })) rid r sid')
            sid' (.role r.val)) sid' (room.setTimer r none).state).rooms s0 rid0 l0 →
          (s0 = sid' ∧ rid0 = rid ∧ l0 = .player r) ∨
          (OccIn w.rooms s0 rid0 l0 ∧ ¬(s0 = sid' ∧ rid0 = rid ∧ l0 = .spectator)) := by
        intro s0 rid0 l0 h
        rw [hroomsfinal] at h
        rcases (occIn_update_iff _ _ _ _ _ _).mp h with ⟨rfl, rm, hfind, hl⟩ | ⟨hne, hocc⟩
        · have hrm : rm = room := by
            rw [hroomW] at hfind
            exact (Option.some.inj hfind).symm
          subst hrm
          rcases l0 with r2 | _
          · by_cases hr2 : r2 = r
            · subst hr2
              simp only [locHolds] at hl
              simp at hl
              exact Or.inl ⟨hl.symm, rfl, rfl⟩
            · have hl2 : rm.slot r2 = some s0 := by
                simp only [locHolds] at hl
                simpa [hr2] using hl
              refine Or.inr ⟨⟨rm, hroomW, hl2⟩, ?_⟩
              rintro ⟨-, -, hcon⟩
              cases hcon
          · simp only [locHolds] at hl
            have hx : s0 ∈ specs2 := by
              simpa using hl
            rw [hspecs2] at hx
            have hmem0 : s0 ∈ rm.spectators := List.mem_of_mem_filter hx
            have hne0 : s0 ≠ sid' := by
              have := List.of_mem_filter hx
              simpa using this
            refine Or.inr ⟨⟨rm, hroomW, hmem0⟩, ?_⟩
            rintro ⟨rfl, -, -⟩
            exact hne0 rfl
        · exact Or.inr ⟨hocc, fun hK => hne hK.2.1⟩
      have hrp : RoomIdsEq w (sendSnapshotIfAny (sendPayload (assignRole (updateRoom (updateRoom
          { w with clock := t } rid (fun rm => rm.setTimer r none)) rid
          (fun rm => { rm with spectators := specs2, specQueue := q2 })) rid r sid')
          sid' (.role r.val)) sid' (room.setTimer r none).state) := by
        refine roomIdsEq_trans ?_ (roomIdsEq_sendSnapshotIfAny _ _ _)
        refine roomIdsEq_trans ?_ (roomIdsEq_sendPayload _ _ _)
        refine roomIdsEq_trans ?_ (roomIdsEq_assignRole _ _ _ _)
        exact fun x => rfl
      refine ⟨?_, ?_, ?_⟩
      · intro s0 rid1 l1 rid2 l2 h1 h2
        rcases hana s0 rid1 l1 h1 with ⟨hs1, hr1, hl1⟩ | ⟨ho1, hn1⟩
        · rcases hana s0 rid2 l2 h2 with ⟨hs2, hr2, hl2⟩ | ⟨ho2, hn2⟩
          · exact ⟨hr1.trans hr2.symm, hl1.trans hl2.symm⟩
          · have hocc0 : OccIn w.rooms s0 rid RoomLoc.spectator := by
              rw [hs1]
              exact holdspec
            obtain ⟨he1, he2⟩ := hu s0 rid2 l2 rid RoomLoc.spectator ho2 hocc0
            exact absurd ⟨hs1, he1, he2⟩ hn2
        · rcases hana s0 rid2 l2 h2 with ⟨hs2, hr2, hl2⟩ | ⟨ho2, hn2⟩
          · have hocc0 : OccIn w.rooms s0 rid RoomLoc.spectator := by
              rw [hs2]
              exact holdspec
            obtain ⟨he1, he2⟩ := hu s0 rid1 l1 rid RoomLoc.spectator ho1 hocc0
            exact absurd ⟨hs2, he1, he2⟩ hn1
          · exact hu s0 rid1 l1 rid2 l2 ho1 ho2
      · refine occJoined_transfer w _ sid' ?_ ?_ ?_ hoj
        · intro s0 rid0 l0 h
          rcases hana s0 rid0 l0 h with ⟨rfl, -, -⟩ | ⟨ho, -⟩
          · exact Or.inl rfl
          · exact Or.inr ⟨rid0, l0, ho⟩
        · intro hdum
          obtain ⟨s1, hs1, hne1⟩ := hoj sid' rid RoomLoc.spectator holdspec
          have := hrp sid'
          rw [hs1] at this
          rcases h2 : lookupSess (sendSnapshotIfAny (sendPayload (assignRole (updateRoom
              (updateRoom { w with clock := t } rid (fun rm => rm.setTimer r none)) rid
              (fun rm => { rm with spectators := specs2, specQueue := q2 })) rid r sid')
              sid' (.role r.val)) sid' (room.setTimer r none).state) sid' with _ | s2
          · rw [h2] at this
            cases this
          · rw [h2] at this
            refine ⟨s2, rfl, ?_⟩
            have h3 : s2.roomId = s1.roomId := Option.some.inj this
            rw [h3]
            exact hne1
        · intro x hxne
          exact hrp x
      · intro x hx
        exact notJoined_of_rp w _ x hrp hx

/-! ### `join` preservation -/

theorem getOrCreateRoom_none_eq (w : World) (rid : String) (h : lookupRoom w rid = none) :
    getOrCreateRoom w rid = { w with rooms := w.rooms ++ [(rid, Room.mk0 w.clock)] } := by
  unfold getOrCreateRoom
  rw [h]

theorem getOrCreateRoom_some_eq (w : World) (rid : String) (room : Room)
    (h : lookupRoom w rid = some room) : getOrCreateRoom w rid = w := by
  unfold getOrCreateRoom
  rw [h]

theorem sessions_getOrCreateRoom (w : World) (rid : String) :
    (getOrCreateRoom w rid).sessions = w.sessions := by
  unfold getOrCreateRoom
  split <;> rfl

theorem clock_getOrCreateRoom (w : World) (rid : String) :
    (getOrCreateRoom w rid).clock = w.clock := by
  unfold getOrCreateRoom
  split <;> rfl

theorem lookupRoom_getOrCreate_self (w : World) (rid : String) :
    ∃ room, lookupRoom (getOrCreateRoom w rid) rid = some room := by
  rcases h : lookupRoom w rid with _ | room
  · rw [getOrCreateRoom_none_eq w rid h]
    exact ⟨Room.mk0 w.clock, assocFind_append_none w.rooms _ h⟩
  · rw [getOrCreateRoom_some_eq w rid room h]
    exact ⟨room, h⟩

theorem occIn_getOrCreateRoom (w : World) (rid : String) (s0 : Nat) (rid0 : String)
    (l0 : RoomLoc) :
    OccIn (getOrCreateRoom w rid).rooms s0 rid0 l0 ↔ OccIn w.rooms s0 rid0 l0 := by
  rcases h : lookupRoom w rid with _ | room
  · rw [getOrCreateRoom_none_eq w rid h]
    exact occIn_append_mk0 w.rooms rid w.clock h s0 rid0 l0
  · rw [getOrCreateRoom_some_eq w rid room h]

theorem handleJoin_getOrCreate (w : World) (sid : Nat) (rid dev : String) :
    handleJoin w sid rid dev = handleJoin (getOrCreateRoom w rid) sid rid dev := by
  obtain ⟨room1, h1⟩ := lookupRoom_getOrCreate_self w rid
  have h2 : getOrCreateRoom (getOrCreateRoom w rid) rid = getOrCreateRoom w rid :=
    getOrCreateRoom_some_eq _ _ room1 h1
  simp only [handleJoin, h2]

theorem bool_false_of_not_true {b : Bool} (h : ¬ b = true) : b = false := by
  cases b
  · rfl
  · exact absurd rfl h

theorem rooms_seatPlayer (w : World) (rid : String) (r : Fin 2) (sid : Nat) :
    (seatPlayer w rid r sid).rooms = assocUpdate w.rooms rid
      (fun room => (((room.setSlot r (some sid)).setToken r
        (sessTok w sid)).setExpiry r 0).setTimer r none) := by
  simp only [seatPlayer]
  split
  · rw [rooms_sendSnapshotIfAny, rooms_sendPayload, rooms_assignRole]
  · rw [rooms_sendPayload, rooms_assignRole]

theorem occIn_seatPlayer_cases (w : World) (rid : String) (r : Fin 2) (sid : Nat)
    (s0 : Nat) (rid0 : String) (l0 : RoomLoc)
    (h : OccIn (seatPlayer w rid r sid).rooms s0 rid0 l0) :
    (s0 = sid ∧ rid0 = rid ∧ l0 = RoomLoc.player r) ∨ OccIn w.rooms s0 rid0 l0 := by
  rw [rooms_seatPlayer] at h
  rcases (occIn_update_iff _ _ _ _ _ _).mp h with ⟨heq, rm, hfind, hl⟩ | ⟨-, hocc⟩
  · rcases l0 with r2 | _
    · by_cases hr2 : r2 = r
      · subst hr2
        simp only [locHolds] at hl
        simp at hl
        exact Or.inl ⟨hl.symm, heq, rfl⟩
      · have hl2 : rm.slot r2 = some s0 := by
          simp only [locHolds] at hl
          simpa [hr2] using hl
        refine Or.inr ?_
        rw [heq]
        exact ⟨rm, hfind, hl2⟩
    · simp only [locHolds] at hl
      have hl2 : s0 ∈ rm.spectators := by simpa using hl
      refine Or.inr ?_
      rw [heq]
      exact ⟨rm, hfind, hl2⟩
  · exact Or.inr hocc

theorem occIn_enqueue_cases (rooms : List (String × Room)) (rid : String) (sid : Nat)
    (dev : String) (s0 : Nat) (rid0 : String) (l0 : RoomLoc)
    (h : OccIn (assocUpdate rooms rid (fun rm => enqueueSpectator rm sid dev)) s0 rid0 l0) :
    (s0 = sid ∧ rid0 = rid ∧ l0 = RoomLoc.spectator) ∨ OccIn rooms s0 rid0 l0 := by
  rcases (occIn_update_iff _ _ _ _ _ _).mp h with ⟨heq, rm, hfind, hl⟩ | ⟨-, hocc⟩
  · have hslots : (enqueueSpectator rm sid dev).slots = rm.slots := rfl
    have hspec : (enqueueSpectator rm sid dev).spectators =
        (if sid ∈ rm.spectators then rm.spectators else rm.spectators ++ [sid]) := rfl
    rcases l0 with r2 | _
    · have hl2 : rm.slot r2 = some s0 := by
        have hsl : (enqueueSpectator rm sid dev).slot r2 = rm.slot r2 := by
          unfold Room.slot
          rw [hslots]
        simp only [locHolds] at hl
        rw [hsl] at hl
        exact hl
      refine Or.inr ?_
      rw [heq]
      exact ⟨rm, hfind, hl2⟩
    · simp only [locHolds] at hl
      rw [hspec] at hl
      by_cases hmem : sid ∈ rm.spectators
      · rw [if_pos hmem] at hl
        refine Or.inr ?_
        rw [heq]
        exact ⟨rm, hfind, hl⟩
      · rw [if_neg hmem] at hl
        rcases List.mem_append.mp hl with h1 | h1
        · refine Or.inr ?_
          rw [heq]
          exact ⟨rm, hfind, h1⟩
        · have hs0 : s0 = sid := by simpa using h1
          exact Or.inl ⟨hs0, heq, rfl⟩
  · exact Or.inr hocc

/-- The common shape of the three `join`-handler outcomes: the joining session
acquires one new location, everything else is untouched. -/
theorem join_like_preserves (w wT : World) (sid : Nat) (rid : String) (lnew : RoomLoc)
    (hu : UniqueOcc w.rooms)
    (hfresh : ∀ rid0 l0, ¬ OccIn w.rooms sid rid0 l0)
    (hana : ∀ s0 rid0 l0, OccIn wT.rooms s0 rid0 l0 →
      (s0 = sid ∧ rid0 = rid ∧ l0 = lnew) ∨ OccIn w.rooms s0 rid0 l0)
    (hsess : ∀ x, x ≠ sid → lookupSess wT x = lookupSess w x)
    (hsid : ∃ s', lookupSess wT sid = some s' ∧ s'.roomId ≠ none)
    (hoj : OccJoined w) :
    UniqueOcc wT.rooms ∧ OccJoined wT ∧
    (∀ x, x ≠ sid → NotJoined w x → NotJoined wT x) := by
  refine ⟨?_, ?_, ?_⟩
  · intro s0 rid1 l1 rid2 l2 h1 h2
    rcases hana s0 rid1 l1 h1 with ⟨hs1, hr1, hl1⟩ | ho1
    · rcases hana s0 rid2 l2 h2 with ⟨hs2x, hr2, hl2⟩ | ho2
      · exact ⟨hr1.trans hr2.symm, hl1.trans hl2.symm⟩
      · exfalso
        apply hfresh rid2 l2
        rw [hs1] at ho2
        exact ho2
    · rcases hana s0 rid2 l2 h2 with ⟨hs2x, hr2, hl2⟩ | ho2
      · exfalso
        apply hfresh rid1 l1
        rw [hs2x] at ho1
        exact ho1
      · exact hu s0 rid1 l1 rid2 l2 ho1 ho2
  · refine occJoined_transfer w wT sid ?_ ?_ ?_ hoj
    · intro s0 rid0 l0 h
      rcases hana s0 rid0 l0 h with ⟨hs0, -, -⟩ | ho
      · exact Or.inl hs0
      · exact Or.inr ⟨rid0, l0, ho⟩
    · intro hdum
      exact hsid
    · intro x hx
      rw [hsess x hx]
  · intro x hx hnx s' hs'
    rw [hsess x hx] at hs'
    exact hnx s' hs'

/-- Preservation for `join` of a session that has not joined before. -/
theorem preserve_join (w : World) (sid : Nat) (rid dev : String) (t : Nat)
    (hu : UniqueOcc w.rooms) (hoj : OccJoined w) (hnj : NotJoined w sid) :
    UniqueOcc (step w (.join sid rid dev) t).rooms ∧ OccJoined (step w (.join sid rid dev) t) ∧
    (∀ x, x ≠ sid → NotJoined w x → NotJoined (step w (.join sid rid dev) t) x) := by
  have hfresh : ∀ rid0 l0, ¬ OccIn w.rooms sid rid0 l0 := by
    intro rid0 l0 hocc
    obtain ⟨s', hs', hne⟩ := hoj sid rid0 l0 hocc
    exact hne (hnj s' hs')
  by_cases hop : sessOpen w sid = true
  swap
  · have hstep : step w (.join sid rid dev) t = { w with clock := t } := by
      simp only [step, sessOpen_setClock]
      rw [if_neg hop]
    rw [hstep]
    exact ⟨hu, fun s0 rid0 l0 h => hoj s0 rid0 l0 h, fun x hxne hx s hsx => hx s hsx⟩
  obtain ⟨s, hs⟩ : ∃ s, lookupSess w sid = some s := by
    by_cases h : (lookupSess w sid).isSome
    · exact Option.isSome_iff_exists.mp h
    · exfalso
      rw [Option.not_isSome_iff_eq_none] at h
      unfold sessOpen at hop
      rw [h] at hop
      simp at hop
  rw [step_join_eq w sid rid dev t hop,
    handleJoin_getOrCreate { w with clock := t } sid rid dev]
  obtain ⟨room1, hroom1⟩ := lookupRoom_getOrCreate_self { w with clock := t } rid
  have hmain : ∀ (W : World), lookupRoom W rid = some room1 → W.sessions = w.sessions →
      (∀ s0 rid0 l0, OccIn W.rooms s0 rid0 l0 → OccIn w.rooms s0 rid0 l0) →
      UniqueOcc (handleJoin W sid rid dev).rooms ∧ OccJoined (handleJoin W sid rid dev) ∧
      (∀ x, x ≠ sid → NotJoined w x → NotJoined (handleJoin W sid rid dev) x) := by
    intro W hroomW hsessW hoccW
    have hroom2 : lookupRoom (updateSess W sid
        (fun s => { s with roomId := some rid, deviceId := some dev })) rid = some room1 := by
      rw [lookupRoom_updateSess]
      exact hroomW
    have hs2 : lookupSess (updateSess W sid
        (fun s => { s with roomId := some rid, deviceId := some dev })) sid =
        some { s with roomId := some rid, deviceId := some dev } := by
      rw [lookupSess_updateSess_self, lookupSess_congr _ _ hsessW sid, hs]
      rfl
    have hsess2 : ∀ x, x ≠ sid → lookupSess (updateSess W sid
        (fun s => { s with roomId := some rid, deviceId := some dev })) x =
        lookupSess w x := by
      intro x hx
      rw [lookupSess_updateSess_ne _ _ hx]
      exact lookupSess_congr _ _ hsessW x
    have hsub2 : ∀ s0 rid0 l0, OccIn (updateSess W sid
        (fun s => { s with roomId := some rid, deviceId := some dev })).rooms s0 rid0 l0 →
        OccIn w.rooms s0 rid0 l0 := by
      intro s0 rid0 l0 h
      exact hoccW s0 rid0 l0 h
    have hseat : ∀ r : Fin 2,
        UniqueOcc (seatPlayer (updateSess W sid
          (fun s => { s with roomId := some rid, deviceId := some dev })) rid r sid).rooms ∧
        OccJoined (seatPlayer (updateSess W sid
          (fun s => { s with roomId := some rid, deviceId := some dev })) rid r sid) ∧
        (∀ x, x ≠ sid → NotJoined w x → NotJoined (seatPlayer (updateSess W sid
          (fun s => { s with roomId := some rid, deviceId := some dev })) rid r sid) x) := by
      intro r
      obtain ⟨-, hcore, -, hnesp, -, -⟩ := seatPlayer_spec _ rid r sid room1 _ hroom2 hs2
      refine join_like_preserves w _ sid rid (RoomLoc.player r) hu hfresh ?_ ?_ ?_ hoj
      · intro s0 rid0 l0 h
        exact (occIn_seatPlayer_cases _ rid r sid s0 rid0 l0 h).imp id (hsub2 s0 rid0 l0)
      · intro x hx
        rw [hnesp x hx]
        exact hsess2 x hx
      · rcases hl : lookupSess (seatPlayer (updateSess W sid
            (fun s => { s with roomId := some rid, deviceId := some dev })) rid r sid) sid
            with _ | s2
        · rw [hl] at hcore
          cases hcore
        · rw [hl] at hcore
          refine ⟨s2, rfl, ?_⟩
          have h1 := Option.some.inj hcore
          have h2 : s2.roomId = some rid := congrArg (fun q => q.1) h1
          rw [h2]
          simp
    by_cases hc0 : reclaimCond room1 dev 0 W.clock = true
    · rw [handleJoin_reclaim_eq W sid rid dev room1 0 hroomW hc0 (fun h => absurd h (by decide))]
      exact hseat 0
    by_cases hc1 : reclaimCond room1 dev 1 W.clock = true
    · rw [handleJoin_reclaim_eq W sid rid dev room1 1 hroomW hc1
        (fun h => bool_false_of_not_true hc0)]
      exact hseat 1
    by_cases hf0 : freshCond room1 0 W.clock = true
    · rw [handleJoin_fresh_eq W sid rid dev room1 0 hroomW (bool_false_of_not_true hc0)
        (bool_false_of_not_true hc1) hf0 (fun h => absurd h (by decide))]
      exact hseat 0
    by_cases hf1 : freshCond room1 1 W.clock = true
    · rw [handleJoin_fresh_eq W sid rid dev room1 1 hroomW (bool_false_of_not_true hc0)
        (bool_false_of_not_true hc1) hf1 (fun h => bool_false_of_not_true hf0)]
      exact hseat 1
    · rw [handleJoin_spectate_eq W sid rid dev room1 hroomW (bool_false_of_not_true hc0)
        (bool_false_of_not_true hc1) (bool_false_of_not_true hf0) (bool_false_of_not_true hf1)]
      show UniqueOcc (sendSnapshotIfAny (sendPayload (updateSess (updateRoom (updateSess W sid
          (fun s => { s with roomId := some rid, deviceId := some dev })) rid
          (fun rm => enqueueSpectator rm sid dev)) sid
          (fun s => { s with roleIdx := some (2 + (enqueueSpectator room1 sid dev).spectators.length - 1) })) sid
          (.role (2 + (enqueueSpectator room1 sid dev).spectators.length - 1))) sid
          (enqueueSpectator room1 sid dev).state).rooms ∧ _
      have hcore : (lookupSess (sendSnapshotIfAny (sendPayload (updateSess (updateRoom
          (updateSess W sid (fun s => { s with roomId := some rid, deviceId := some dev })) rid
          (fun rm => enqueueSpectator rm sid dev)) sid
          (fun s => { s with roleIdx := some (2 + (enqueueSpectator room1 sid dev).spectators.length - 1) })) sid
          (.role (2 + (enqueueSpectator room1 sid dev).spectators.length - 1))) sid
          (enqueueSpectator room1 sid dev).state) sid).map sessCore =
          some (some rid, some (2 + (enqueueSpectator room1 sid dev).spectators.length - 1),
            some dev, s.isOpen) := by
        rw [sessCore_sendSnapshotIfAny, sessCore_sendPayload, lookupSess_updateSess_self,
          lookupSess_updateRoom, hs2]
        rfl
      refine join_like_preserves w _ sid rid RoomLoc.spectator hu hfresh ?_ ?_ ?_ hoj
      · intro s0 rid0 l0 h
        have h2 : OccIn (assocUpdate (updateSess W sid
            (fun s => { s with roomId := some rid, deviceId := some dev })).rooms rid
            (fun rm => enqueueSpectator rm sid dev)) s0 rid0 l0 := by
          rw [rooms_sendSnapshotIfAny, rooms_sendPayload] at h
          exact h
        exact (occIn_enqueue_cases _ rid sid dev s0 rid0 l0 h2).imp id (hsub2 s0 rid0 l0)
      · intro x hx
        rw [lookupSess_sendSnapshotIfAny_ne _ _ _ _ hx, lookupSess_sendPayload_ne _ _ _ _ hx,
          lookupSess_updateSess_ne _ _ hx, lookupSess_updateRoom]
        exact hsess2 x hx
      · rcases hl : lookupSess (sendSnapshotIfAny (sendPayload (updateSess (updateRoom
            (updateSess W sid (fun s => { s with roomId := some rid, deviceId := some dev })) rid
            (fun rm => enqueueSpectator rm sid dev)) sid
            (fun s => { s with roleIdx := some (2 + (enqueueSpectator room1 sid dev).spectators.length - 1) })) sid
            (.role (2 + (enqueueSpectator room1 sid dev).spectators.length - 1))) sid
            (enqueueSpectator room1 sid dev).state) sid with _ | s2
        · rw [hl] at hcore
          cases hcore
        · rw [hl] at hcore
          refine ⟨s2, rfl, ?_⟩
          have h1 := Option.some.inj hcore
          have h2 : s2.roomId = some rid := congrArg (fun q => q.1) h1
          rw [h2]
          simp
  exact hmain _ hroom1 (by rw [sessions_getOrCreateRoom])
    (fun s0 rid0 l0 h => (occIn_getOrCreateRoom { w with clock := t } rid s0 rid0 l0).mp h)

/-! ### Trace induction -/

theorem run_append_singleton (tr : List (Event × Nat)) (p : Event × Nat) :
    run (tr ++ [p]) = step (run tr) p.1 p.2 := by
  unfold run runFrom
  rw [List.foldl_append]
  rfl

theorem joinSids_append (tr tr2 : List (Event × Nat)) :
    joinSids (tr ++ tr2) = joinSids tr ++ joinSids tr2 := by
  unfold joinSids
  rw [List.filterMap_append]

/-- The amended invariant: over any trace whose `join` events involve pairwise
distinct sessions, every session occupies at most one location (slot or
spectator set) in at most one room, every occupant has its `roomId` set, and
sessions that never joined have none. -/
theorem run_invariant (tr : List (Event × Nat)) (hnd : (joinSids tr).Nodup) :
    UniqueOcc (run tr).rooms ∧ OccJoined (run tr) ∧
    (∀ x, x ∉ joinSids tr → NotJoined (run tr) x) := by
  revert hnd
  induction tr using List.reverseRecOn with
  | nil =>
    intro hnd
    refine ⟨?_, ?_, ?_⟩
    · intro s0 rid1 l1 rid2 l2 h1 h2
      rcases h1 with ⟨rm, hfind, -⟩
      cases hfind
    · intro s0 rid0 l0 h
      rcases h with ⟨rm, hfind, -⟩
      cases hfind
    · intro x hx s hsx
      cases hsx
  | append_singleton tr p ih =>
    intro hnd
    rw [joinSids_append] at hnd
    obtain ⟨hnd1, hnd2, hdisj⟩ := List.nodup_append.mp hnd
    obtain ⟨hu, hoj, hnj⟩ := ih hnd1
    rw [run_append_singleton]
    have hnotin : ∀ x, x ∉ joinSids (tr ++ [p]) → x ∉ joinSids tr := by
      intro x hx hc
      exact hx (by rw [joinSids_append]; exact List.mem_append.mpr (Or.inl hc))
    rcases p with ⟨e, t⟩
    rcases e with sid | ⟨sid, rid, dev⟩ | sid | ⟨sid, pl⟩ | sid | ⟨rid, r⟩ | rid
    · obtain ⟨h1, h2, h3⟩ := preserve_connect (run tr) sid t hu hoj
      exact ⟨h1, h2, fun x hx => h3 x (hnj x (hnotin x hx))⟩
    · have hsidnotin : sid ∉ joinSids tr := by
        intro hc
        exact List.disjoint_left.mp hdisj hc (by simp [joinSids])
      obtain ⟨h1, h2, h3⟩ := preserve_join (run tr) sid rid dev t hu hoj (hnj sid hsidnotin)
      refine ⟨h1, h2, ?_⟩
      intro x hx
      have hx2 : x ≠ sid := by
        intro hceq
        subst hceq
        exact hx (by rw [joinSids_append]; exact List.mem_append.mpr (Or.inr (by simp [joinSids])))
      exact h3 x hx2 (hnj x (hnotin x hx))
    · obtain ⟨h1, h2, h3⟩ := preserve_requestState (run tr) sid t hu hoj
      exact ⟨h1, h2, fun x hx => h3 x (hnj x (hnotin x hx))⟩
    · obtain ⟨h1, h2, h3⟩ := preserve_syncState (run tr) sid pl t hu hoj
      exact ⟨h1, h2, fun x hx => h3 x (hnj x (hnotin x hx))⟩
    · obtain ⟨h1, h2, h3⟩ := preserve_close (run tr) sid t hu hoj
      exact ⟨h1, h2, fun x hx => h3 x (hnj x (hnotin x hx))⟩
    · obtain ⟨h1, h2, h3⟩ := preserve_leaseFire (run tr) rid r t hu hoj
      exact ⟨h1, h2, fun x hx => h3 x (hnj x (hnotin x hx))⟩
    · obtain ⟨h1, h2, h3⟩ := preserve_cleanupFire (run tr) rid t hu hoj
      exact ⟨h1, h2, fun x hx => h3 x (hnj x (hnotin x hx))⟩

/-- C2 (counterexample): the uniqueness invariant fails for unrestricted event
sequences. A single open session that sends `join` twice for the same room is
seated in both player slots: the join handler never checks whether the sender
is already seated, so after `connect 1; join; join` the room's slots are
`(some 1, some 1)` and session 1 occupies two locations at once. -/
theorem claim_C2_counterexample :
    ¬ UniqueOcc (run [((Event.connect 1 : Event), 0), (Event.join 1 "r" "d", 0),
      (Event.join 1 "r" "d", 1)]).rooms := by
  intro hu
  have h := hu 1 "r" (RoomLoc.player 0) "r" (RoomLoc.player 1)
    ⟨⟨(some 1, some 1), [], [], (some "d", some "d"), (0, 0), (none, none), none, 0, none⟩, rfl, rfl⟩
    ⟨⟨(some 1, some 1), [], [], (some "d", some "d"), (0, 0), (none, none), none, 0, none⟩, rfl, rfl⟩
  exact absurd h.2 (by decide)

/-- C2 (amended): at every state reachable by a trace whose `join` events come
from pairwise-distinct sessions, each session occupies at most one location —
one player slot or one spectator membership, in one room — across all rooms.
Each slot trivially holds at most one session (it is a single reference). -/
theorem claim_C2_unique_occupancy (tr : List (Event × Nat))
    (hnd : (joinSids tr).Nodup) (sid : Nat) (rid₁ rid₂ : String) (l₁ l₂ : RoomLoc)
    (h1 : OccIn (run tr).rooms sid rid₁ l₁) (h2 : OccIn (run tr).rooms sid rid₂ l₂) :
    rid₁ = rid₂ ∧ l₁ = l₂ :=
  (run_invariant tr hnd).1 sid rid₁ l₁ rid₂ l₂ h1 h2

theorem claim_C2_witness :
    (joinSids [((Event.connect 1 : Event), 0), (Event.join 1 "r" "d", 0)]).Nodup ∧
    ("r" = "r" ∧ RoomLoc.player 0 = RoomLoc.player 0) :=
  ⟨by decide, claim_C2_unique_occupancy
    [((Event.connect 1 : Event), 0), (Event.join 1 "r" "d", 0)] (by decide)
    1 "r" "r" (RoomLoc.player 0) (RoomLoc.player 0)
    ⟨⟨(some 1, none), [], [], (some "d", none), (0, 0), (none, none), none, 0, none⟩, rfl, rfl⟩
    ⟨⟨(some 1, none), [], [], (some "d", none), (0, 0), (none, none), none, 0, none⟩, rfl, rfl⟩⟩

/-- C1 (code bug): a join during the 15-minute cleanup window does not cancel
the pending room deletion — the close handler arms `cleanupTimer` but the join
handler never clears it. In the trace below, session 1 occupies room `r` and
closes at time 5, arming the cleanup for time 900005; session 2 joins the same
room at time 10 (and is seated in slot 1, with the room's `cleanupTimer` still
armed); when the timer fires at 900005 the room is deleted even though it is
occupied by the open session 2, contradicting the claim that a re-occupied
room is never deleted by that armed timer. -/
theorem claim_C1_stale_cleanup_deletes_reoccupied_room :
    (∃ room, lookupRoom (run [((Event.connect 1 : Event), 0), (Event.join 1 "r" "d", 0),
        (Event.close 1, 5), ((Event.connect 2 : Event), 10), (Event.join 2 "r" "e", 10)])
        "r" = some room ∧ room.slot 1 = some 2 ∧ room.cleanupTimer = some 900005) ∧
    sessOpen (run [((Event.connect 1 : Event), 0), (Event.join 1 "r" "d", 0),
      (Event.close 1, 5), ((Event.connect 2 : Event), 10), (Event.join 2 "r" "e", 10)]) 2 = true ∧
    lookupRoom (run [((Event.connect 1 : Event), 0), (Event.join 1 "r" "d", 0),
      (Event.close 1, 5), ((Event.connect 2 : Event), 10), (Event.join 2 "r" "e", 10),
      (Event.cleanupFire "r", 900005)]) "r" = none :=
  ⟨⟨⟨(none, some 2), [], [], (some "d", some "e"), (90005, 0), (some 90005, none), none, 0,
    some 900005⟩, rfl, rfl, rfl⟩, rfl, rfl⟩
